import Mathlib

/-!
# Stock back-end: the catalog and ledger handlers

A shallow embedding of the request handlers of `controllers/productController.go`,
`controllers/salesController.go`, `controllers/businessController.go` and
`controllers/userController.go`, and of the gate `middleware/auth.go`.

* The database is a record of tables, each a list of rows kept in primary-key order.
  Every model embeds `gorm.Model`; of its columns the handlers only depend on `ID` and
  `DeletedAt` (the soft-delete marker), so `CreatedAt` and `UpdatedAt` are not represented.
* A handler is a function from the request (the keys the authentication middleware put in
  the gin context, the path parameter, the decoded JSON body), the clock, the storage faults
  of the request and the database to the response and the database afterwards.
* A storage fault (`Faults`) makes one statement of the request return an error; a
  transaction (`Tx`) keeps the database it began with, to which `Rollback` returns.
* Go `int` is 64 bits wide: subtraction wraps (`wrapInt64`).
* Go `float64` is kept abstract (`Float64Ops`): the handlers only convert an `int`, multiply
  and (inside gorm) compare with zero.
* bcrypt and the JWT library are collaborators (`Env`); a token string is described by what
  the parser finds in it (`Token`).
-/

namespace StockBack

/-! ## Machine arithmetic -/

/-- Two-complement wrap-around of a mathematical integer into the range of a Go `int`. -/
def wrapInt64 (x : Int) : Int := (x + 2 ^ 63) % 2 ^ 64 - 2 ^ 63

/-- The values a Go `int` can hold. -/
def isInt64 (x : Int) : Prop := -(2 ^ 63) ≤ x ∧ x < 2 ^ 63

instance (x : Int) : Decidable (isInt64 x) := by unfold isInt64; infer_instance

/-- The operations the handlers use on Go `float64` values. -/
class Float64Ops (F : Type) where
  /-- The conversion `float64(n)` of a Go `int`. -/
  ofInt : Int → F
  /-- The product `a * b`. -/
  mul : F → F → F
  /-- The comparison `x == 0` by which gorm decides that a float field is blank. -/
  isZero : F → Bool

/-- The integer-valued floats: on whole amounts (below `2 ^ 53`) float64 conversion and
multiplication are exact, so they are the operations of `Int`. -/
instance : Float64Ops Int where
  ofInt n := n
  mul a b := a * b
  isZero x := x == 0

/-- The table of `unicode.ToLower` above ASCII: the simple lowercase mappings of the Unicode
character database (version 14). An entry `(lo, hi, step, to)` maps the code points `lo`,
`lo + step`, ... up to `hi` to the code points at the same distance from `to`. -/
def caseRanges : List (Nat × Nat × Nat × Nat) :=
  [(192, 214, 1, 224), (216, 222, 1, 248), (256, 302, 2, 257), (304, 304, 1, 105),
   (306, 310, 2, 307), (313, 327, 2, 314), (330, 374, 2, 331), (376, 376, 1, 255),
   (377, 381, 2, 378), (385, 385, 1, 595), (386, 388, 2, 387), (390, 390, 1, 596),
   (391, 391, 1, 392), (393, 394, 1, 598), (395, 395, 1, 396), (398, 398, 1, 477),
   (399, 399, 1, 601), (400, 400, 1, 603), (401, 401, 1, 402), (403, 403, 1, 608),
   (404, 404, 1, 611), (406, 406, 1, 617), (407, 407, 1, 616), (408, 408, 1, 409),
   (412, 412, 1, 623), (413, 413, 1, 626), (415, 415, 1, 629), (416, 420, 2, 417),
   (422, 422, 1, 640), (423, 423, 1, 424), (425, 425, 1, 643), (428, 428, 1, 429),
   (430, 430, 1, 648), (431, 431, 1, 432), (433, 434, 1, 650), (435, 437, 2, 436),
   (439, 439, 1, 658), (440, 440, 1, 441), (444, 444, 1, 445), (452, 452, 1, 454),
   (453, 453, 1, 454), (455, 455, 1, 457), (456, 456, 1, 457), (458, 458, 1, 460),
   (459, 475, 2, 460), (478, 494, 2, 479), (497, 497, 1, 499), (498, 500, 2, 499),
   (502, 502, 1, 405), (503, 503, 1, 447), (504, 542, 2, 505), (544, 544, 1, 414),
   (546, 562, 2, 547), (570, 570, 1, 11365), (571, 571, 1, 572), (573, 573, 1, 410),
   (574, 574, 1, 11366), (577, 577, 1, 578), (579, 579, 1, 384), (580, 580, 1, 649),
   (581, 581, 1, 652), (582, 590, 2, 583), (880, 882, 2, 881), (886, 886, 1, 887),
   (895, 895, 1, 1011), (902, 902, 1, 940), (904, 906, 1, 941), (908, 908, 1, 972),
   (910, 911, 1, 973), (913, 929, 1, 945), (931, 939, 1, 963), (975, 975, 1, 983),
   (984, 1006, 2, 985), (1012, 1012, 1, 952), (1015, 1015, 1, 1016), (1017, 1017, 1, 1010),
   (1018, 1018, 1, 1019), (1021, 1023, 1, 891), (1024, 1039, 1, 1104), (1040, 1071, 1, 1072),
   (1120, 1152, 2, 1121), (1162, 1214, 2, 1163), (1216, 1216, 1, 1231), (1217, 1229, 2, 1218),
   (1232, 1326, 2, 1233), (1329, 1366, 1, 1377), (4256, 4293, 1, 11520), (4295, 4295, 1, 11559),
   (4301, 4301, 1, 11565), (5024, 5103, 1, 43888), (5104, 5109, 1, 5112), (7312, 7354, 1, 4304),
   (7357, 7359, 1, 4349), (7680, 7828, 2, 7681), (7838, 7838, 1, 223), (7840, 7934, 2, 7841),
   (7944, 7951, 1, 7936), (7960, 7965, 1, 7952), (7976, 7983, 1, 7968), (7992, 7999, 1, 7984),
   (8008, 8013, 1, 8000), (8025, 8031, 2, 8017), (8040, 8047, 1, 8032), (8072, 8079, 1, 8064),
   (8088, 8095, 1, 8080), (8104, 8111, 1, 8096), (8120, 8121, 1, 8112), (8122, 8123, 1, 8048),
   (8124, 8124, 1, 8115), (8136, 8139, 1, 8050), (8140, 8140, 1, 8131), (8152, 8153, 1, 8144),
   (8154, 8155, 1, 8054), (8168, 8169, 1, 8160), (8170, 8171, 1, 8058), (8172, 8172, 1, 8165),
   (8184, 8185, 1, 8056), (8186, 8187, 1, 8060), (8188, 8188, 1, 8179), (8486, 8486, 1, 969),
   (8490, 8490, 1, 107), (8491, 8491, 1, 229), (8498, 8498, 1, 8526), (8544, 8559, 1, 8560),
   (8579, 8579, 1, 8580), (9398, 9423, 1, 9424), (11264, 11311, 1, 11312),
   (11360, 11360, 1, 11361), (11362, 11362, 1, 619), (11363, 11363, 1, 7549),
   (11364, 11364, 1, 637), (11367, 11371, 2, 11368), (11373, 11373, 1, 593),
   (11374, 11374, 1, 625), (11375, 11375, 1, 592), (11376, 11376, 1, 594),
   (11378, 11378, 1, 11379), (11381, 11381, 1, 11382), (11390, 11391, 1, 575),
   (11392, 11490, 2, 11393), (11499, 11501, 2, 11500), (11506, 11506, 1, 11507),
   (42560, 42604, 2, 42561), (42624, 42650, 2, 42625), (42786, 42798, 2, 42787),
   (42802, 42862, 2, 42803), (42873, 42875, 2, 42874), (42877, 42877, 1, 7545),
   (42878, 42886, 2, 42879), (42891, 42891, 1, 42892), (42893, 42893, 1, 613),
   (42896, 42898, 2, 42897), (42902, 42920, 2, 42903), (42922, 42922, 1, 614),
   (42923, 42923, 1, 604), (42924, 42924, 1, 609), (42925, 42925, 1, 620),
   (42926, 42926, 1, 618), (42928, 42928, 1, 670), (42929, 42929, 1, 647),
   (42930, 42930, 1, 669), (42931, 42931, 1, 43859), (42932, 42946, 2, 42933),
   (42948, 42948, 1, 42900), (42949, 42949, 1, 642), (42950, 42950, 1, 7566),
   (42951, 42953, 2, 42952), (42960, 42960, 1, 42961), (42966, 42968, 2, 42967),
   (42997, 42997, 1, 42998), (65313, 65338, 1, 65345), (66560, 66599, 1, 66600),
   (66736, 66771, 1, 66776), (66928, 66938, 1, 66967), (66940, 66954, 1, 66979),
   (66956, 66962, 1, 66995), (66964, 66965, 1, 67003), (68736, 68786, 1, 68800),
   (71840, 71871, 1, 71872), (93760, 93791, 1, 93792), (125184, 125217, 1, 125218)]

/-- The function `unicode.ToLower` on one rune: the letters `A` to `Z` are moved to `a` to
`z`, another ASCII rune is left as it is, and a rune above ASCII is looked up in the
table. -/
def unicodeToLower (c : Char) : Char :=
  if c.toNat < 128 then Char.toLower c
  else
    match caseRanges.find? (fun range =>
      decide (range.1 ≤ c.toNat) && (decide (c.toNat ≤ range.2.1) &&
        (c.toNat - range.1) % range.2.2.1 == 0)) with
    | some range => Char.ofNat (range.2.2.2 + (c.toNat - range.1))
    | none => c

/-- The lower-case form of a string, as `strings.ToLower` in Go and `LOWER` in the database
compute it: every rune is mapped by `unicode.ToLower`. -/
def lower (s : String) : String := String.mk (s.data.map unicodeToLower)

/-! ## Tables (`models/*.go`) -/

/-- A row of `products` (`models.Product`). -/
structure Product (F : Type) where
  ID : Nat
  DeletedAt : Option Nat
  BusinessID : Nat
  CategoryID : Nat
  Name : String
  Description : String
  Quantity : Int
  Price : F
deriving DecidableEq, Repr

/-- A row of `stocks` (`models.Stock`): one inbound-stock event. -/
structure Stock where
  ID : Nat
  DeletedAt : Option Nat
  BusinessID : Nat
  ProductID : Nat
  Quantity : Int
  AddedAt : Nat
deriving DecidableEq, Repr

/-- A row of `sales` (`models.Sale`): one outbound-stock event. -/
structure Sale (F : Type) where
  ID : Nat
  DeletedAt : Option Nat
  BusinessID : Nat
  ProductID : Nat
  Quantity : Int
  Total : F
  SoldAt : Nat
deriving DecidableEq, Repr

/-- A row of `categories` (`models.Category`). -/
structure Category where
  ID : Nat
  DeletedAt : Option Nat
  BusinessID : Nat
  Name : String
deriving DecidableEq, Repr

/-- A row of `users` (`models.User`). `Password` holds the bcrypt hash; `BusinessID` is 0 for
a user that is not assigned to a business. -/
structure User where
  ID : Nat
  DeletedAt : Option Nat
  FirstName : String
  LastName : String
  Email : String
  Password : String
  Role : String
  BusinessID : Nat
deriving DecidableEq, Repr

/-- A row of `businesses` (`models.Business`). `Password` holds the bcrypt hash. -/
structure Business where
  ID : Nat
  DeletedAt : Option Nat
  BusinessName : String
  Password : String
deriving DecidableEq, Repr

/-- The database `database.DB`. -/
structure Store (F : Type) where
  products : List (Product F) := []
  stocks : List Stock := []
  sales : List (Sale F) := []
  categories : List Category := []
  users : List User := []
  businesses : List Business := []
deriving DecidableEq, Repr

/-! ## Requests and responses -/

/-- The keys `AuthMiddleware` sets in the gin context (`c.Set`); a key that was not set is
`none`, which is what `c.Get` reports as `exists == false`. -/
structure Context where
  user_id : Option Nat := none
  business_id : Option Nat := none
  email : Option String := none
  role : Option String := none
  exp : Option Nat := none
deriving DecidableEq, Repr

/-- The storage errors of one request: `true` makes the statement return an error that is not
`gorm.ErrRecordNotFound`. `load` is the SELECT of the row named by the request, `check` the
uniqueness SELECT, `write1` and `write2` the first and the second write statement, `commit`
the `tx.Commit()`. -/
structure Faults where
  load : Bool := false
  check : Bool := false
  write1 : Bool := false
  write2 : Bool := false
  commit : Bool := false
deriving DecidableEq, Repr

/-- The JSON body of `CreateSale` (`saleInput`). -/
structure SaleInput where
  ProductID : Nat
  Quantity : Int
deriving DecidableEq, Repr

/-- The JSON body of `CreateProduct` and `UpdateProduct` (`input`). -/
structure ProductInput (F : Type) where
  Name : String
  Description : String
  Quantity : Int
  Price : F
  CategoryID : Nat
deriving DecidableEq, Repr

/-- A JSON value as a claim of a token holds it. A number is a `float64` in Go; the numbers
this server writes into its tokens are unsigned integers (row keys and Unix seconds), and
those are the numbers represented. -/
inductive JSONValue where
  | number (n : Nat)
  | string (s : String)
  | other
deriving DecidableEq, Repr

/-- The claims of a token, `jwt.MapClaims`: a map from names to JSON values. -/
abbrev MapClaims := List (String × JSONValue)

/-- The value `claims[key]` of a `jwt.MapClaims` (`none` for a key that is not in the map). -/
def MapClaims.get (claims : MapClaims) (key : String) : Option JSONValue :=
  List.lookup key claims

/-- A token string, described by what `jwt.Parse` finds in it: whether it has the three
segments of a JWT that decode, whether its header names an HMAC signing method, whether its
signature verifies under `JWT_SECRET`, and its claims. -/
structure Token where
  wellFormed : Bool
  hmac : Bool
  signatureValid : Bool
  claims : MapClaims
deriving DecidableEq, Repr

/-- What a handler serialises with `c.JSON`. -/
inductive Body (F : Type) where
  /-- The object `gin.H{"error": msg}` with a literal message. -/
  | error (msg : String)
  /-- The object `gin.H{"error": err.Error()}` for the error of `ShouldBindJSON`. -/
  | bindError
  /-- The object `gin.H{"error": err.Error()}` for the error of a database statement. -/
  | dbError
  /-- A bare JSON string. -/
  | text (msg : String)
  | sale (s : Sale F)
  | product (p : Product F)
  | products (ps : List (Product F))
  /-- The object `gin.H{"message": msg, "product": p}`. -/
  | created (msg : String) (p : Product F)
  /-- The object `gin.H{"message": msg}`. -/
  | message (msg : String)
  | category (c : Category)
  /-- The object `gin.H{"message": msg, "user": u}`. -/
  | userCreated (msg : String) (u : User)
  /-- The object `gin.H{"message": msg, "user_id": id}`. -/
  | loggedIn (msg : String) (id : Nat)
  /-- The object `gin.H{"message": msg, "business": gin.H{"id": id, "name": name}}`. -/
  | businessCreated (msg : String) (id : Nat) (name : String)
  /-- The object `gin.H{"business": gin.H{"id": id, "name": name}, "expires_at": exp}`. -/
  | businessLoggedIn (id : Nat) (name : String) (exp : Nat)
  /-- The object `gin.H{"message": msg, "user": gin.H{"id": id, "first_name": first_name,
  "last_name": last_name, "email": email, "role": role, "business_id": business_id}}`. -/
  | employeeCreated (msg : String) (id : Nat) (first_name last_name email role : String)
      (business_id : Nat)
  /-- The object `gin.H{key: n}` for a row count. -/
  | count (key : String) (n : Nat)
deriving DecidableEq, Repr

/-- The HTTP response: the status and the body of `c.JSON`, and the token of the
`Set-Cookie` header when the handler sets one. -/
structure Response (F : Type) where
  status : Nat
  body : Body F
  cookie : Option Token := none
deriving DecidableEq, Repr

/-! ## gorm -/

/-- The outcome of `First`: the row, `gorm.ErrRecordNotFound`, or another error. -/
inductive QueryResult (α : Type) where
  | found (row : α)
  | recordNotFound
  | failed
deriving DecidableEq, Repr

/-- The query `DB.Where(cond).First(&row)`: the first row in primary-key order that
satisfies the condition. -/
def First {α : Type} (fault : Bool) (rows : List α) (cond : α → Bool) : QueryResult α :=
  if fault then QueryResult.failed
  else
    match rows.find? cond with
    | some row => QueryResult.found row
    | none => QueryResult.recordNotFound

/-- The primary key of the next inserted row: a key above every key of the table, deleted
rows included. -/
def nextID (ids : List Nat) : Nat := ids.foldr max 0 + 1

/-- A transaction `tx`: the committed database when it began and the database as the
statements of the transaction have left it. -/
structure Tx (F : Type) where
  base : Store F
  cur : Store F

/-- The call `database.DB.Begin()`. -/
def Begin {F : Type} (db : Store F) : Tx F := { base := db, cur := db }

/-- The call `tx.Rollback()`: the database is the one the transaction began with. -/
def Rollback {F : Type} (tx : Tx F) : Store F := tx.base

/-- The call `tx.Commit()`: the writes become the database, unless the commit fails. -/
def Commit {F : Type} (fault : Bool) (tx : Tx F) : Store F :=
  if fault then tx.base else tx.cur

/-- The statement `tx.Create(&product)`: the row gets the next primary key, written back
into the value. -/
def Tx.createProduct {F : Type} (tx : Tx F) (product : Product F) : Product F × Tx F :=
  let product := { product with ID := nextID (tx.cur.products.map Product.ID) }
  (product, { tx with cur := { tx.cur with products := tx.cur.products ++ [product] } })

/-- The statement `tx.Create(&stock)`. -/
def Tx.createStock {F : Type} (tx : Tx F) (stock : Stock) : Stock × Tx F :=
  let stock := { stock with ID := nextID (tx.cur.stocks.map Stock.ID) }
  (stock, { tx with cur := { tx.cur with stocks := tx.cur.stocks ++ [stock] } })

/-- The statement `tx.Create(&sale)`. -/
def Tx.createSale {F : Type} (tx : Tx F) (sale : Sale F) : Sale F × Tx F :=
  let sale := { sale with ID := nextID (tx.cur.sales.map Sale.ID) }
  (sale, { tx with cur := { tx.cur with sales := tx.cur.sales ++ [sale] } })

/-- The statement `tx.Save(&product)` for a value whose primary key is set: every column of
the live row with that key is written from the value, zero values included. (The handler
saves a row it has just read, so the insert gorm falls back to when no row is affected does
not arise.) -/
def Tx.saveProduct {F : Type} (tx : Tx F) (product : Product F) : Tx F :=
  let rows := tx.cur.products.map (fun row =>
    if row.DeletedAt.isNone && row.ID == product.ID then product else row)
  { tx with cur := { tx.cur with products := rows } }

/-- What `Updates(updateData)` does to a product value or row when `updateData` is a struct:
gorm writes the fields of `updateData` that are not blank (`0`, `""`, `0.0`) and leaves the
others as they are. -/
def applyUpdates {F : Type} [Float64Ops F] (updateData row : Product F) : Product F :=
  { row with
    CategoryID := if updateData.CategoryID == 0 then row.CategoryID else updateData.CategoryID
    Name := if updateData.Name == "" then row.Name else updateData.Name
    Description :=
      if updateData.Description == "" then row.Description else updateData.Description
    Quantity := if updateData.Quantity == 0 then row.Quantity else updateData.Quantity
    Price := if Float64Ops.isZero updateData.Price then row.Price else updateData.Price }

/-- The statement `tx.Model(&product).Updates(updateData)`: the live row with the primary key
of `product` is updated. -/
def Tx.updatesProduct {F : Type} [Float64Ops F] (tx : Tx F) (product updateData : Product F) :
    Tx F :=
  let rows := tx.cur.products.map (fun row =>
    if row.DeletedAt.isNone && row.ID == product.ID then applyUpdates updateData row else row)
  { tx with cur := { tx.cur with products := rows } }

/-- The statement `database.DB.Delete(&products)` on an empty slice with no condition: the
soft delete `UPDATE products SET deleted_at = now WHERE deleted_at IS NULL`. -/
def deleteProducts {F : Type} (now : Nat) (rows : List (Product F)) : List (Product F) :=
  rows.map (fun row => if row.DeletedAt.isNone then { row with DeletedAt := some now } else row)

/-! ## Handlers -/

/-- The call `c.ShouldBindJSON(&saleInput)`: `body` is the decoded JSON (`none` when it does
not decode), and the tags `binding:"required"` and `binding:"required,gt=0"` reject a zero
`product_id` and a `quantity` that is not positive. -/
def bindSaleInput (body : Option SaleInput) : Option SaleInput :=
  match body with
  | none => none
  | some saleInput =>
    if saleInput.ProductID == 0 then none
    else if saleInput.Quantity == 0 then none
    else if saleInput.Quantity > 0 then some saleInput
    else none

/-- The handler `CreateSale` of `controllers/salesController.go`. -/
def CreateSale {F : Type} [Float64Ops F] (c : Context) (body : Option SaleInput) (now : Nat)
    (flt : Faults) (db : Store F) : Response F × Store F :=
  match c.business_id with
  | none => ({ status := 401, body := Body.error "Unauthorized - Business context required" }, db)
  | some businessID =>
  match bindSaleInput body with
  | none => ({ status := 400, body := Body.bindError }, db)
  | some saleInput =>
  match First flt.load db.products (fun row =>
      row.DeletedAt.isNone && (row.ID == saleInput.ProductID && row.BusinessID == businessID)) with
  | QueryResult.recordNotFound =>
    ({ status := 404, body := Body.error "Product not found in your business" }, db)
  | QueryResult.failed =>
    ({ status := 404, body := Body.error "Product not found in your business" }, db)
  | QueryResult.found product =>
  if product.Quantity < saleInput.Quantity then
    ({ status := 400, body := Body.error "Insufficient stock" }, db)
  else
  let sale : Sale F :=
    { ID := 0, DeletedAt := none, BusinessID := businessID, ProductID := product.ID,
      Quantity := saleInput.Quantity,
      Total := Float64Ops.mul (Float64Ops.ofInt saleInput.Quantity) product.Price,
      SoldAt := now }
  let tx := Begin db
  if flt.write1 then
    ({ status := 500, body := Body.error "Failed to record sale" }, Rollback tx)
  else
  let created := tx.createSale sale
  let product := { product with Quantity := wrapInt64 (product.Quantity - saleInput.Quantity) }
  if flt.write2 then
    ({ status := 500, body := Body.error "Failed to update inventory" }, Rollback created.2)
  else
  let tx := created.2.saveProduct product
  ({ status := 201, body := Body.sale created.1 }, Commit flt.commit tx)

/-- The handler `CreateProduct` of `controllers/productController.go`. The input struct has
no binding tags, so every body that decodes is accepted. -/
def CreateProduct {F : Type} [Float64Ops F] (c : Context) (body : Option (ProductInput F))
    (now : Nat) (flt : Faults) (db : Store F) : Response F × Store F :=
  match c.business_id with
  | none => ({ status := 401, body := Body.error "Unauthorized" }, db)
  | some businessID =>
  match body with
  | none => ({ status := 400, body := Body.bindError }, db)
  | some input =>
  match First flt.check db.products (fun row =>
      row.DeletedAt.isNone && (row.BusinessID == businessID &&
        (row.CategoryID == input.CategoryID && lower row.Name == lower input.Name))) with
  | QueryResult.found _ =>
    ({ status := 409,
       body := Body.error "Product with this name already exists in this category" }, db)
  | QueryResult.failed => ({ status := 500, body := Body.dbError }, db)
  | QueryResult.recordNotFound =>
  let tx := Begin db
  let product : Product F :=
    { ID := 0, DeletedAt := none, BusinessID := businessID, CategoryID := input.CategoryID,
      Name := input.Name, Description := input.Description, Quantity := input.Quantity,
      Price := input.Price }
  if flt.write1 then ({ status := 500, body := Body.dbError }, Rollback tx) else
  let created := tx.createProduct product
  let stock : Stock :=
    { ID := 0, DeletedAt := none, BusinessID := businessID, ProductID := created.1.ID,
      Quantity := input.Quantity, AddedAt := now }
  if flt.write2 then ({ status := 500, body := Body.dbError }, Rollback created.2) else
  let tx := (created.2.createStock stock).2
  ({ status := 201, body := Body.created "Product created successfully" created.1 },
    Commit flt.commit tx)

/-- The value `updateData` of `UpdateProduct`: a `models.Product` in which only the five
requested fields are set. -/
def ProductInput.updateData {F : Type} (input : ProductInput F) : Product F :=
  { ID := 0, DeletedAt := none, BusinessID := 0, CategoryID := input.CategoryID,
    Name := input.Name, Description := input.Description, Quantity := input.Quantity,
    Price := input.Price }

/-- The block `// Check for name conflict` of `UpdateProduct`: when the name or the category
changes, the lookup of another live product of the business with that category and, up to
case, that name; otherwise no lookup, which is the outcome `recordNotFound`. -/
def nameConflict {F : Type} (flt : Faults) (db : Store F) (businessID : Nat)
    (product : Product F) (input : ProductInput F) : QueryResult (Product F) :=
  if input.Name != product.Name || input.CategoryID != product.CategoryID then
    First flt.check db.products (fun row =>
      row.DeletedAt.isNone && (row.BusinessID == businessID &&
        (row.CategoryID == input.CategoryID &&
          (lower row.Name == lower input.Name && row.ID != product.ID))))
  else QueryResult.recordNotFound

/-- The handler `UpdateProduct` of `controllers/productController.go`. The path parameter
`id` is `none` when the database cannot read it as an integer. -/
def UpdateProduct {F : Type} [Float64Ops F] (c : Context) (id : Option Nat)
    (body : Option (ProductInput F)) (now : Nat) (flt : Faults) (db : Store F) :
    Response F × Store F :=
  match c.business_id with
  | none => ({ status := 401, body := Body.error "Unauthorized" }, db)
  | some businessID =>
  match First (flt.load || id.isNone) db.products (fun row =>
      row.DeletedAt.isNone && (row.BusinessID == businessID && some row.ID == id)) with
  | QueryResult.recordNotFound => ({ status := 404, body := Body.error "Product not found" }, db)
  | QueryResult.failed => ({ status := 500, body := Body.dbError }, db)
  | QueryResult.found product =>
  match body with
  | none => ({ status := 400, body := Body.bindError }, db)
  | some input =>
  match nameConflict flt db businessID product input with
  | QueryResult.found _ =>
    ({ status := 409,
       body := Body.error "Product with this name already exists in this category" }, db)
  | QueryResult.failed => ({ status := 500, body := Body.dbError }, db)
  | QueryResult.recordNotFound =>
  let oldQuantity := product.Quantity
  let quantityDiff := wrapInt64 (input.Quantity - oldQuantity)
  let tx := Begin db
  let updateData := input.updateData
  if flt.write1 then ({ status := 500, body := Body.dbError }, Rollback tx) else
  let tx := tx.updatesProduct product updateData
  let product := applyUpdates updateData product
  if quantityDiff > 0 then
    let stock : Stock :=
      { ID := 0, DeletedAt := none, BusinessID := businessID, ProductID := product.ID,
        Quantity := quantityDiff, AddedAt := now }
    if flt.write2 then ({ status := 500, body := Body.dbError }, Rollback tx) else
    let tx := (tx.createStock stock).2
    ({ status := 200, body := Body.product product }, Commit flt.commit tx)
  else
    ({ status := 200, body := Body.product product }, Commit flt.commit tx)

/-- The handler `GetCategoryProducts` of `controllers/businessController.go`. -/
def GetCategoryProducts {F : Type} (_c : Context) (id : Option Nat) (flt : Faults)
    (db : Store F) : Response F × Store F :=
  if flt.load || id.isNone then ({ status := 500, body := Body.dbError }, db)
  else
    let products := db.products.filter (fun row =>
      row.DeletedAt.isNone && some row.CategoryID == id)
    ({ status := 200, body := Body.products products }, db)

/-- The handler `DeleteAll` of `controllers/productController.go`. The value the handler
tests, `database.DB.Delete(&products)`, is the `*gorm.DB` handle and never nil, so the error
response is sent whether or not the statement failed. -/
def DeleteAll {F : Type} (_c : Context) (now : Nat) (flt : Faults) (db : Store F) :
    Response F × Store F :=
  let db := if flt.write1 then db else { db with products := deleteProducts now db.products }
  ({ status := 500, body := Body.error "could not delete products" }, db)

/-! ## Reading the database -/

/-- The live product with primary key `id` that business `businessID` owns. -/
def Store.product {F : Type} (db : Store F) (businessID id : Nat) : Option (Product F) :=
  db.products.find? (fun row =>
    row.DeletedAt.isNone && (row.ID == id && row.BusinessID == businessID))

/-- The live product of business `businessID` in category `categoryID` that carries, up to
case, the name `name`. -/
def Store.productNamed {F : Type} (db : Store F) (businessID categoryID : Nat) (name : String) :
    Option (Product F) :=
  db.products.find? (fun row =>
    row.DeletedAt.isNone && (row.BusinessID == businessID &&
      (row.CategoryID == categoryID && lower row.Name == lower name)))

/-- The sum of the live stock entries of a product. -/
def Store.stockSum {F : Type} (db : Store F) (productID : Nat) : Int :=
  ((db.stocks.filter (fun row => row.DeletedAt.isNone && row.ProductID == productID)).map
    Stock.Quantity).sum

/-- The sum of the live sales of a product. -/
def Store.saleSum {F : Type} (db : Store F) (productID : Nat) : Int :=
  ((db.sales.filter (fun row => row.DeletedAt.isNone && row.ProductID == productID)).map
    Sale.Quantity).sum

end StockBack

namespace StockBack

/-- Every product row holds a quantity that is not negative (and is a Go `int`). -/
def Store.quantitiesNonneg {F : Type} (db : Store F) : Prop :=
  ∀ row ∈ db.products, 0 ≤ row.Quantity ∧ isInt64 row.Quantity

instance {F : Type} (db : Store F) : Decidable db.quantitiesNonneg := by
  unfold Store.quantitiesNonneg; infer_instance

end StockBack

namespace StockBack

/-! ## The ledger paths of one product -/

/-- A request on one of the two ledger paths of a product: a sale (`CreateSale`) or a stock
addition (`UpdateProduct` with a larger quantity). -/
inductive LedgerRequest (F : Type) where
  | sale (c : Context) (n : Int) (now : Nat) (flt : Faults)
  | addStock (c : Context) (input : ProductInput F) (now : Nat) (flt : Faults)

/-- The request carries values of Go `int`. -/
def LedgerRequest.wellTyped {F : Type} : LedgerRequest F → Prop
  | LedgerRequest.sale _ n _ _ => isInt64 n
  | LedgerRequest.addStock _ input _ _ => isInt64 input.Quantity

instance {F : Type} (request : LedgerRequest F) : Decidable request.wellTyped := by
  cases request <;> unfold LedgerRequest.wellTyped <;> infer_instance

/-- The request raises the quantity of the product above the stored one. -/
def raisesQuantity {F : Type} (db : Store F) (businessID id : Nat) (input : ProductInput F) :
    Bool :=
  match db.product businessID id with
  | some product => decide (product.Quantity < input.Quantity)
  | none => false

/-- One successful operation of business `businessID` on product `id`: the database after
the request, or `none` when the request is not made for the business, is not answered with
success, is not committed, or (for `UpdateProduct`) does not raise the quantity. -/
def ledgerStep {F : Type} [Float64Ops F] (businessID id : Nat) (db : Store F) :
    LedgerRequest F → Option (Store F)
  | LedgerRequest.sale c n now flt =>
    if c.business_id = some businessID ∧ flt.commit = false ∧
        (CreateSale c (some { ProductID := id, Quantity := n }) now flt db).1.status = 201 then
      some (CreateSale c (some { ProductID := id, Quantity := n }) now flt db).2
    else none
  | LedgerRequest.addStock c input now flt =>
    if c.business_id = some businessID ∧ flt.commit = false ∧
        (UpdateProduct c (some id) (some input) now flt db).1.status = 200 ∧
        raisesQuantity db businessID id input = true then
      some (UpdateProduct c (some id) (some input) now flt db).2
    else none

/-- A sequence of successful operations on the product, from left to right. -/
def ledgerRun {F : Type} [Float64Ops F] (businessID id : Nat) :
    List (LedgerRequest F) → Store F → Option (Store F)
  | [], db => some db
  | request :: rest, db =>
    match ledgerStep businessID id db request with
    | some next => ledgerRun businessID id rest next
    | none => none

/-- The conservation law of product `id` relative to a starting quantity `q0` and the
ledger sums `stock0`, `sale0` at the start: the product is live, its quantity is a
non-negative Go `int`, and it is `q0` plus the stock entries added since minus the sales
recorded since. -/
def ledgerInvariant {F : Type} (businessID id : Nat) (q0 stock0 sale0 : Int) (db : Store F) :
    Prop :=
  ∃ product, db.product businessID id = some product ∧ 0 ≤ product.Quantity ∧
    isInt64 product.Quantity ∧
    product.Quantity = q0 + (db.stockSum id - stock0) - (db.saleSum id - sale0)

/-! ## Sample data: the scenarios of the specification -/

/-- The principal of business 1. -/
def acme : Context :=
  { user_id := some 1, business_id := some 1, email := some "owner@acme.test",
    role := some "admin", exp := some 1000 }

/-- The principal of business 2. -/
def rival : Context :=
  { user_id := some 2, business_id := some 2, email := some "owner@rival.test",
    role := some "admin", exp := some 1000 }

/-- No statement fails. -/
def noFaults : Faults := {}

/-- The request that creates the product "Chips": 50 units at 2.00 in category 1. -/
def chips : ProductInput Int :=
  { Name := "Chips", Description := "salted", Quantity := 50, Price := 2, CategoryID := 1 }

/-- The row of "Chips" after its creation. -/
def chipsRow : Product Int :=
  { ID := 1, DeletedAt := none, BusinessID := 1, CategoryID := 1, Name := "Chips",
    Description := "salted", Quantity := 50, Price := 2 }

/-- Scenario A: business 1 has created "Chips". -/
def scenarioA : Store Int :=
  { products := [chipsRow],
    stocks := [{ ID := 1, DeletedAt := none, BusinessID := 1, ProductID := 1, Quantity := 50,
                 AddedAt := 10 }],
    categories := [{ ID := 1, DeletedAt := none, BusinessID := 1, Name := "Snacks" }] }

/-- Scenario B: from scenario A, 10 units of "Chips" were sold. -/
def scenarioB : Store Int :=
  { scenarioA with
    products := [{ chipsRow with Quantity := 40 }],
    sales := [{ ID := 1, DeletedAt := none, BusinessID := 1, ProductID := 1, Quantity := 10,
                Total := 20, SoldAt := 11 }] }

/-- A product created with a negative quantity: business 1 holds "Chips" at -5 units. -/
def scenarioNegative : Store Int :=
  (CreateProduct acme (some { chips with Quantity := -5 }) 10 noFaults {}).2

/-- Scenarios B and D on "Chips": a sale of 10, an update to 60 units, a sale of 5. -/
def ledgerSample : List (LedgerRequest Int) :=
  [LedgerRequest.sale acme 10 11 noFaults,
   LedgerRequest.addStock acme { chips with Quantity := 60 } 12 noFaults,
   LedgerRequest.sale acme 5 13 noFaults]

/-- The database after the operations of `ledgerSample` on scenario A. -/
def scenarioD : Store Int := (ledgerRun 1 1 ledgerSample scenarioA).getD {}

end StockBack

namespace StockBack

/-! ## Categories and the sales history -/

/-- The white space of `unicode.IsSpace`, which `strings.TrimSpace` removes. -/
def isSpace (ch : Char) : Bool :=
  let n := ch.toNat
  (9 ≤ n && n ≤ 13) || n == 32 || n == 133 || n == 160 || n == 5760 ||
    (8192 ≤ n && n ≤ 8202) || n == 8232 || n == 8233 || n == 8239 || n == 8287 || n == 12288

/-- The function `strings.TrimSpace`: the string without its leading and trailing white
space. -/
def trim (s : String) : String :=
  String.mk ((s.data.dropWhile isSpace).reverse.dropWhile isSpace).reverse

/-- The JSON body of `CreateCategory` (`input`). -/
structure CategoryInput where
  Name : String
deriving DecidableEq, Repr

/-- The call `c.ShouldBindJSON(&input)` of `CreateCategory`: the tag
`binding:"required,min=2,max=50"` rejects an empty name and a name of fewer than 2 or more
than 50 characters. -/
def bindCategoryInput (body : Option CategoryInput) : Option CategoryInput :=
  match body with
  | none => none
  | some input =>
    if input.Name == "" then none
    else if input.Name.length < 2 then none
    else if input.Name.length > 50 then none
    else some input

/-- The handler `CreateCategory` of `controllers/businessController.go`. The lookup compares
the lower-cased name as it was sent; the row stores the trimmed name. The `categories` table
carries no uniqueness constraint (the tag `uniqueIndex` of `models.Category` is not one this
version of gorm reads), so the insert fails only by a storage fault. -/
def CreateCategory {F : Type} (c : Context) (body : Option CategoryInput) (flt : Faults)
    (db : Store F) : Response F × Store F :=
  match c.business_id with
  | none => ({ status := 401, body := Body.error "Unauthorized - Business context required" }, db)
  | some businessID =>
  match bindCategoryInput body with
  | none => ({ status := 400, body := Body.bindError }, db)
  | some input =>
  match First flt.check db.categories (fun row =>
      row.DeletedAt.isNone && (row.BusinessID == businessID &&
        lower row.Name == lower input.Name)) with
  | QueryResult.found _ =>
    ({ status := 409, body := Body.error "Category name already exists in your business" }, db)
  | QueryResult.failed => ({ status := 500, body := Body.error "Database error" }, db)
  | QueryResult.recordNotFound =>
  let category : Category :=
    { ID := 0, DeletedAt := none, BusinessID := businessID, Name := trim input.Name }
  if flt.write1 then ({ status := 500, body := Body.error "Failed to create category" }, db)
  else
  let category := { category with ID := nextID (db.categories.map Category.ID) }
  ({ status := 201, body := Body.category category },
    { db with categories := db.categories ++ [category] })

/-- The statement `database.DB.Delete(&category)`: the soft delete of the live row with the
primary key of the value. -/
def deleteCategory (now : Nat) (category : Category) (rows : List Category) : List Category :=
  rows.map (fun row =>
    if row.DeletedAt.isNone && row.ID == category.ID then { row with DeletedAt := some now }
    else row)

/-- The handler `DeleteCategory` of `controllers/businessController.go`. The path parameter
`id` is `none` when the database cannot read it as an integer. The count is over the live
products with that `category_id`, of whatever business. -/
def DeleteCategory {F : Type} (c : Context) (id : Option Nat) (now : Nat) (flt : Faults)
    (db : Store F) : Response F × Store F :=
  match c.business_id with
  | none => ({ status := 401, body := Body.error "Unauthorized - Business context required" }, db)
  | some businessID =>
  match First (flt.load || id.isNone) db.categories (fun row =>
      row.DeletedAt.isNone && (some row.ID == id && row.BusinessID == businessID)) with
  | QueryResult.recordNotFound => ({ status := 404, body := Body.error "Category not found" }, db)
  | QueryResult.failed => ({ status := 404, body := Body.error "Category not found" }, db)
  | QueryResult.found category =>
  if flt.check then
    ({ status := 500, body := Body.error "Failed to check associated products" }, db)
  else
  let productCount := (db.products.filter (fun row =>
    row.DeletedAt.isNone && some row.CategoryID == id)).length
  if productCount > 0 then
    ({ status := 403, body := Body.error "Cannot delete category with associated products" }, db)
  else if flt.write1 then
    ({ status := 500, body := Body.error "Failed to delete category" }, db)
  else
    ({ status := 200, body := Body.message "Category deleted successfully" },
      { db with categories := deleteCategory now category db.categories })

/-- The statement `database.DB.Where("business_id = ?", businessID).Delete(&models.Sale{})`:
the soft delete of the live sales of the business. -/
def deleteSales {F : Type} (now businessID : Nat) (rows : List (Sale F)) : List (Sale F) :=
  rows.map (fun row =>
    if row.DeletedAt.isNone && row.BusinessID == businessID then
      { row with DeletedAt := some now }
    else row)

/-- The handler `DeleteSaleRecords` of `controllers/salesController.go`. -/
def DeleteSaleRecords {F : Type} (c : Context) (now : Nat) (flt : Faults) (db : Store F) :
    Response F × Store F :=
  match c.business_id with
  | none => ({ status := 401, body := Body.error "Unauthorized" }, db)
  | some businessID =>
  if flt.write1 then
    ({ status := 500, body := Body.error "Failed to clear sales history" }, db)
  else
    ({ status := 200, body := Body.message "Sales records cleared successfully" },
      { db with sales := deleteSales now businessID db.sales })

/-- The live category with primary key `id` that business `businessID` owns. -/
def Store.category {F : Type} (db : Store F) (businessID id : Nat) : Option Category :=
  db.categories.find? (fun row =>
    row.DeletedAt.isNone && (row.ID == id && row.BusinessID == businessID))

/-! ## The collaborators outside the repository -/

/-- The libraries the handlers call, as a request finds them: bcrypt and the JWT library. -/
structure Env where
  /-- The hash `bcrypt.GenerateFromPassword(password, bcrypt.DefaultCost)`, or `none` when
  the call returns an error. -/
  GenerateFromPassword : String → Option String
  /-- Whether `bcrypt.CompareHashAndPassword(hash, password)` returns no error. -/
  CompareHashAndPassword : String → String → Bool
  /-- Whether `token.SignedString(secret)` returns an error. -/
  signError : Bool
  /-- Whether the registered claims pass the validation `jwt.Parse` applies to them at the
  time of the call (expiry and the like). -/
  claimsValid : MapClaims → Bool

/-- The errors of `jwt.Parse`. -/
inductive ParseError where
  | malformed
  | unverifiable
  | signatureInvalid
  | invalidClaims
deriving DecidableEq, Repr

/-- The key function `AuthMiddleware` hands to `jwt.Parse`: an error for a token whose method
is not a `*jwt.SigningMethodHMAC`, otherwise the secret. -/
def keyFunc (token : Token) : Bool := token.hmac

/-- The call `jwt.Parse(tokenString, keyFunc)`: the library decodes the segments, asks the
key function for the key, verifies the signature and validates the registered claims, in
this order, and returns the claims of a token that passed. -/
def jwtParse (env : Env) (tokenString : Token) : Except ParseError MapClaims :=
  if !tokenString.wellFormed then Except.error ParseError.malformed
  else if !keyFunc tokenString then Except.error ParseError.unverifiable
  else if !tokenString.signatureValid then Except.error ParseError.signatureInvalid
  else if !env.claimsValid tokenString.claims then Except.error ParseError.invalidClaims
  else Except.ok tokenString.claims

/-- The cookie `token` of a request: absent, the empty string, or a token string. -/
inductive Cookie where
  | missing
  | empty
  | value (tokenString : Token)
deriving DecidableEq, Repr

/-- The outcome of the authentication gate: `c.AbortWithStatusJSON(status, gin.H{"error":
msg})`, after which no handler runs, or `c.Next()` with the keys set in the context. -/
inductive GateResult where
  | abort (status : Nat) (msg : String)
  | next (c : Context)
deriving DecidableEq, Repr

/-- The claim `claims[key].(float64)`: the number, when the claim is one. -/
def MapClaims.number (claims : MapClaims) (key : String) : Option Nat :=
  match claims.get key with
  | some (JSONValue.number n) => some n
  | _ => none

/-- The claim `claims[key].(string)`: the string, when the claim is one. -/
def MapClaims.string (claims : MapClaims) (key : String) : Option String :=
  match claims.get key with
  | some (JSONValue.string s) => some s
  | _ => none

/-- The middleware `AuthMiddleware` of `middleware/auth.go`; `now` is `time.Now().Unix()`.
(`jwt.Parse` returns `jwt.MapClaims`, so the type assertion on the claims succeeds.) -/
def AuthMiddleware (env : Env) (now : Nat) (cookie : Cookie) : GateResult :=
  match cookie with
  | Cookie.missing => GateResult.abort 401 "Authentication token required"
  | Cookie.empty => GateResult.abort 401 "Authentication token required"
  | Cookie.value tokenString =>
  match jwtParse env tokenString with
  | Except.error _ => GateResult.abort 401 "Invalid token"
  | Except.ok claims =>
  if (match claims.number "exp" with
      | some exp => decide (now > exp)
      | none => false) then
    GateResult.abort 401 "Token expired"
  else
  match claims.number "user_id" with
  | none => GateResult.abort 401 "Invalid user context"
  | some userID =>
    GateResult.next
      { exp := claims.number "exp", user_id := some userID,
        business_id := claims.number "business_id", email := claims.string "email",
        role := claims.string "role" }

end StockBack

namespace StockBack

/-! ## Users, businesses and the tokens issued to them -/

/-- The token `jwt.NewWithClaims(jwt.SigningMethodHS256, claims)`, signed with
`JWT_SECRET`: well formed, of an HMAC method and with a signature that verifies. -/
def NewWithClaims (claims : MapClaims) : Token :=
  { wellFormed := true, hmac := true, signatureValid := true, claims := claims }

/-- The call `token.SignedString(secret)`: the token string, or `none` for an error. -/
def SignedString (env : Env) (token : Token) : Option Token :=
  if env.signError then none else some token

/-- The expiry `time.Now().Add(24 * time.Hour).Unix()`. -/
def expirationTime (now : Nat) : Nat := now + 86400

/-- The JSON body of `CreateUser`, a `models.User`: the fields a request sets. The struct
embeds `gorm.Model`, whose fields carry no `json:"-"`, so a body can also name the key `ID`
and the time `DeletedAt`; a body that does not name them leaves them 0 and nil. -/
structure UserInput where
  FirstName : String
  LastName : String
  Email : String
  Password : String
  Role : String
  BusinessID : Nat
  ID : Nat := 0
  DeletedAt : Option Nat := none
deriving DecidableEq, Repr

/-- The call `c.ShouldBindJSON(&input)` for a `models.User`: the tags `binding:"required"`
reject an empty first name, last name, email or password. -/
def bindUserInput (body : Option UserInput) : Option UserInput :=
  match body with
  | none => none
  | some input =>
    if input.FirstName == "" then none
    else if input.LastName == "" then none
    else if input.Email == "" then none
    else if input.Password == "" then none
    else some input

/-- The statement `database.DB.Create(&input)` on `users`: the insert fails by a storage
fault, when a row holds the email (the column is `unique`), or when the value carries a key
that a row holds (the primary key); a value without a key gets the next one; a blank role is
left to the column default `'user'`, which gorm reads back into the value, as it does the
new key. -/
def createUser (fault : Bool) (rows : List User) (user : User) : Option (User × List User) :=
  if fault || (rows.any (fun row => row.Email == user.Email) ||
      (user.ID != 0 && rows.any (fun row => row.ID == user.ID))) then none
  else
    let user :=
      { user with
        ID := if user.ID == 0 then nextID (rows.map User.ID) else user.ID
        Role := if user.Role == "" then "user" else user.Role }
    some (user, rows ++ [user])

/-- The step `if input.Role == "admin" { input.BusinessID = 0 }` of `CreateUser`. -/
def adminWithoutBusiness (input : UserInput) : UserInput :=
  if input.Role == "admin" then { input with BusinessID := 0 } else input

/-- The `models.User` value a request body decodes to, with the key and the deletion time
the body names. -/
def UserInput.toUser (input : UserInput) : User :=
  { ID := input.ID, DeletedAt := input.DeletedAt, FirstName := input.FirstName,
    LastName := input.LastName, Email := input.Email, Password := input.Password,
    Role := input.Role, BusinessID := input.BusinessID }

/-- The handler `CreateUser` of `controllers/userController.go`. -/
def CreateUser {F : Type} (env : Env) (body : Option UserInput) (now : Nat) (flt : Faults)
    (db : Store F) : Response F × Store F :=
  match bindUserInput body with
  | none => ({ status := 400, body := Body.bindError }, db)
  | some input =>
  match First flt.check db.users (fun row =>
      row.DeletedAt.isNone && row.Email == input.Email) with
  | QueryResult.found _ =>
    ({ status := 409, body := Body.error "User with this email already exists" }, db)
  | _ =>
  match env.GenerateFromPassword input.Password with
  | none => ({ status := 500, body := Body.error "Failed to hash password" }, db)
  | some hashedPassword =>
  let input := { input with Password := hashedPassword }
  if input.Role == "user" && input.BusinessID == 0 then
    ({ status := 400, body := Body.error "A user must be assigned to a business by an admin." },
      db)
  else
  let input := adminWithoutBusiness input
  match createUser flt.write1 db.users input.toUser with
  | none => ({ status := 500, body := Body.dbError }, db)
  | some (input, users) =>
  let db := { db with users := users }
  let token := NewWithClaims
    [("user_id", JSONValue.number input.ID), ("email", JSONValue.string input.Email),
     ("role", JSONValue.string input.Role), ("business_id", JSONValue.number input.BusinessID),
     ("exp", JSONValue.number (expirationTime now))]
  match SignedString env token with
  | none => ({ status := 401, body := Body.error "Could not create token" }, db)
  | some tokenString =>
    ({ status := 201, body := Body.userCreated "User created successfully" input,
       cookie := some tokenString }, db)

/-- The JSON body of `Login` (`Credentials`). -/
structure Credentials where
  Email : String
  Password : String
deriving DecidableEq, Repr

/-- The handler `Login` of `controllers/userController.go`. -/
def Login {F : Type} (env : Env) (body : Option Credentials) (now : Nat) (flt : Faults)
    (db : Store F) : Response F × Store F :=
  match body with
  | none => ({ status := 400, body := Body.error "Invalid input" }, db)
  | some creds =>
  match First flt.load db.users (fun row =>
      row.DeletedAt.isNone && row.Email == creds.Email) with
  | QueryResult.recordNotFound =>
    ({ status := 401, body := Body.error "Invalid credentials" }, db)
  | QueryResult.failed => ({ status := 401, body := Body.error "Invalid credentials" }, db)
  | QueryResult.found user =>
  if !env.CompareHashAndPassword user.Password creds.Password then
    ({ status := 401, body := Body.error "Invalid credentials" }, db)
  else
  let claims : MapClaims :=
    [("user_id", JSONValue.number user.ID), ("email", JSONValue.string user.Email),
     ("role", JSONValue.string user.Role), ("business_id", JSONValue.number user.BusinessID),
     ("exp", JSONValue.number (expirationTime now))]
  match SignedString env (NewWithClaims claims) with
  | none => ({ status := 500, body := Body.error "Could not create token" }, db)
  | some tokenString =>
    ({ status := 200, body := Body.loggedIn "Login successful" user.ID,
       cookie := some tokenString }, db)

/-- The JSON body of `CreateBusiness` and `LoginBusiness` (`input`). -/
structure BusinessInput where
  BusinessName : String
  Password : String
deriving DecidableEq, Repr

/-- The call `c.ShouldBindJSON(&input)` of `CreateBusiness` and `LoginBusiness`: the tags
`binding:"required"` reject an empty name or password. -/
def bindBusinessInput (body : Option BusinessInput) : Option BusinessInput :=
  match body with
  | none => none
  | some input =>
    if input.BusinessName == "" then none
    else if input.Password == "" then none
    else some input

/-- The statement `database.DB.Create(&business)`: the insert fails by a storage fault or
when a row holds the name (the column is `unique`). -/
def createBusiness (fault : Bool) (rows : List Business) (business : Business) :
    Option (Business × List Business) :=
  if fault || rows.any (fun row => row.BusinessName == business.BusinessName) then none
  else
    let business := { business with ID := nextID (rows.map Business.ID) }
    some (business, rows ++ [business])

/-- The statement `database.DB.Save(&user)` for a user that was read from the table: every
column of the live row with its key is written from the value. -/
def saveUser (user : User) (rows : List User) : List User :=
  rows.map (fun row => if row.DeletedAt.isNone && row.ID == user.ID then user else row)

/-- The handler `CreateBusiness` of `controllers/businessController.go`. The statements run
outside a transaction: each one that has succeeded stays. -/
def CreateBusiness {F : Type} (env : Env) (c : Context) (body : Option BusinessInput)
    (now : Nat) (flt : Faults) (db : Store F) : Response F × Store F :=
  match c.user_id with
  | none => ({ status := 401, body := Body.error "User authentication required" }, db)
  | some userID =>
  match bindBusinessInput body with
  | none => ({ status := 400, body := Body.bindError }, db)
  | some input =>
  match First flt.check db.businesses (fun row =>
      row.DeletedAt.isNone && row.BusinessName == input.BusinessName) with
  | QueryResult.found _ =>
    ({ status := 409, body := Body.error "Business name already exists" }, db)
  | _ =>
  match env.GenerateFromPassword input.Password with
  | none => ({ status := 500, body := Body.error "Failed to hash password" }, db)
  | some hashedPassword =>
  match createBusiness flt.write1 db.businesses
      { ID := 0, DeletedAt := none, BusinessName := input.BusinessName,
        Password := hashedPassword } with
  | none => ({ status := 500, body := Body.error "Failed to create business" }, db)
  | some (business, businesses) =>
  let db := { db with businesses := businesses }
  match First flt.load db.users (fun row => row.DeletedAt.isNone && row.ID == userID) with
  | QueryResult.recordNotFound => ({ status := 404, body := Body.error "User not found" }, db)
  | QueryResult.failed => ({ status := 404, body := Body.error "User not found" }, db)
  | QueryResult.found user =>
  let user := { user with BusinessID := business.ID }
  if flt.write2 then
    ({ status := 500, body := Body.error "Failed to link user to business" }, db)
  else
  let db := { db with users := saveUser user db.users }
  let claims : MapClaims :=
    [("user_id", JSONValue.number user.ID), ("business_id", JSONValue.number user.BusinessID),
     ("email", JSONValue.string user.Email), ("role", JSONValue.string user.Role),
     ("exp", JSONValue.number (expirationTime now))]
  match SignedString env (NewWithClaims claims) with
  | none => ({ status := 500, body := Body.error "Failed to generate token" }, db)
  | some tokenString =>
    ({ status := 201,
       body := Body.businessCreated "Business created successfully" business.ID
         business.BusinessName,
       cookie := some tokenString }, db)

/-- The association `user.Business` that `Preload("Business")` fills in: the live business
whose key is the `BusinessID` of the user, `nil` when there is none (no query is made for
the key 0). -/
def preloadBusiness {F : Type} (db : Store F) (user : User) : Option Business :=
  if user.BusinessID == 0 then none
  else db.businesses.find? (fun row => row.DeletedAt.isNone && row.ID == user.BusinessID)

/-- The handler `LoginBusiness` of `controllers/businessController.go`; `flt.load` is the
fault of the select of the user, `flt.check` that of the select of its business. -/
def LoginBusiness {F : Type} (env : Env) (c : Context) (body : Option BusinessInput)
    (now : Nat) (flt : Faults) (db : Store F) : Response F × Store F :=
  match c.user_id with
  | none => ({ status := 401, body := Body.error "User authentication required" }, db)
  | some userID =>
  match bindBusinessInput body with
  | none => ({ status := 400, body := Body.error "Invalid request format" }, db)
  | some input =>
  match First flt.load db.users (fun row => row.DeletedAt.isNone && row.ID == userID) with
  | QueryResult.recordNotFound => ({ status := 401, body := Body.error "User not found" }, db)
  | QueryResult.failed => ({ status := 401, body := Body.error "User not found" }, db)
  | QueryResult.found user =>
  if flt.check && user.BusinessID != 0 then
    ({ status := 401, body := Body.error "User not found" }, db)
  else
  match preloadBusiness db user with
  | none =>
    ({ status := 403, body := Body.error "You are not authorized for this business" }, db)
  | some business =>
  if business.BusinessName != input.BusinessName then
    ({ status := 403, body := Body.error "You are not authorized for this business" }, db)
  else if !env.CompareHashAndPassword business.Password input.Password then
    ({ status := 401, body := Body.error "Invalid credentials" }, db)
  else
  let claims : MapClaims :=
    [("user_id", JSONValue.number user.ID), ("business_id", JSONValue.number business.ID),
     ("business_name", JSONValue.string business.BusinessName),
     ("role", JSONValue.string user.Role), ("exp", JSONValue.number (expirationTime now))]
  match SignedString env (NewWithClaims claims) with
  | none => ({ status := 500, body := Body.error "Failed to generate token" }, db)
  | some tokenString =>
    ({ status := 200,
       body := Body.businessLoggedIn business.ID business.BusinessName (expirationTime now),
       cookie := some tokenString }, db)

/-- The live user with primary key `id`. -/
def Store.user {F : Type} (db : Store F) (id : Nat) : Option User :=
  db.users.find? (fun row => row.DeletedAt.isNone && row.ID == id)

/-! ## Sample data: users, businesses and tokens -/

/-- A bcrypt that never fails and a JWT library that accepts the registered claims: the hash
of a password is modelled as the password behind a marker. -/
def sampleEnv : Env :=
  { GenerateFromPassword := fun password => some ("$2a$" ++ password),
    CompareHashAndPassword := fun hash password => hash == "$2a$" ++ password,
    signError := false,
    claimsValid := fun _ => true }

/-- An admin who signed up without a business. -/
def adminRow : User :=
  { ID := 1, DeletedAt := none, FirstName := "Ada", LastName := "Admin",
    Email := "ada@acme.test", Password := "$2a$secret", Role := "admin", BusinessID := 0 }

/-- The database with the admin and nothing else. -/
def scenarioSignup : Store Int := { users := [adminRow] }

/-- The business "Acme" with password "p1". -/
def acmeRow : Business :=
  { ID := 1, DeletedAt := none, BusinessName := "Acme", Password := "$2a$p1" }

/-- The database after the admin created "Acme": the admin is linked to it. -/
def scenarioAcme : Store Int :=
  { users := [{ adminRow with BusinessID := 1 }], businesses := [acmeRow],
    categories := [{ ID := 1, DeletedAt := none, BusinessID := 1, Name := "Snacks" }] }

/-- The admin of "Acme" and the categories of two businesses: "Snacks" of business 1 and
"Drinks" of business 2. -/
def scenarioCategories : Store Int :=
  { scenarioAcme with
    categories := [{ ID := 1, DeletedAt := none, BusinessID := 1, Name := "Snacks" },
                   { ID := 2, DeletedAt := none, BusinessID := 2, Name := "Drinks" }] }

/-- The token `Login` issues to the admin without a business at time 1000. -/
def unassignedToken : Token :=
  NewWithClaims
    [("user_id", JSONValue.number 1), ("email", JSONValue.string "ada@acme.test"),
     ("role", JSONValue.string "admin"), ("business_id", JSONValue.number 0),
     ("exp", JSONValue.number 87400)]

/-- The keys the gate sets for `unassignedToken`. -/
def unassignedContext : Context :=
  { user_id := some 1, business_id := some 0, email := some "ada@acme.test",
    role := some "admin", exp := some 87400 }

/-- The libraries of `sampleEnv` with the validation `jwt.Parse` makes of the expiry at time
`now`: an `exp` claim, when there is one, has to lie after `now`. -/
def expiryEnv (now : Nat) : Env :=
  { sampleEnv with
    claimsValid := fun claims =>
      match claims.number "exp" with
      | some exp => decide (now < exp)
      | none => true }

/-- The token `CreateBusiness` issues to the admin of "Acme" at time 1000. -/
def sessionToken : Token :=
  NewWithClaims
    [("user_id", JSONValue.number 1), ("business_id", JSONValue.number 1),
     ("email", JSONValue.string "ada@acme.test"), ("role", JSONValue.string "admin"),
     ("exp", JSONValue.number 87400)]

/-- A string that is not a JWT. -/
def malformedToken : Token := { sessionToken with wellFormed := false }

/-- A token whose header names a signing method that is not HMAC. -/
def foreignMethodToken : Token := { sessionToken with hmac := false }

/-- A token signed with another secret. -/
def forgedToken : Token := { sessionToken with signatureValid := false }

/-- A token of the admin whose expiry, 500, has passed at time 1000. -/
def expiredToken : Token :=
  NewWithClaims
    [("user_id", JSONValue.number 1), ("business_id", JSONValue.number 1),
     ("email", JSONValue.string "ada@acme.test"), ("role", JSONValue.string "admin"),
     ("exp", JSONValue.number 500)]

end StockBack

namespace StockBack

/-! ## Roles, business passwords and employees -/

/-- Modelled from the spec: `middleware.RoleMiddleware`, which `routes.go` names in front of
`AssignUserToBusiness` and whose source file is not part of `middleware/`. The spec gives the
contract `require(principal, role) -> Authorized | Forbidden`, "applied as an additional gate
on top of authentication" and a "pure function of (Principal.role, required role); no I/O":
the request goes on when the role of the principal is the required one, and is answered
Forbidden, before the handler runs, when it is not. -/
def RoleMiddleware (requiredRole : String) (c : Context) : GateResult :=
  if c.role == some requiredRole then GateResult.next c
  else GateResult.abort 403 "Forbidden"

/-- The JSON body of `AssignUserToBusiness` (`input`). -/
structure AssignInput where
  UserID : Nat
deriving DecidableEq, Repr

/-- The call `c.ShouldBindJSON(&input)` of `AssignUserToBusiness`: the tag
`binding:"required"` rejects a zero `user_id`. -/
def bindAssignInput (body : Option AssignInput) : Option AssignInput :=
  match body with
  | none => none
  | some input => if input.UserID == 0 then none else some input

/-- The handler `AssignUserToBusiness` of `controllers/businessController.go`; `flt.load` is
the fault of the select of the caller, `flt.check` that of the select of the target. -/
def AssignUserToBusiness {F : Type} (c : Context) (body : Option AssignInput) (flt : Faults)
    (db : Store F) : Response F × Store F :=
  match c.user_id with
  | none => ({ status := 401, body := Body.error "Unauthorized access" }, db)
  | some adminID =>
  match First flt.load db.users (fun row => row.DeletedAt.isNone && row.ID == adminID) with
  | QueryResult.recordNotFound => ({ status := 404, body := Body.error "Admin not found" }, db)
  | QueryResult.failed => ({ status := 404, body := Body.error "Admin not found" }, db)
  | QueryResult.found admin =>
  if admin.BusinessID == 0 then
    ({ status := 403, body := Body.error "Admin is not linked to a business" }, db)
  else
  match bindAssignInput body with
  | none => ({ status := 400, body := Body.bindError }, db)
  | some input =>
  match First flt.check db.users (fun row => row.DeletedAt.isNone && row.ID == input.UserID) with
  | QueryResult.recordNotFound => ({ status := 404, body := Body.error "User not found" }, db)
  | QueryResult.failed => ({ status := 404, body := Body.error "User not found" }, db)
  | QueryResult.found user =>
  let user := { user with BusinessID := admin.BusinessID }
  if flt.write1 then ({ status := 500, body := Body.error "Could not update user" }, db)
  else
    ({ status := 200, body := Body.message "User assigned to business successfully" },
      { db with users := saveUser user db.users })

/-- The route `protected.POST("/businesses/assign", middleware.RoleMiddleware("admin"),
controllers.AssignUserToBusiness)` of `routes/routes.go`, for a request that has passed the
authentication gate with the context `c`. -/
def SetupRoutes.businessesAssign {F : Type} (c : Context) (body : Option AssignInput)
    (flt : Faults) (db : Store F) : Response F × Store F :=
  match RoleMiddleware "admin" c with
  | GateResult.abort status msg => ({ status := status, body := Body.error msg }, db)
  | GateResult.next c => AssignUserToBusiness c body flt db

/-- The JSON body of `ChangeBusinessPassword` (`input`). -/
structure BusinessPasswordInput where
  OldBusinessPassword : String
  NewBusinessPassword : String
deriving DecidableEq, Repr

/-- The call `c.ShouldBindJSON(&input)` of `ChangeBusinessPassword`: the tags
`binding:"required"` reject an empty old or new password. -/
def bindBusinessPasswordInput (body : Option BusinessPasswordInput) :
    Option BusinessPasswordInput :=
  match body with
  | none => none
  | some input =>
    if input.OldBusinessPassword == "" then none
    else if input.NewBusinessPassword == "" then none
    else some input

/-- The statement `database.DB.Save(&business)` for a business that was read from the table:
every column of the live row with its key is written from the value. -/
def saveBusiness (business : Business) (rows : List Business) : List Business :=
  rows.map (fun row => if row.DeletedAt.isNone && row.ID == business.ID then business else row)

/-- The handler `ChangeBusinessPassword` of `controllers/businessController.go`. -/
def ChangeBusinessPassword {F : Type} (env : Env) (c : Context)
    (body : Option BusinessPasswordInput) (flt : Faults) (db : Store F) :
    Response F × Store F :=
  match c.business_id with
  | none => ({ status := 401, body := Body.error "Business context required" }, db)
  | some businessID =>
  match bindBusinessPasswordInput body with
  | none => ({ status := 400, body := Body.bindError }, db)
  | some input =>
  match First flt.load db.businesses (fun row =>
      row.DeletedAt.isNone && row.ID == businessID) with
  | QueryResult.recordNotFound =>
    ({ status := 404, body := Body.error "Business not found" }, db)
  | QueryResult.failed => ({ status := 404, body := Body.error "Business not found" }, db)
  | QueryResult.found business =>
  if !env.CompareHashAndPassword business.Password input.OldBusinessPassword then
    ({ status := 401, body := Body.error "Old business password is incorrect" }, db)
  else
  match env.GenerateFromPassword input.NewBusinessPassword with
  | none => ({ status := 500, body := Body.error "Failed to hash new password" }, db)
  | some hashedPassword =>
  let business := { business with Password := hashedPassword }
  if flt.write1 then
    ({ status := 500, body := Body.error "Failed to update business password" }, db)
  else
    ({ status := 200, body := Body.message "Business password updated successfully" },
      { db with businesses := saveBusiness business db.businesses })

/-- The live business with primary key `id`. -/
def Store.business {F : Type} (db : Store F) (id : Nat) : Option Business :=
  db.businesses.find? (fun row => row.DeletedAt.isNone && row.ID == id)

/-- The handler `CreateEmployeeUser` of `controllers/userController.go`. Its first comment
reads "Ensure only admins can create employee users"; the statements below it read the
caller and test the business of the caller, and none of them reads a role. -/
def CreateEmployeeUser {F : Type} (env : Env) (c : Context) (body : Option UserInput)
    (flt : Faults) (db : Store F) : Response F × Store F :=
  match c.user_id with
  | none => ({ status := 401, body := Body.error "Unauthorized access" }, db)
  | some adminID =>
  match First flt.load db.users (fun row => row.DeletedAt.isNone && row.ID == adminID) with
  | QueryResult.recordNotFound => ({ status := 404, body := Body.error "Admin not found" }, db)
  | QueryResult.failed => ({ status := 404, body := Body.error "Admin not found" }, db)
  | QueryResult.found admin =>
  if admin.BusinessID == 0 then
    ({ status := 403, body := Body.error "Admin is not linked to a business" }, db)
  else
  match bindUserInput body with
  | none => ({ status := 400, body := Body.bindError }, db)
  | some input =>
  match First flt.check db.users (fun row =>
      row.DeletedAt.isNone && row.Email == input.Email) with
  | QueryResult.found _ =>
    ({ status := 409, body := Body.error "User with this email already exists" }, db)
  | _ =>
  match env.GenerateFromPassword input.Password with
  | none => ({ status := 500, body := Body.error "Failed to hash password" }, db)
  | some hashedPassword =>
  let input :=
    { input with Password := hashedPassword, BusinessID := admin.BusinessID, Role := "employee" }
  match createUser flt.write1 db.users input.toUser with
  | none => ({ status := 500, body := Body.dbError }, db)
  | some (input, users) =>
    ({ status := 201,
       body := Body.employeeCreated "Employee user created successfully" input.ID
         input.FirstName input.LastName input.Email input.Role input.BusinessID },
      { db with users := users })

/-- The route `users.POST("/createEmployee", controllers.CreateEmployeeUser)` of
`routes/routes.go`, for a request that has passed the authentication gate with the context
`c`: no middleware stands between the gate and the handler. -/
def SetupRoutes.usersCreateEmployee {F : Type} (env : Env) (c : Context)
    (body : Option UserInput) (flt : Faults) (db : Store F) : Response F × Store F :=
  CreateEmployeeUser env c body flt db

/-! ## Single products -/

/-- The handler `GetProduct` of `controllers/productController.go`, with
`handleProductError` for the error of the select. -/
def GetProduct {F : Type} (c : Context) (id : Option Nat) (flt : Faults) (db : Store F) :
    Response F × Store F :=
  match c.business_id with
  | none => ({ status := 401, body := Body.error "Unauthorized" }, db)
  | some businessID =>
  match First (flt.load || id.isNone) db.products (fun row =>
      row.DeletedAt.isNone && (row.BusinessID == businessID && some row.ID == id)) with
  | QueryResult.recordNotFound => ({ status := 404, body := Body.error "Product not found" }, db)
  | QueryResult.failed => ({ status := 500, body := Body.dbError }, db)
  | QueryResult.found product => ({ status := 200, body := Body.product product }, db)

/-- The statement `database.DB.Delete(&product)` for a product that was read from the table:
the soft delete of the live row with its key. -/
def deleteProduct {F : Type} (now : Nat) (product : Product F) (rows : List (Product F)) :
    List (Product F) :=
  rows.map (fun row =>
    if row.DeletedAt.isNone && row.ID == product.ID then { row with DeletedAt := some now }
    else row)

/-- The handler `DeleteProduct` of `controllers/productController.go`: the business is the
one of the row of the caller in `users`; `flt.check` is the fault of that select. -/
def DeleteProduct {F : Type} (c : Context) (id : Option Nat) (now : Nat) (flt : Faults)
    (db : Store F) : Response F × Store F :=
  match c.user_id with
  | none => ({ status := 401, body := Body.error "Unauthorized" }, db)
  | some userID =>
  match First flt.check db.users (fun row => row.DeletedAt.isNone && row.ID == userID) with
  | QueryResult.recordNotFound => ({ status := 404, body := Body.error "User not found" }, db)
  | QueryResult.failed => ({ status := 404, body := Body.error "User not found" }, db)
  | QueryResult.found user =>
  match First (flt.load || id.isNone) db.products (fun row =>
      row.DeletedAt.isNone && (row.BusinessID == user.BusinessID && some row.ID == id)) with
  | QueryResult.recordNotFound => ({ status := 404, body := Body.error "Product not found" }, db)
  | QueryResult.failed => ({ status := 500, body := Body.dbError }, db)
  | QueryResult.found product =>
  if flt.write1 then ({ status := 500, body := Body.dbError }, db)
  else
    ({ status := 200, body := Body.message "Product deleted successfully" },
      { db with products := deleteProduct now product db.products })

end StockBack

namespace StockBack

/-! ## Two sales at once -/

/-- How the statements of `CreateSale` before `database.DB.Begin()` end: with a response,
or with the business, the input and the product as the select returned it. -/
inductive SaleCheck (F : Type) where
  | respond (response : Response F)
  | proceed (businessID : Nat) (saleInput : SaleInput) (product : Product F)
deriving DecidableEq, Repr

/-- The statements of `CreateSale` up to the sufficiency check: the context, the body, the
select `database.DB.Where("id = ? AND business_id = ?", ...).First(&product)`, which runs
on `database.DB` before any transaction has begun, and the test
`product.Quantity < saleInput.Quantity`. -/
def CreateSale.check {F : Type} (c : Context) (body : Option SaleInput) (flt : Faults)
    (db : Store F) : SaleCheck F :=
  match c.business_id with
  | none =>
    SaleCheck.respond
      { status := 401, body := Body.error "Unauthorized - Business context required" }
  | some businessID =>
  match bindSaleInput body with
  | none => SaleCheck.respond { status := 400, body := Body.bindError }
  | some saleInput =>
  match First flt.load db.products (fun row =>
      row.DeletedAt.isNone && (row.ID == saleInput.ProductID && row.BusinessID == businessID)) with
  | QueryResult.recordNotFound =>
    SaleCheck.respond { status := 404, body := Body.error "Product not found in your business" }
  | QueryResult.failed =>
    SaleCheck.respond { status := 404, body := Body.error "Product not found in your business" }
  | QueryResult.found product =>
  if product.Quantity < saleInput.Quantity then
    SaleCheck.respond { status := 400, body := Body.error "Insufficient stock" }
  else SaleCheck.proceed businessID saleInput product

/-- The statements of `CreateSale` from `database.DB.Begin()` to the response, for the
product value `product` that the select before them has read: the sale is created and
`tx.Save(&product)` writes that value with its quantity lowered. -/
def CreateSale.record {F : Type} [Float64Ops F] (businessID : Nat) (saleInput : SaleInput)
    (product : Product F) (now : Nat) (flt : Faults) (db : Store F) : Response F × Store F :=
  let sale : Sale F :=
    { ID := 0, DeletedAt := none, BusinessID := businessID, ProductID := product.ID,
      Quantity := saleInput.Quantity,
      Total := Float64Ops.mul (Float64Ops.ofInt saleInput.Quantity) product.Price,
      SoldAt := now }
  let tx := Begin db
  if flt.write1 then
    ({ status := 500, body := Body.error "Failed to record sale" }, Rollback tx)
  else
  let created := tx.createSale sale
  let product := { product with Quantity := wrapInt64 (product.Quantity - saleInput.Quantity) }
  if flt.write2 then
    ({ status := 500, body := Body.error "Failed to update inventory" }, Rollback created.2)
  else
  let tx := created.2.saveProduct product
  ({ status := 201, body := Body.sale created.1 }, Commit flt.commit tx)

/-- The rest of a `CreateSale` whose first part has ended with `checked`. -/
def CreateSale.finish {F : Type} [Float64Ops F] (checked : SaleCheck F) (now : Nat)
    (flt : Faults) (db : Store F) : Response F × Store F :=
  match checked with
  | SaleCheck.respond response => (response, db)
  | SaleCheck.proceed businessID saleInput product =>
    CreateSale.record businessID saleInput product now flt db

/-- Two requests to `CreateSale` that the server handles at once, in the order in which both
have read the product and made the sufficiency check before either begins its transaction;
the transactions then run one after the other. The handler takes no lock and its select is
not part of its transaction, so this order can occur. The result is the two responses and
the database after both. -/
def CreateSale.interleaved {F : Type} [Float64Ops F] (c₁ : Context)
    (body₁ : Option SaleInput) (now₁ : Nat) (flt₁ : Faults) (c₂ : Context)
    (body₂ : Option SaleInput) (now₂ : Nat) (flt₂ : Faults) (db : Store F) :
    Response F × Response F × Store F :=
  let checked₁ := CreateSale.check c₁ body₁ flt₁ db
  let checked₂ := CreateSale.check c₂ body₂ flt₂ db
  let first := CreateSale.finish checked₁ now₁ flt₁ db
  let second := CreateSale.finish checked₂ now₂ flt₂ first.2
  (first.1, second.1, second.2)

/-- Two requests to `CreateSale` that the server handles one after the other. -/
def CreateSale.sequential {F : Type} [Float64Ops F] (c₁ : Context)
    (body₁ : Option SaleInput) (now₁ : Nat) (flt₁ : Faults) (c₂ : Context)
    (body₂ : Option SaleInput) (now₂ : Nat) (flt₂ : Faults) (db : Store F) :
    Response F × Response F × Store F :=
  let first := CreateSale c₁ body₁ now₁ flt₁ db
  let second := CreateSale c₂ body₂ now₂ flt₂ first.2
  (first.1, second.1, second.2)

/-! ## Reports and low stock -/

/-- A row of a report (`ReportRow`). `Date` is the time whose day
`Format("2006-01-02")` prints, and `none` for the empty string. -/
structure ReportRow (F : Type) where
  Date : Option Nat
  Product : String
  Quantity : Int
  Price : F
  TotalValue : F
deriving DecidableEq, Repr

/-- The errors of `fetchReportData`: the error of a database statement, and
`fmt.Errorf("invalid report type")`. -/
inductive ReportError where
  | database
  | invalidReportType
deriving DecidableEq, Repr

/-- The zero value of `models.Product`. -/
def zeroProduct {F : Type} [Float64Ops F] : Product F :=
  { ID := 0, DeletedAt := none, BusinessID := 0, CategoryID := 0, Name := "",
    Description := "", Quantity := 0, Price := Float64Ops.ofInt 0 }

/-- The association `Product` that `Preload("Product")` fills in for a sale or a stock
entry: the live product whose key is `productID`, and the zero value when there is none (no
query is made for the key 0). -/
def preloadProduct {F : Type} [Float64Ops F] (db : Store F) (productID : Nat) : Product F :=
  if productID == 0 then zeroProduct
  else (db.products.find? (fun row => row.DeletedAt.isNone && row.ID == productID)).getD
    zeroProduct

/-- The function `fetchReportData` of `controllers/reportsController.go`: the rows, the
title and the error. `flt.load` is the fault of the select of the rows, `flt.check` that of
the select `Preload` makes. -/
def fetchReportData {F : Type} [Float64Ops F] (businessID : Nat) (reportType : String)
    (startDate endDate : Nat) (flt : Faults) (db : Store F) :
    List (ReportRow F) × String × Option ReportError :=
  if reportType == "sales" then
    let sales := db.sales.filter (fun sale =>
      sale.DeletedAt.isNone && (sale.BusinessID == businessID &&
        (decide (startDate ≤ sale.SoldAt) && decide (sale.SoldAt ≤ endDate))))
    if flt.load || (flt.check && sales.any (fun sale => sale.ProductID != 0)) then
      ([], "", some ReportError.database)
    else
      (sales.map (fun sale =>
        { Date := some sale.SoldAt, Product := (preloadProduct db sale.ProductID).Name,
          Quantity := sale.Quantity, Price := (preloadProduct db sale.ProductID).Price,
          TotalValue := sale.Total }),
       "Sales Report", none)
  else if reportType == "current-stock" then
    let products := db.products.filter (fun product =>
      product.DeletedAt.isNone && product.BusinessID == businessID)
    if flt.load then ([], "", some ReportError.database)
    else
      (products.map (fun product =>
        { Date := none, Product := product.Name, Quantity := product.Quantity,
          Price := product.Price,
          TotalValue := Float64Ops.mul (Float64Ops.ofInt product.Quantity) product.Price }),
       "Current Stock Report", none)
  else if reportType == "added-stock" then
    let stockAdditions := db.stocks.filter (fun addition =>
      addition.DeletedAt.isNone && (addition.BusinessID == businessID &&
        (decide (startDate ≤ addition.AddedAt) && decide (addition.AddedAt ≤ endDate))))
    if flt.load || (flt.check && stockAdditions.any (fun addition => addition.ProductID != 0))
    then ([], "", some ReportError.database)
    else
      (stockAdditions.map (fun addition =>
        { Date := some addition.AddedAt,
          Product := (preloadProduct db addition.ProductID).Name,
          Quantity := addition.Quantity,
          Price := (preloadProduct db addition.ProductID).Price,
          TotalValue := Float64Ops.mul (Float64Ops.ofInt addition.Quantity)
            (preloadProduct db addition.ProductID).Price }),
       "Added Stock Report", none)
  else if reportType == "low-stock" then
    let products := db.products.filter (fun product =>
      product.DeletedAt.isNone && (product.BusinessID == businessID &&
        decide (product.Quantity < 10)))
    if flt.load then ([], "", some ReportError.database)
    else
      (products.map (fun product =>
        { Date := none, Product := product.Name, Quantity := product.Quantity,
          Price := product.Price,
          TotalValue := Float64Ops.mul (Float64Ops.ofInt product.Quantity) product.Price }),
       "Low Stock Report", none)
  else ([], "", some ReportError.invalidReportType)

/-- The handler `LowStockItems` of `controllers/productController.go`. -/
def LowStockItems {F : Type} (c : Context) (flt : Faults) (db : Store F) :
    Response F × Store F :=
  match c.business_id with
  | none => ({ status := 401, body := Body.error "Unauthorized" }, db)
  | some businessID =>
  let lowStockThreshold : Int := 10
  if flt.load then
    ({ status := 500, body := Body.error "could not fetch low stock items" }, db)
  else
    let products := db.products.filter (fun row =>
      row.DeletedAt.isNone && (row.BusinessID == businessID &&
        decide (row.Quantity ≤ lowStockThreshold)))
    ({ status := 200, body := Body.products products }, db)

/-- The handler `LowStock` of `controllers/productController.go`: `Count` counts the rows
of the conditions of the `Find` before it. -/
def LowStock {F : Type} (c : Context) (flt : Faults) (db : Store F) : Response F × Store F :=
  match c.business_id with
  | none => ({ status := 401, body := Body.error "Unauthorized" }, db)
  | some businessID =>
  let lowStockThreshold : Int := 10
  if flt.load then
    ({ status := 500, body := Body.error "could not fetch low stock items" }, db)
  else
    let count := (db.products.filter (fun row =>
      row.DeletedAt.isNone && (row.BusinessID == businessID &&
        decide (row.Quantity ≤ lowStockThreshold)))).length
    ({ status := 200, body := Body.count "lowstock" count }, db)

/-! ## Sample data: staff, a second business and a price change -/

/-- An employee of "Acme". -/
def employeeRow : User :=
  { ID := 2, DeletedAt := none, FirstName := "Eve", LastName := "Clerk",
    Email := "eve@acme.test", Password := "$2a$pw", Role := "employee", BusinessID := 1 }

/-- A user who is not assigned to a business. -/
def newcomerRow : User :=
  { ID := 3, DeletedAt := none, FirstName := "Ned", LastName := "New",
    Email := "ned@mail.test", Password := "$2a$pw", Role := "employee", BusinessID := 0 }

/-- The business "Rival" with password "p2". -/
def rivalRow : Business :=
  { ID := 2, DeletedAt := none, BusinessName := "Rival", Password := "$2a$p2" }

/-- The database of two businesses: the admin and an employee of "Acme", and a newcomer. -/
def scenarioStaff : Store Int :=
  { users := [{ adminRow with BusinessID := 1 }, employeeRow, newcomerRow],
    businesses := [acmeRow, rivalRow] }

/-- The keys the gate sets for the token of the admin of "Acme". -/
def adminContext : Context :=
  { user_id := some 1, business_id := some 1, email := some "ada@acme.test",
    role := some "admin", exp := some 87400 }

/-- The keys the gate sets for the token of the employee of "Acme". -/
def employeeContext : Context :=
  { user_id := some 2, business_id := some 1, email := some "eve@acme.test",
    role := some "employee", exp := some 87400 }

/-- The body that asks for a new user "Joe" with the role "admin" in business 2. -/
def joe : UserInput :=
  { FirstName := "Joe", LastName := "Hire", Email := "joe@mail.test", Password := "pw",
    Role := "admin", BusinessID := 2 }

/-- Scenario B after the price of "Chips" was changed from 2 to 3. -/
def scenarioRepriced : Store Int :=
  (UpdateProduct acme (some 1) (some ({ chips with Quantity := 40, Price := 3 } : ProductInput Int))
    12 noFaults scenarioB).2

/-- Business 1 holds "Chips" at exactly 10 units. -/
def scenarioTen : Store Int := { products := [{ chipsRow with Quantity := 10 }] }

/-- Scenario A with the user rows of the principals of businesses 1 and 2. -/
def scenarioShared : Store Int :=
  { scenarioA with
    users := [{ adminRow with BusinessID := 1 },
              { employeeRow with BusinessID := 2, Role := "admin" }] }

/-- The admin of "Rival". -/
def ritaRow : User :=
  { ID := 3, DeletedAt := none, FirstName := "Rita", LastName := "Rival",
    Email := "rita@rival.test", Password := "$2a$pw", Role := "admin", BusinessID := 2 }

/-- The keys the gate sets for the token of the admin of "Rival". -/
def ritaContext : Context :=
  { user_id := some 3, business_id := some 2, email := some "rita@rival.test",
    role := some "admin", exp := some 87400 }

/-- The product "Cola" of business 2. -/
def colaRow : Product Int :=
  { ID := 1, DeletedAt := none, BusinessID := 2, CategoryID := 2, Name := "Cola",
    Description := "", Quantity := 12, Price := 1 }

/-- Two businesses: "Acme" with its admin and its employee, "Rival" with its admin and the
product "Cola". -/
def scenarioTwoTenants : Store Int :=
  { users := [{ adminRow with BusinessID := 1 }, employeeRow, ritaRow],
    businesses := [acmeRow, rivalRow], products := [colaRow] }

/-- The two businesses after the admin of "Rival" has assigned the employee of "Acme" to
"Rival": the row of the employee names business 2, and the token the employee holds,
`employeeContext`, still names business 1. -/
def scenarioReassigned : Store Int :=
  (SetupRoutes.businessesAssign ritaContext (some { UserID := 2 }) noFaults
    scenarioTwoTenants).2

end StockBack

/-! ## Theorems -/

namespace StockBack

/-- The case folding reaches beyond ASCII, as `strings.ToLower` does: "École" and "école",
"CAFÉ" and "café" have the same lower-case form, and ASCII letters fold as before. -/
theorem lower_folds_unicode :
    lower "École" = "école" ∧ lower "CAFÉ" = lower "café" ∧ lower "Chips" = "chips" := by
  decide

theorem wrapInt64_of_isInt64 {x : Int} (h : isInt64 x) : wrapInt64 x = x := by
  unfold isInt64 at h
  unfold wrapInt64
  have h1 : (x + 2 ^ 63) % 2 ^ 64 = x + 2 ^ 63 :=
    Int.emod_eq_of_lt (by omega) (by omega)
  omega

theorem First_no_fault {α : Type} (rows : List α) (cond : α → Bool) (row : α)
    (h : rows.find? cond = some row) : First false rows cond = QueryResult.found row := by
  simp [First, h]

theorem Store.product_spec {F : Type} {db : Store F} {businessID id : Nat} {product : Product F}
    (h : db.product businessID id = some product) :
    product ∈ db.products ∧ product.DeletedAt = none ∧ product.ID = id ∧
      product.BusinessID = businessID := by
  unfold Store.product at h
  have hmem := List.mem_of_find?_eq_some h
  have hcond := List.find?_some h
  simp at hcond
  exact ⟨hmem, hcond.1, hcond.2.1, hcond.2.2⟩

/-- C1: a sale of more than the quantity on hand is refused with the insufficient-stock
error, records no sale and leaves the product, in particular its quantity, as it was. -/
theorem createSale_insufficient_stock {F : Type} [Float64Ops F] (c : Context) (now : Nat)
    (flt : Faults) (db : Store F) (businessID id : Nat) (product : Product F) (n : Int)
    (hc : c.business_id = some businessID)
    (hproduct : db.product businessID id = some product)
    (hid : id ≠ 0) (hload : flt.load = false)
    (hpos : 0 < n) (hn : product.Quantity < n) :
    (CreateSale c (some { ProductID := id, Quantity := n }) now flt db).1
        = { status := 400, body := Body.error "Insufficient stock" } ∧
      (CreateSale c (some { ProductID := id, Quantity := n }) now flt db).2.sales = db.sales ∧
      (CreateSale c (some { ProductID := id, Quantity := n }) now flt db).2.product businessID id
        = some product ∧
      (CreateSale c (some { ProductID := id, Quantity := n }) now flt db).2 = db := by
  have hbind : bindSaleInput (some { ProductID := id, Quantity := n })
      = some { ProductID := id, Quantity := n } := by
    simp [bindSaleInput, hid]
    omega
  have hfirst := First_no_fault db.products _ product hproduct
  have hrun : CreateSale c (some { ProductID := id, Quantity := n }) now flt db
      = ({ status := 400, body := Body.error "Insufficient stock" }, db) := by
    unfold CreateSale
    simp only [hc, hbind, hload, hfirst, hn, if_true]
  rw [hrun]
  exact ⟨rfl, rfl, hproduct, rfl⟩

theorem find?_map_replace {α : Type} (rows : List α) (cond sel : α → Bool) (old new : α)
    (hfind : rows.find? cond = some old)
    (hsel : ∀ row, cond row = true → sel row = true)
    (hnew : cond new = true) :
    (rows.map (fun row => if sel row then new else row)).find? cond = some new := by
  induction rows with
  | nil => simp at hfind
  | cons row rest ih =>
    by_cases hs : sel row = true
    · simp [List.find?, hs, hnew]
    · have hc : cond row = false := by
        cases hcr : cond row with
        | false => rfl
        | true => exact absurd (hsel row hcr) hs
      have hrest : rest.find? cond = some old := by
        simpa [List.find?, hc] using hfind
      simp only [List.map_cons, hs, Bool.false_eq_true, if_false, List.find?_cons, hc]
      exact ih hrest

@[simp] theorem Tx.saveProduct_sales {F : Type} (tx : Tx F) (product : Product F) :
    (tx.saveProduct product).cur.sales = tx.cur.sales := rfl

@[simp] theorem Tx.saveProduct_stocks {F : Type} (tx : Tx F) (product : Product F) :
    (tx.saveProduct product).cur.stocks = tx.cur.stocks := rfl

@[simp] theorem Tx.saveProduct_categories {F : Type} (tx : Tx F) (product : Product F) :
    (tx.saveProduct product).cur.categories = tx.cur.categories := rfl

theorem bindSaleInput_valid (id : Nat) (n : Int) (hid : id ≠ 0) (hpos : 0 < n) :
    bindSaleInput (some { ProductID := id, Quantity := n })
      = some { ProductID := id, Quantity := n } := by
  simp [bindSaleInput, hid]
  omega

theorem Store.product_saveProduct {F : Type} (db : Store F) (businessID id : Nat)
    (product new : Product F) (hproduct : db.product businessID id = some product)
    (hnew : new.DeletedAt = none ∧ new.ID = id ∧ new.BusinessID = businessID)
    (db1 : Store F) (hdb1 : db1.products = db.products) :
    Store.product ((Tx.saveProduct { base := db, cur := db1 } new).cur) businessID id
      = some new := by
  unfold Store.product Tx.saveProduct
  simp only [hdb1]
  obtain ⟨h1, h2, h3⟩ := hnew
  apply find?_map_replace db.products _ (fun row => row.DeletedAt.isNone && row.ID == new.ID)
    product new hproduct
  · intro row hrow
    simp at hrow
    simp [hrow.1, hrow.2.1, h2]
  · simp [h1, h2, h3]

/-- C2: a sale of `n` units with `0 < n ≤ q` succeeds exactly when none of its statements
fails, and a successful sale adds one sale row with the business, the product, the quantity
`n` and the total `float64(n) * price`, and leaves the product with quantity `q - n`. -/
theorem createSale_success {F : Type} [Float64Ops F] (c : Context) (now : Nat)
    (flt : Faults) (db : Store F) (businessID id : Nat) (product : Product F) (n : Int)
    (hc : c.business_id = some businessID)
    (hproduct : db.product businessID id = some product)
    (hid : id ≠ 0) (hpos : 0 < n) (hle : n ≤ product.Quantity)
    (hq : isInt64 product.Quantity) (hcommit : flt.commit = false) :
    ((CreateSale c (some { ProductID := id, Quantity := n }) now flt db).1.status = 201 ↔
        (flt.load = false ∧ flt.write1 = false ∧ flt.write2 = false)) ∧
      ((CreateSale c (some { ProductID := id, Quantity := n }) now flt db).1.status = 201 →
        ∃ sale : Sale F,
          (CreateSale c (some { ProductID := id, Quantity := n }) now flt db).1.body
              = Body.sale sale ∧
          (CreateSale c (some { ProductID := id, Quantity := n }) now flt db).2.sales
              = db.sales ++ [sale] ∧
          sale.DeletedAt = none ∧ sale.BusinessID = businessID ∧ sale.ProductID = id ∧
          sale.Quantity = n ∧
          sale.Total = Float64Ops.mul (Float64Ops.ofInt n) product.Price ∧
          sale.SoldAt = now ∧
          (CreateSale c (some { ProductID := id, Quantity := n }) now flt db).2.product
              businessID id = some { product with Quantity := product.Quantity - n } ∧
          (CreateSale c (some { ProductID := id, Quantity := n }) now flt db).2.stocks
              = db.stocks ∧
          (CreateSale c (some { ProductID := id, Quantity := n }) now flt db).2.categories
              = db.categories) := by
  have hbind := bindSaleInput_valid id n hid hpos
  have hspec := Store.product_spec hproduct
  have hnot : ¬ product.Quantity < n := by omega
  have hwrap : wrapInt64 (product.Quantity - n) = product.Quantity - n := by
    apply wrapInt64_of_isInt64
    unfold isInt64 at hq ⊢
    omega
  have hfind : List.find? (fun row : Product F =>
      row.DeletedAt.isNone && (row.ID == id && row.BusinessID == businessID)) db.products
        = some product := hproduct
  obtain ⟨load, check, write1, write2, commit⟩ := flt
  simp only at hcommit
  subst hcommit
  cases load <;> cases write1 <;> cases write2 <;>
    simp [CreateSale, hc, hbind, First, hfind, hnot, hwrap, Begin, Rollback, Commit,
      Tx.createSale]
  refine ⟨hspec.2.2.1, ?_⟩
  exact Store.product_saveProduct db businessID id product
    { product with Quantity := product.Quantity - n } hproduct
    ⟨hspec.2.1, hspec.2.2.1, hspec.2.2.2⟩ _ rfl

theorem First_update_lookup {F : Type} (db : Store F) (businessID id : Nat)
    (product : Product F) (hproduct : db.product businessID id = some product) (fault : Bool) :
    First (fault || (some id).isNone) db.products (fun row =>
        row.DeletedAt.isNone && (row.BusinessID == businessID && some row.ID == some id))
      = if fault then QueryResult.failed else QueryResult.found product := by
  have hpred : (fun row : Product F =>
        row.DeletedAt.isNone && (row.BusinessID == businessID && some row.ID == some id))
      = (fun row : Product F =>
        row.DeletedAt.isNone && (row.ID == id && row.BusinessID == businessID)) := by
    funext row
    rw [Bool.and_comm (row.ID == id)]
    simp
  rw [hpred]
  unfold Store.product at hproduct
  cases fault <;> simp [First, hproduct]

@[simp] theorem Tx.updatesProduct_stocks {F : Type} [Float64Ops F] (tx : Tx F)
    (product updateData : Product F) :
    (tx.updatesProduct product updateData).cur.stocks = tx.cur.stocks := rfl

@[simp] theorem Tx.updatesProduct_sales {F : Type} [Float64Ops F] (tx : Tx F)
    (product updateData : Product F) :
    (tx.updatesProduct product updateData).cur.sales = tx.cur.sales := rfl

@[simp] theorem Tx.updatesProduct_categories {F : Type} [Float64Ops F] (tx : Tx F)
    (product updateData : Product F) :
    (tx.updatesProduct product updateData).cur.categories = tx.cur.categories := rfl

/-- The run of `UpdateProduct` on a product the business owns, from the name check on. -/
theorem UpdateProduct_eq {F : Type} [Float64Ops F] (c : Context) (now : Nat)
    (flt : Faults) (db : Store F) (businessID id : Nat) (product : Product F)
    (input : ProductInput F)
    (hc : c.business_id = some businessID)
    (hproduct : db.product businessID id = some product) :
    UpdateProduct c (some id) (some input) now flt db =
      if flt.load then ({ status := 500, body := Body.dbError }, db)
      else
        match nameConflict flt db businessID product input with
        | QueryResult.found _ =>
          ({ status := 409,
             body := Body.error "Product with this name already exists in this category" }, db)
        | QueryResult.failed => ({ status := 500, body := Body.dbError }, db)
        | QueryResult.recordNotFound =>
          if flt.write1 then ({ status := 500, body := Body.dbError }, db)
          else if 0 < wrapInt64 (input.Quantity - product.Quantity) then
            if flt.write2 then ({ status := 500, body := Body.dbError }, db)
            else
              ({ status := 200, body := Body.product (applyUpdates (input.updateData) product) },
                Commit flt.commit
                  ((((Begin db).updatesProduct product (input.updateData)).createStock
                    { ID := 0, DeletedAt := none, BusinessID := businessID, ProductID := id,
                      Quantity := wrapInt64 (input.Quantity - product.Quantity),
                      AddedAt := now }).2))
          else
            ({ status := 200, body := Body.product (applyUpdates (input.updateData) product) },
              Commit flt.commit ((Begin db).updatesProduct product (input.updateData))) := by
  have hfirst := First_update_lookup db businessID id product hproduct flt.load
  have hid := (Store.product_spec hproduct).2.2.1
  subst hid
  unfold UpdateProduct
  simp only [hc, hfirst]
  cases flt.load
  · simp only [Bool.false_eq_true, if_false]
    cases nameConflict flt db businessID product input <;> rfl
  · rfl

/-- C8: a successful `UpdateProduct` adds one stock entry for the difference
`delta = input.Quantity - oldQuantity` (the subtraction of Go `int`) when `delta > 0`,
carrying `delta`, the product and the business, and adds no stock entry when `delta ≤ 0`;
`delta` is the mathematical difference whenever that difference is a Go `int`. -/
theorem updateProduct_stock_entry {F : Type} [Float64Ops F] (c : Context) (now : Nat)
    (flt : Faults) (db : Store F) (businessID id : Nat) (product : Product F)
    (input : ProductInput F)
    (hc : c.business_id = some businessID)
    (hproduct : db.product businessID id = some product)
    (hok : (UpdateProduct c (some id) (some input) now flt db).1.status = 200)
    (hcommit : flt.commit = false) :
    (0 < wrapInt64 (input.Quantity - product.Quantity) →
        ∃ stock : Stock,
          (UpdateProduct c (some id) (some input) now flt db).2.stocks = db.stocks ++ [stock] ∧
          stock.Quantity = wrapInt64 (input.Quantity - product.Quantity) ∧
          stock.ProductID = id ∧ stock.BusinessID = businessID ∧ stock.DeletedAt = none ∧
          stock.AddedAt = now) ∧
      (wrapInt64 (input.Quantity - product.Quantity) ≤ 0 →
        (UpdateProduct c (some id) (some input) now flt db).2.stocks = db.stocks) ∧
      (isInt64 (input.Quantity - product.Quantity) →
        wrapInt64 (input.Quantity - product.Quantity) = input.Quantity - product.Quantity) := by
  rw [UpdateProduct_eq c now flt db businessID id product input hc hproduct] at hok ⊢
  generalize nameConflict flt db businessID product input = conflict at hok ⊢
  obtain ⟨load, check, write1, write2, commit⟩ := flt
  simp only at hcommit
  subst hcommit
  refine ⟨?_, ?_, wrapInt64_of_isInt64⟩
  · intro hdelta
    cases conflict <;> cases load <;> cases write1 <;> cases write2 <;>
      simp [hdelta, Begin, Commit, Tx.createStock] at hok ⊢
  · intro hdelta
    have hnot : ¬ 0 < wrapInt64 (input.Quantity - product.Quantity) := by omega
    cases conflict <;> cases load <;> cases write1 <;>
      simp [hnot, Begin, Commit] at hok ⊢

/-- C4: when the second write of the unit of work is reached and fails (the save of the
product in `CreateSale`, the insert of the stock entry in `UpdateProduct`), the request is
answered with status 500 and the database is the one before the request. -/
theorem second_write_failure_rolls_back {F : Type} [Float64Ops F] (c : Context) (now : Nat)
    (flt : Faults) (db : Store F) (businessID id : Nat) (product : Product F) (n : Int)
    (input : ProductInput F)
    (hc : c.business_id = some businessID)
    (hproduct : db.product businessID id = some product)
    (hid : id ≠ 0) (hpos : 0 < n) (hle : n ≤ product.Quantity)
    (hconf : nameConflict flt db businessID product input = QueryResult.recordNotFound)
    (hdelta : 0 < wrapInt64 (input.Quantity - product.Quantity))
    (hload : flt.load = false) (hw1 : flt.write1 = false) (hw2 : flt.write2 = true) :
    CreateSale c (some { ProductID := id, Quantity := n }) now flt db
        = ({ status := 500, body := Body.error "Failed to update inventory" }, db) ∧
      UpdateProduct c (some id) (some input) now flt db
        = ({ status := 500, body := Body.dbError }, db) := by
  constructor
  · have hbind := bindSaleInput_valid id n hid hpos
    have hnot : ¬ product.Quantity < n := by omega
    have hfirst := First_no_fault db.products _ product hproduct
    unfold CreateSale
    simp only [hc, hbind, hload, hfirst, hnot, hw1, hw2, if_true, if_false, Bool.false_eq_true]
    rfl
  · rw [UpdateProduct_eq c now flt db businessID id product input hc hproduct]
    simp [hconf, hload, hw1, hw2, hdelta]

theorem Store.productNamed_none {F : Type} {db : Store F} {businessID categoryID : Nat}
    {name : String} :
    db.productNamed businessID categoryID name = none ↔
      ¬ ∃ row ∈ db.products, row.DeletedAt = none ∧ row.BusinessID = businessID ∧
        row.CategoryID = categoryID ∧ lower row.Name = lower name := by
  unfold Store.productNamed
  rw [List.find?_eq_none]
  constructor
  · rintro h ⟨row, hmem, h1, h2, h3, h4⟩
    exact h row hmem (by simp [h1, h2, h3, h4])
  · intro h row hmem hrow
    apply h
    simp at hrow
    exact ⟨row, hmem, hrow.1, hrow.2.1, hrow.2.2.1, hrow.2.2.2⟩

/-- The run of `CreateProduct` for a request with a business and a body that decodes. -/
theorem CreateProduct_eq {F : Type} [Float64Ops F] (c : Context) (now : Nat)
    (flt : Faults) (db : Store F) (businessID : Nat) (input : ProductInput F)
    (hc : c.business_id = some businessID) :
    CreateProduct c (some input) now flt db =
      if flt.check then ({ status := 500, body := Body.dbError }, db)
      else if (db.productNamed businessID input.CategoryID input.Name).isSome then
        ({ status := 409,
           body := Body.error "Product with this name already exists in this category" }, db)
      else if flt.write1 then ({ status := 500, body := Body.dbError }, db)
      else if flt.write2 then ({ status := 500, body := Body.dbError }, db)
      else
        ({ status := 201,
           body := Body.created "Product created successfully"
            { ID := nextID (db.products.map Product.ID), DeletedAt := none,
              BusinessID := businessID, CategoryID := input.CategoryID, Name := input.Name,
              Description := input.Description, Quantity := input.Quantity,
              Price := input.Price } },
          if flt.commit then db
          else
            { db with
              products := db.products ++
                [{ ID := nextID (db.products.map Product.ID), DeletedAt := none,
                   BusinessID := businessID, CategoryID := input.CategoryID,
                   Name := input.Name, Description := input.Description,
                   Quantity := input.Quantity, Price := input.Price }]
              stocks := db.stocks ++
                [{ ID := nextID (db.stocks.map Stock.ID), DeletedAt := none,
                   BusinessID := businessID,
                   ProductID := nextID (db.products.map Product.ID),
                   Quantity := input.Quantity, AddedAt := now }] }) := by
  unfold CreateProduct Store.productNamed First
  simp only [hc]
  cases flt.check
  · simp only [Bool.false_eq_true, if_false]
    cases List.find? (fun row : Product F =>
        row.DeletedAt.isNone && (row.BusinessID == businessID &&
          (row.CategoryID == input.CategoryID && lower row.Name == lower input.Name)))
        db.products
    · simp only [Option.isSome_none, Bool.false_eq_true, if_false]
      cases flt.write1 <;> cases flt.write2 <;> cases flt.commit <;> rfl
    · rfl
  · rfl

theorem lt_nextID (ids : List Nat) (x : Nat) (hx : x ∈ ids) : x < nextID ids := by
  unfold nextID
  induction ids with
  | nil => simp at hx
  | cons y rest ih =>
    simp only [List.foldr_cons]
    rcases List.mem_cons.mp hx with h | h
    · subst h
      omega
    · have := ih h
      omega

theorem Product.ID_ne_nextID {F : Type} (rows : List (Product F)) (row : Product F)
    (hrow : row ∈ rows) : row.ID ≠ nextID (rows.map Product.ID) := by
  have := lt_nextID (rows.map Product.ID) row.ID (List.mem_map_of_mem Product.ID hrow)
  omega

/-- C7: a successful `CreateProduct` adds one product row with the requested quantity and
one stock entry with that quantity for the new product, both of the business; when the
insert of the stock entry fails the database is left as it was; and the request succeeds
when the name is free and no statement fails. -/
theorem createProduct_product_and_stock {F : Type} [Float64Ops F] (c : Context) (now : Nat)
    (flt : Faults) (db : Store F) (businessID : Nat) (input : ProductInput F)
    (hc : c.business_id = some businessID) :
    ((CreateProduct c (some input) now flt db).1.status = 201 → flt.commit = false →
        ∃ (product : Product F) (stock : Stock),
          (CreateProduct c (some input) now flt db).1.body
              = Body.created "Product created successfully" product ∧
          (CreateProduct c (some input) now flt db).2.products = db.products ++ [product] ∧
          (CreateProduct c (some input) now flt db).2.stocks = db.stocks ++ [stock] ∧
          (CreateProduct c (some input) now flt db).2.sales = db.sales ∧
          (CreateProduct c (some input) now flt db).2.categories = db.categories ∧
          product.Quantity = input.Quantity ∧ product.BusinessID = businessID ∧
          product.DeletedAt = none ∧ product.CategoryID = input.CategoryID ∧
          product.Name = input.Name ∧ product.Description = input.Description ∧
          product.Price = input.Price ∧ (∀ row ∈ db.products, row.ID ≠ product.ID) ∧
          stock.Quantity = input.Quantity ∧ stock.ProductID = product.ID ∧
          stock.BusinessID = businessID ∧ stock.DeletedAt = none ∧ stock.AddedAt = now) ∧
      (db.productNamed businessID input.CategoryID input.Name = none → flt.check = false →
        flt.write1 = false → flt.write2 = true →
        CreateProduct c (some input) now flt db
          = ({ status := 500, body := Body.dbError }, db)) ∧
      (db.productNamed businessID input.CategoryID input.Name = none → flt.check = false →
        flt.write1 = false → flt.write2 = false →
        (CreateProduct c (some input) now flt db).1.status = 201) := by
  rw [CreateProduct_eq c now flt db businessID input hc]
  refine ⟨?_, ?_, ?_⟩
  · intro hok hcommit
    obtain ⟨load, check, write1, write2, commit⟩ := flt
    simp only at hcommit
    subst hcommit
    cases hfree : (db.productNamed businessID input.CategoryID input.Name).isSome <;>
      cases check <;> cases write1 <;> cases write2 <;> simp [hfree] at hok ⊢
    intro row hrow
    exact Product.ID_ne_nextID db.products row hrow
  · intro hfree hcheck hw1 hw2
    simp [hfree, hcheck, hw1, hw2]
  · intro hfree hcheck hw1 hw2
    simp [hfree, hcheck, hw1, hw2]

/-- C10: `CreateProduct` is refused with status 409, and adds no row, when the business has
a live product in the requested category whose lower-cased name is the lower-cased requested
name; and it answers 409 only then, so a product of that name in another category or of
another business does not cause the conflict. -/
theorem createProduct_conflict {F : Type} [Float64Ops F] (c : Context) (now : Nat)
    (flt : Faults) (db : Store F) (businessID : Nat) (input : ProductInput F)
    (hc : c.business_id = some businessID) (hcheck : flt.check = false) :
    ((∃ row ∈ db.products, row.DeletedAt = none ∧ row.BusinessID = businessID ∧
          row.CategoryID = input.CategoryID ∧ lower row.Name = lower input.Name) →
        CreateProduct c (some input) now flt db
          = ({ status := 409,
               body := Body.error "Product with this name already exists in this category" },
             db)) ∧
      ((CreateProduct c (some input) now flt db).1.status = 409 →
        ∃ row ∈ db.products, row.DeletedAt = none ∧ row.BusinessID = businessID ∧
          row.CategoryID = input.CategoryID ∧ lower row.Name = lower input.Name) := by
  rw [CreateProduct_eq c now flt db businessID input hc]
  have hnone := @Store.productNamed_none F db businessID input.CategoryID input.Name
  constructor
  · intro hdup
    cases hfind : db.productNamed businessID input.CategoryID input.Name with
    | none => exact absurd hdup (hnone.mp hfind)
    | some row => simp [hcheck]
  · intro hstatus
    by_contra hdup
    have hfind := hnone.mpr hdup
    cases hw1 : flt.write1 <;> cases hw2 : flt.write2 <;>
      simp [hcheck, hfind, hw1, hw2] at hstatus

theorem bindSaleInput_some {body : Option SaleInput} {saleInput : SaleInput}
    (h : bindSaleInput body = some saleInput) :
    body = some saleInput ∧ saleInput.ProductID ≠ 0 ∧ 0 < saleInput.Quantity := by
  unfold bindSaleInput at h
  cases body with
  | none => simp at h
  | some input =>
    simp only at h
    split_ifs at h with h1 h2 h3
    simp only [Option.some.injEq] at h
    subst h
    refine ⟨rfl, ?_, by omega⟩
    simpa using h1

theorem First_found {α : Type} {fault : Bool} {rows : List α} {cond : α → Bool} {row : α}
    (h : First fault rows cond = QueryResult.found row) :
    fault = false ∧ rows.find? cond = some row := by
  unfold First at h
  cases fault with
  | true => simp at h
  | false =>
    cases hfind : rows.find? cond with
    | none => simp [hfind] at h
    | some found =>
      simp [hfind] at h
      exact ⟨rfl, by rw [h]⟩

theorem Commit_cases {F : Type} (P : Store F → Prop) (fault : Bool) (tx : Tx F)
    (hbase : P tx.base) (hcur : P tx.cur) : P (Commit fault tx) := by
  unfold Commit
  cases fault
  · exact hcur
  · exact hbase

theorem CreateSale_quantitiesNonneg {F : Type} [Float64Ops F] (c : Context)
    (body : Option SaleInput) (now : Nat) (flt : Faults) (db : Store F)
    (hinv : db.quantitiesNonneg) : (CreateSale c body now flt db).2.quantitiesNonneg := by
  unfold CreateSale
  split
  · exact hinv
  · split
    · exact hinv
    · rename_i saleInput hbind
      split
      · exact hinv
      · exact hinv
      · rename_i product hfirst
        have hmem := List.mem_of_find?_eq_some (First_found hfirst).2
        have hpos := (bindSaleInput_some hbind).2.2
        split_ifs with hlt hw1 hw2
        · exact hinv
        · exact hinv
        · exact hinv
        · apply Commit_cases
          · exact hinv
          · intro row hrow
            simp only [Tx.saveProduct, Tx.createSale, Begin, List.mem_map] at hrow
            obtain ⟨old, hold, hrow⟩ := hrow
            split_ifs at hrow
            · subst hrow
              have hq := hinv product hmem
              have hwrap : wrapInt64 (product.Quantity - saleInput.Quantity)
                  = product.Quantity - saleInput.Quantity := by
                apply wrapInt64_of_isInt64
                have := hq.2
                unfold isInt64 at this ⊢
                omega
              simp only [hwrap]
              have := hq.2
              unfold isInt64 at this ⊢
              omega
            · subst hrow
              exact hinv old hold

theorem CreateProduct_quantitiesNonneg {F : Type} [Float64Ops F] (c : Context)
    (body : Option (ProductInput F)) (now : Nat) (flt : Faults) (db : Store F)
    (hinv : db.quantitiesNonneg)
    (hbody : ∀ input, body = some input → 0 ≤ input.Quantity ∧ isInt64 input.Quantity) :
    (CreateProduct c body now flt db).2.quantitiesNonneg := by
  unfold CreateProduct
  split
  · exact hinv
  · split
    · exact hinv
    · rename_i input
      split
      · exact hinv
      · exact hinv
      · split_ifs
        · exact hinv
        · exact hinv
        · apply Commit_cases
          · exact hinv
          · intro row hrow
            simp only [Tx.createStock, Tx.createProduct, Begin, List.mem_append,
              List.mem_singleton] at hrow
            rcases hrow with hrow | hrow
            · exact hinv row hrow
            · subst hrow
              exact hbody input rfl

theorem UpdateProduct_quantitiesNonneg {F : Type} [Float64Ops F] (c : Context)
    (id : Option Nat) (body : Option (ProductInput F)) (now : Nat) (flt : Faults)
    (db : Store F) (hinv : db.quantitiesNonneg)
    (hbody : ∀ input, body = some input → 0 ≤ input.Quantity ∧ isInt64 input.Quantity) :
    (UpdateProduct c id body now flt db).2.quantitiesNonneg := by
  have hrows : ∀ (tx : Tx F) (product : Product F) (input : ProductInput F),
      body = some input → tx.cur.quantitiesNonneg →
      (tx.updatesProduct product input.updateData).cur.quantitiesNonneg := by
    intro tx product input hin htx row hrow
    simp only [Tx.updatesProduct, List.mem_map] at hrow
    obtain ⟨old, hold, hrow⟩ := hrow
    split_ifs at hrow
    · subst hrow
      simp only [applyUpdates, ProductInput.updateData]
      split_ifs
      · exact htx old hold
      · exact hbody input hin
    · subst hrow
      exact htx old hold
  unfold UpdateProduct
  split
  · exact hinv
  · split
    · exact hinv
    · exact hinv
    · rename_i product hfirst
      split
      · exact hinv
      · rename_i input
        split
        · exact hinv
        · exact hinv
        · simp only
          split_ifs
          · exact hinv
          · exact hinv
          · apply Commit_cases
            · exact hinv
            · exact hrows (Begin db) product input rfl hinv
          · apply Commit_cases
            · exact hinv
            · exact hrows (Begin db) product input rfl hinv

/-- C6 (amended): given that every product quantity is non-negative, it is so again after
every `CreateSale` request, whatever its input, and after every `CreateProduct` and
`UpdateProduct` request whose requested quantity is non-negative. -/
theorem quantity_stays_nonneg {F : Type} [Float64Ops F] (c : Context) (id : Option Nat)
    (now : Nat) (flt : Faults) (db : Store F) (hinv : db.quantitiesNonneg) :
    (∀ body : Option SaleInput, (CreateSale c body now flt db).2.quantitiesNonneg) ∧
      (∀ body : Option (ProductInput F),
        (∀ input, body = some input → 0 ≤ input.Quantity ∧ isInt64 input.Quantity) →
        (CreateProduct c body now flt db).2.quantitiesNonneg) ∧
      (∀ body : Option (ProductInput F),
        (∀ input, body = some input → 0 ≤ input.Quantity ∧ isInt64 input.Quantity) →
        (UpdateProduct c id body now flt db).2.quantitiesNonneg) :=
  ⟨fun body => CreateSale_quantitiesNonneg c body now flt db hinv,
    fun body hbody => CreateProduct_quantitiesNonneg c body now flt db hinv hbody,
    fun body hbody => UpdateProduct_quantitiesNonneg c id body now flt db hinv hbody⟩

/-- C6, witness: scenario A, a sale of 10, a second product and an update to 60. -/
theorem quantity_stays_nonneg_witness :
    scenarioA.quantitiesNonneg ∧
      (CreateSale acme (some { ProductID := 1, Quantity := 10 }) 11 noFaults
        scenarioA).2.quantitiesNonneg ∧
      (CreateProduct acme (some { chips with Name := "Crisps" }) 11 noFaults
        scenarioA).2.quantitiesNonneg ∧
      (UpdateProduct acme (some 1) (some { chips with Quantity := 60 }) 11 noFaults
        scenarioA).2.quantitiesNonneg :=
  ⟨by decide,
    (quantity_stays_nonneg acme (some 1) 11 noFaults scenarioA (by decide)).1 _,
    (quantity_stays_nonneg acme (some 1) 11 noFaults scenarioA (by decide)).2.1 _
      (fun input h => by cases h; decide),
    (quantity_stays_nonneg acme (some 1) 11 noFaults scenarioA (by decide)).2.2 _
      (fun input h => by cases h; decide)⟩

/-- C6, counterexample: `CreateProduct` and `UpdateProduct` accept and store the quantity
-5: both requests succeed and leave a product below zero. -/
theorem negative_quantity_is_stored :
    (CreateProduct acme (some { chips with Quantity := -5 }) 10 noFaults {}).1.status = 201 ∧
      ((CreateProduct acme (some { chips with Quantity := -5 }) 10 noFaults {}).2.product 1 1).map
        Product.Quantity = some (-5) ∧
      scenarioA.quantitiesNonneg ∧
      (UpdateProduct acme (some 1) (some { chips with Quantity := -5 }) 12 noFaults
        scenarioA).1.status = 200 ∧
      ((UpdateProduct acme (some 1) (some { chips with Quantity := -5 }) 12 noFaults
        scenarioA).2.product 1 1).map Product.Quantity = some (-5) := by
  decide

/-- C9, failing input: `UpdateProduct` of "Chips" (50 units at 2.00) with the requested
quantity 0, and with every requested field zero or empty, answers 200 and leaves the row
as it was: the requested zero values are not stored. -/
theorem updateProduct_drops_zero_values :
    scenarioA.product 1 1 = some chipsRow ∧
      UpdateProduct acme (some 1) (some { chips with Quantity := 0 }) 12 noFaults scenarioA
        = ({ status := 200, body := Body.product chipsRow }, scenarioA) ∧
      UpdateProduct acme (some 1)
          (some { Name := "", Description := "", Quantity := 0, Price := (0 : Int),
                  CategoryID := 0 }) 12 noFaults scenarioA
        = ({ status := 200, body := Body.product chipsRow }, scenarioA) := by
  decide

/-- C5, failing input: with the principal of business 2, `GetCategoryProducts` returns the
product of business 1 and `DeleteAll` deletes it. -/
theorem foreign_rows_read_and_deleted :
    rival.business_id = some 2 ∧ chipsRow.BusinessID = 1 ∧
      scenarioA.product 1 1 = some chipsRow ∧
      (GetCategoryProducts rival (some 1) noFaults scenarioA).1
        = { status := 200, body := Body.products [chipsRow] } ∧
      (DeleteAll rival 12 noFaults scenarioA).2.products
        = [{ chipsRow with DeletedAt := some 12 }] ∧
      (DeleteAll rival 12 noFaults scenarioA).2.product 1 1 = none := by
  decide

/-- C3: stock conservation fails on an update to 0 units. "Chips" is created with -5 units
and then updated to 0 units. Both requests succeed and the update is ledgered as a stock
addition of 5, but the stored quantity is still -5, not -5 + 5 - 0: `Updates` has skipped
the quantity 0. -/
theorem conservation_fails_below_zero :
    (CreateProduct acme (some { chips with Quantity := -5 }) 10 noFaults {}).1.status = 201 ∧
      (ledgerRun 1 1 [LedgerRequest.addStock acme { chips with Quantity := 0 } 11 noFaults]
          scenarioNegative).map
        (fun db => ((db.product 1 1).map Product.Quantity,
          db.stockSum 1 - scenarioNegative.stockSum 1,
          db.saleSum 1 - scenarioNegative.saleSum 1))
        = some (some (-5), 5, 0) ∧
      (-5 : Int) ≠ -5 + 5 - 0 := by
  decide

/-- C1, witness (scenario C): with 40 units of "Chips" on hand a sale of 100 is refused and
the 40 units stay. -/
theorem createSale_insufficient_stock_witness :
    (CreateSale acme (some { ProductID := 1, Quantity := 100 }) 12 noFaults scenarioB).1
        = { status := 400, body := Body.error "Insufficient stock" } ∧
      (CreateSale acme (some { ProductID := 1, Quantity := 100 }) 12 noFaults scenarioB).2.sales
        = scenarioB.sales ∧
      (CreateSale acme (some { ProductID := 1, Quantity := 100 }) 12 noFaults
          scenarioB).2.product 1 1 = some { chipsRow with Quantity := 40 } ∧
      (CreateSale acme (some { ProductID := 1, Quantity := 100 }) 12 noFaults scenarioB).2
        = scenarioB :=
  createSale_insufficient_stock acme 12 noFaults scenarioB 1 1 { chipsRow with Quantity := 40 }
    100 (by decide) (by decide) (by decide) (by decide) (by decide) (by decide)

/-- C2, witness (scenario B): selling 10 of the 50 "Chips" at 2.00 records one sale with
total 20.00 and leaves 40 units. -/
theorem createSale_success_witness :
    ∃ sale : Sale Int,
      (CreateSale acme (some { ProductID := 1, Quantity := 10 }) 11 noFaults scenarioA).2.sales
          = scenarioA.sales ++ [sale] ∧
        sale.BusinessID = 1 ∧ sale.ProductID = 1 ∧ sale.Quantity = 10 ∧ sale.Total = 20 ∧
        (CreateSale acme (some { ProductID := 1, Quantity := 10 }) 11 noFaults
          scenarioA).2.product 1 1 = some { chipsRow with Quantity := 40 } := by
  have h := createSale_success acme 11 noFaults scenarioA 1 1 chipsRow 10 (by decide)
    (by decide) (by decide) (by decide) (by decide) (by decide) (by decide)
  obtain ⟨sale, _, hsales, _, hb, hp, hq, ht, _, hproduct, _, _⟩ := h.2 (h.1.mpr (by decide))
  exact ⟨sale, hsales, hb, hp, hq, by rw [ht]; decide, hproduct⟩

/-- C4, witness: on scenario A, with the second write failing, a sale of 10 and an update
to 60 units both leave the database as it was. -/
theorem second_write_failure_rolls_back_witness :
    CreateSale acme (some { ProductID := 1, Quantity := 10 }) 11 { write2 := true } scenarioA
        = ({ status := 500, body := Body.error "Failed to update inventory" }, scenarioA) ∧
      UpdateProduct acme (some 1) (some { chips with Quantity := 60 }) 11 { write2 := true }
          scenarioA
        = ({ status := 500, body := Body.dbError }, scenarioA) :=
  second_write_failure_rolls_back acme 11 { write2 := true } scenarioA 1 1 chipsRow 10
    { chips with Quantity := 60 } (by decide) (by decide) (by decide) (by decide) (by decide)
    (by decide) (by decide) (by decide) (by decide) (by decide)

/-- C7, witness (scenario A): creating "Chips" with 50 units in an empty database adds the
product with 50 units and one stock entry of 50; with the insert of the stock entry
failing, nothing is added. -/
theorem createProduct_product_and_stock_witness :
    (∃ (product : Product Int) (stock : Stock),
        (CreateProduct acme (some chips) 10 noFaults {}).2.products = [product] ∧
        (CreateProduct acme (some chips) 10 noFaults {}).2.stocks = [stock] ∧
        product.Quantity = 50 ∧ stock.Quantity = 50 ∧ stock.ProductID = product.ID ∧
        product.BusinessID = 1 ∧ stock.BusinessID = 1) ∧
      CreateProduct acme (some chips) 10 { write2 := true } ({} : Store Int)
        = ({ status := 500, body := Body.dbError }, {}) := by
  have h := createProduct_product_and_stock acme 10 noFaults ({} : Store Int) 1 chips
    (by decide)
  have hfail := (createProduct_product_and_stock acme 10 { write2 := true } ({} : Store Int) 1
    chips (by decide)).2.1 (by decide) (by decide) (by decide) (by decide)
  obtain ⟨product, stock, _, hproducts, hstocks, _, _, hq, hb, _, _, _, _, _, _, hsq, hsp, hsb,
    _, _⟩ := h.1 (h.2.2 (by decide) (by decide) (by decide) (by decide)) (by decide)
  exact ⟨⟨product, stock, hproducts, hstocks, hq, hsq, hsp, hb, hsb⟩, hfail⟩

/-- C8, witness (scenario D): updating "Chips" from 40 to 60 units adds a stock entry of 20;
updating from 50 to 30 adds none. -/
theorem updateProduct_stock_entry_witness :
    (∃ stock : Stock,
        (UpdateProduct acme (some 1) (some { chips with Quantity := 60 }) 12 noFaults
          scenarioB).2.stocks = scenarioB.stocks ++ [stock] ∧
        stock.Quantity = 20 ∧ stock.ProductID = 1 ∧ stock.BusinessID = 1) ∧
      (UpdateProduct acme (some 1) (some { chips with Quantity := 30 }) 12 noFaults
        scenarioA).2.stocks = scenarioA.stocks := by
  have hup := (updateProduct_stock_entry acme 12 noFaults scenarioB 1 1
    { chipsRow with Quantity := 40 } { chips with Quantity := 60 } (by decide) (by decide)
    (by decide) (by decide)).1 (by decide)
  have hdown := (updateProduct_stock_entry acme 12 noFaults scenarioA 1 1 chipsRow
    { chips with Quantity := 30 } (by decide) (by decide) (by decide) (by decide)).2.1
    (by decide)
  obtain ⟨stock, hstocks, hq, hp, hb, _, _⟩ := hup
  exact ⟨⟨stock, hstocks, by rw [hq]; decide, hp, hb⟩, hdown⟩

/-- C10, witness: in scenario A a second "CHIPS" in category 1 of business 1 is refused,
while "Chips" in category 2, and "Chips" for business 2, are not; and "École" is refused
where the business holds "école". -/
theorem createProduct_conflict_witness :
    CreateProduct acme (some { chips with Name := "CHIPS" }) 12 noFaults scenarioA
        = ({ status := 409,
             body := Body.error "Product with this name already exists in this category" },
           scenarioA) ∧
      (CreateProduct acme (some { chips with CategoryID := 2 }) 12 noFaults
        scenarioA).1.status ≠ 409 ∧
      (CreateProduct rival (some chips) 12 noFaults scenarioA).1.status ≠ 409 ∧
      CreateProduct acme (some { chips with Name := "École" }) 12 noFaults
          { products := [{ chipsRow with Name := "école" }] }
        = ({ status := 409,
             body := Body.error "Product with this name already exists in this category" },
           { products := [{ chipsRow with Name := "école" }] }) := by
  refine ⟨(createProduct_conflict acme 12 noFaults scenarioA 1 { chips with Name := "CHIPS" }
    (by decide) (by decide)).1 ⟨chipsRow, by decide⟩, ?_, ?_,
    (createProduct_conflict acme 12 noFaults { products := [{ chipsRow with Name := "école" }] }
      1 { chips with Name := "École" } (by decide) (by decide)).1
      ⟨{ chipsRow with Name := "école" }, by decide⟩⟩
  · intro h
    have := (createProduct_conflict acme 12 noFaults scenarioA 1 { chips with CategoryID := 2 }
      (by decide) (by decide)).2 h
    revert this
    decide
  · intro h
    have := (createProduct_conflict rival 12 noFaults scenarioA 2 chips
      (by decide) (by decide)).2 h
    revert this
    decide

theorem Store.stockSum_append {F : Type} (db next : Store F) (id : Nat) (stock : Stock)
    (hstocks : next.stocks = db.stocks ++ [stock]) (hlive : stock.DeletedAt = none)
    (hid : stock.ProductID = id) : next.stockSum id = db.stockSum id + stock.Quantity := by
  unfold Store.stockSum
  rw [hstocks]
  simp [List.filter_append, hlive, hid]

theorem Store.saleSum_append {F : Type} (db next : Store F) (id : Nat) (sale : Sale F)
    (hsales : next.sales = db.sales ++ [sale]) (hlive : sale.DeletedAt = none)
    (hid : sale.ProductID = id) : next.saleSum id = db.saleSum id + sale.Quantity := by
  unfold Store.saleSum
  rw [hsales]
  simp [List.filter_append, hlive, hid]

theorem Store.product_updatesProduct {F : Type} [Float64Ops F] (db : Store F)
    (businessID id : Nat) (product updateData : Product F)
    (hproduct : db.product businessID id = some product) :
    Store.product ((Tx.updatesProduct (Begin db) product updateData).cur) businessID id
      = some (applyUpdates updateData product) := by
  have hspec := Store.product_spec hproduct
  unfold Store.product at hproduct ⊢
  simp only [Tx.updatesProduct, Begin, List.find?_map]
  have hcomp : ((fun row : Product F =>
        row.DeletedAt.isNone && (row.ID == id && row.BusinessID == businessID)) ∘
      (fun row : Product F =>
        if row.DeletedAt.isNone && row.ID == product.ID then applyUpdates updateData row
        else row))
      = (fun row : Product F =>
        row.DeletedAt.isNone && (row.ID == id && row.BusinessID == businessID)) := by
    funext row
    simp only [Function.comp]
    split_ifs <;> rfl
  rw [hcomp, hproduct]
  simp [hspec.2.1]

/-- What a successful, committed `CreateSale` on a product of the business does. -/
theorem CreateSale_ok {F : Type} [Float64Ops F] (c : Context) (now : Nat) (flt : Faults)
    (db : Store F) (businessID id : Nat) (product : Product F) (n : Int)
    (hc : c.business_id = some businessID)
    (hproduct : db.product businessID id = some product)
    (hq : isInt64 product.Quantity) (hcommit : flt.commit = false)
    (hok : (CreateSale c (some { ProductID := id, Quantity := n }) now flt db).1.status = 201) :
    0 < n ∧ n ≤ product.Quantity ∧
      (∃ sale : Sale F,
        (CreateSale c (some { ProductID := id, Quantity := n }) now flt db).2.sales
          = db.sales ++ [sale] ∧
        sale.DeletedAt = none ∧ sale.ProductID = id ∧ sale.Quantity = n) ∧
      (CreateSale c (some { ProductID := id, Quantity := n }) now flt db).2.stocks = db.stocks ∧
      (CreateSale c (some { ProductID := id, Quantity := n }) now flt db).2.product businessID id
        = some { product with Quantity := product.Quantity - n } := by
  have hspec := Store.product_spec hproduct
  have hfind : List.find? (fun row : Product F =>
      row.DeletedAt.isNone && (row.ID == id && row.BusinessID == businessID)) db.products
        = some product := hproduct
  cases hbind : bindSaleInput (some { ProductID := id, Quantity := n }) with
  | none => simp [CreateSale, hc, hbind] at hok
  | some saleInput =>
    obtain ⟨hbody, _, hpos⟩ := bindSaleInput_some hbind
    simp only [Option.some.injEq] at hbody
    subst hbody
    simp only at hpos
    by_cases hlt : product.Quantity < n
    · cases hload : flt.load <;>
        simp [CreateSale, hc, hbind, First, hfind, hlt, hload] at hok
    · have hle : n ≤ product.Quantity := by omega
      have hwrap : wrapInt64 (product.Quantity - n) = product.Quantity - n := by
        apply wrapInt64_of_isInt64
        unfold isInt64 at hq ⊢
        omega
      obtain ⟨load, check, write1, write2, commit⟩ := flt
      simp only at hcommit
      subst hcommit
      refine ⟨hpos, hle, ?_⟩
      cases load <;> cases write1 <;> cases write2 <;>
        simp [CreateSale, hc, hbind, First, hfind, hlt, hwrap, Begin, Rollback, Commit,
          Tx.createSale] at hok ⊢
      refine ⟨hspec.2.2.1, ?_⟩
      exact Store.product_saveProduct db businessID id product
        { product with Quantity := product.Quantity - n } hproduct
        ⟨hspec.2.1, hspec.2.2.1, hspec.2.2.2⟩ _ rfl

/-- What a successful, committed `UpdateProduct` that raises the quantity does. -/
theorem UpdateProduct_ok {F : Type} [Float64Ops F] (c : Context) (now : Nat) (flt : Faults)
    (db : Store F) (businessID id : Nat) (product : Product F) (input : ProductInput F)
    (hc : c.business_id = some businessID)
    (hproduct : db.product businessID id = some product)
    (hq : 0 ≤ product.Quantity) (hraise : product.Quantity < input.Quantity)
    (hint : isInt64 input.Quantity) (hcommit : flt.commit = false)
    (hok : (UpdateProduct c (some id) (some input) now flt db).1.status = 200) :
    (∃ stock : Stock,
        (UpdateProduct c (some id) (some input) now flt db).2.stocks = db.stocks ++ [stock] ∧
        stock.DeletedAt = none ∧ stock.ProductID = id ∧
        stock.Quantity = input.Quantity - product.Quantity) ∧
      (UpdateProduct c (some id) (some input) now flt db).2.sales = db.sales ∧
      ∃ updated : Product F,
        (UpdateProduct c (some id) (some input) now flt db).2.product businessID id
          = some updated ∧ updated.Quantity = input.Quantity := by
  have hwrap : wrapInt64 (input.Quantity - product.Quantity)
      = input.Quantity - product.Quantity := by
    apply wrapInt64_of_isInt64
    unfold isInt64 at hint ⊢
    omega
  have hdelta : 0 < input.Quantity - product.Quantity := by omega
  have hne : input.Quantity ≠ 0 := by omega
  have hlookup := Store.product_updatesProduct db businessID id product input.updateData
    hproduct
  rw [UpdateProduct_eq c now flt db businessID id product input hc hproduct] at hok ⊢
  rw [hwrap] at hok ⊢
  generalize nameConflict flt db businessID product input = conflict at hok ⊢
  obtain ⟨load, check, write1, write2, commit⟩ := flt
  simp only at hcommit
  subst hcommit
  cases conflict <;> cases load <;> cases write1 <;> cases write2 <;>
    simp [hdelta, Commit, Tx.createStock, Begin] at hok ⊢
  refine ⟨applyUpdates input.updateData product, hlookup, ?_⟩
  simp [applyUpdates, ProductInput.updateData, hne]

theorem Store.stockSum_congr {F : Type} (db next : Store F) (id : Nat)
    (h : next.stocks = db.stocks) : next.stockSum id = db.stockSum id := by
  unfold Store.stockSum
  rw [h]

theorem Store.saleSum_congr {F : Type} (db next : Store F) (id : Nat)
    (h : next.sales = db.sales) : next.saleSum id = db.saleSum id := by
  unfold Store.saleSum
  rw [h]

/-- One successful ledger operation preserves the conservation law. -/
theorem ledgerStep_invariant {F : Type} [Float64Ops F] (businessID id : Nat)
    (q0 stock0 sale0 : Int) (db next : Store F) (request : LedgerRequest F)
    (htyped : request.wellTyped)
    (hinv : ledgerInvariant businessID id q0 stock0 sale0 db)
    (hstep : ledgerStep businessID id db request = some next) :
    ledgerInvariant businessID id q0 stock0 sale0 next := by
  obtain ⟨product, hproduct, hq, hint, hlaw⟩ := hinv
  cases request with
  | sale c n now flt =>
    simp only [ledgerStep] at hstep
    split_ifs at hstep with h
    obtain ⟨hc, hcommit, hok⟩ := h
    simp only [Option.some.injEq] at hstep
    obtain ⟨hpos, hle, ⟨sale, hsales, hlive, hpid, hsq⟩, hstocks, hnext⟩ :=
      CreateSale_ok c now flt db businessID id product n hc hproduct hint hcommit hok
    rw [hstep] at hsales hstocks hnext
    refine ⟨_, hnext, ?_, ?_, ?_⟩
    · simp only
      omega
    · unfold isInt64 at hint ⊢
      simp only
      omega
    · rw [Store.stockSum_congr db next id hstocks,
        Store.saleSum_append db next id sale hsales hlive hpid, hsq]
      simp only
      omega
  | addStock c input now flt =>
    simp only [LedgerRequest.wellTyped] at htyped
    simp only [ledgerStep] at hstep
    split_ifs at hstep with h
    obtain ⟨hc, hcommit, hok, hraise⟩ := h
    simp only [Option.some.injEq] at hstep
    have hlt : product.Quantity < input.Quantity := by
      simpa [raisesQuantity, hproduct] using hraise
    obtain ⟨⟨stock, hstocks, hlive, hpid, hsq⟩, hsales, updated, hnext, huq⟩ :=
      UpdateProduct_ok c now flt db businessID id product input hc hproduct hq hlt htyped
        hcommit hok
    rw [hstep] at hsales hstocks hnext
    refine ⟨updated, hnext, ?_, ?_, ?_⟩
    · omega
    · rw [huq]
      exact htyped
    · rw [Store.saleSum_congr db next id hsales,
        Store.stockSum_append db next id stock hstocks hlive hpid, hsq, huq]
      omega

/-- A sequence of successful ledger operations preserves the conservation law. -/
theorem ledgerRun_invariant {F : Type} [Float64Ops F] (businessID id : Nat)
    (q0 stock0 sale0 : Int) (requests : List (LedgerRequest F)) :
    ∀ (db final : Store F), (∀ request ∈ requests, request.wellTyped) →
      ledgerInvariant businessID id q0 stock0 sale0 db →
      ledgerRun businessID id requests db = some final →
      ledgerInvariant businessID id q0 stock0 sale0 final := by
  induction requests with
  | nil =>
    intro db final _ hinv hrun
    simp only [ledgerRun, Option.some.injEq] at hrun
    rw [← hrun]
    exact hinv
  | cons request rest ih =>
    intro db final htyped hinv hrun
    simp only [ledgerRun] at hrun
    cases hstep : ledgerStep businessID id db request with
    | none => simp [hstep] at hrun
    | some next =>
      simp only [hstep] at hrun
      exact ih next final (fun r hr => htyped r (List.mem_cons_of_mem _ hr))
        (ledgerStep_invariant businessID id q0 stock0 sale0 db next request
          (htyped request (List.mem_cons_self _ _)) hinv hstep) hrun

/-- Right after its committed creation the product is live under the key in the response. -/
theorem CreateProduct_created {F : Type} [Float64Ops F] (c : Context) (now : Nat)
    (flt : Faults) (db0 db1 : Store F) (businessID : Nat) (input : ProductInput F)
    (created : Product F)
    (hc : c.business_id = some businessID)
    (hcreate : CreateProduct c (some input) now flt db0
      = ({ status := 201, body := Body.created "Product created successfully" created }, db1))
    (hcommit : flt.commit = false) :
    db1.product businessID created.ID = some created ∧ created.Quantity = input.Quantity := by
  rw [CreateProduct_eq c now flt db0 businessID input hc] at hcreate
  obtain ⟨load, check, write1, write2, commit⟩ := flt
  simp only at hcommit
  subst hcommit
  cases hfree : (db0.productNamed businessID input.CategoryID input.Name).isSome <;>
    cases check <;> cases write1 <;> cases write2 <;> simp [hfree] at hcreate
  obtain ⟨hcreated, hdb1⟩ := hcreate
  subst hcreated
  subst hdb1
  refine ⟨?_, rfl⟩
  unfold Store.product
  simp only [List.find?_append]
  have hnone : List.find? (fun row : Product F =>
      row.DeletedAt.isNone &&
        (row.ID == nextID (db0.products.map Product.ID) && row.BusinessID == businessID))
      db0.products = none := by
    rw [List.find?_eq_none]
    intro row hrow
    have := Product.ID_ne_nextID db0.products row hrow
    simp [this]
  rw [hnone]
  simp

/-- Stock conservation away from the quantity 0: a product is created with a non-negative
quantity and then undergoes any sequence of successful sales and quantity-raising updates.
Its stored quantity is the creation quantity plus the stock entries added since the creation
minus the sales recorded since. -/
theorem stock_conservation {F : Type} [Float64Ops F] (c : Context) (now : Nat)
    (flt : Faults) (db0 db1 db : Store F) (businessID : Nat) (input : ProductInput F)
    (created : Product F) (requests : List (LedgerRequest F))
    (hc : c.business_id = some businessID)
    (hcreate : CreateProduct c (some input) now flt db0
      = ({ status := 201, body := Body.created "Product created successfully" created }, db1))
    (hcommit : flt.commit = false)
    (hq : 0 ≤ input.Quantity) (hint : isInt64 input.Quantity)
    (htyped : ∀ request ∈ requests, request.wellTyped)
    (hrun : ledgerRun businessID created.ID requests db1 = some db) :
    ∃ product, db.product businessID created.ID = some product ∧
      product.Quantity = input.Quantity + (db.stockSum created.ID - db1.stockSum created.ID)
        - (db.saleSum created.ID - db1.saleSum created.ID) := by
  obtain ⟨hlive, hcq⟩ :=
    CreateProduct_created c now flt db0 db1 businessID input created hc hcreate hcommit
  have hbase : ledgerInvariant businessID created.ID input.Quantity
      (db1.stockSum created.ID) (db1.saleSum created.ID) db1 :=
    ⟨created, hlive, by omega, by rw [hcq]; exact hint, by omega⟩
  obtain ⟨product, hproduct, _, _, hlaw⟩ :=
    ledgerRun_invariant businessID created.ID input.Quantity (db1.stockSum created.ID)
      (db1.saleSum created.ID) requests db1 db htyped hbase hrun
  exact ⟨product, hproduct, hlaw⟩

/-- Scenarios B and D: "Chips" is created with 50 units, 10 are sold, the quantity is raised
to 60 and 5 are sold: the product holds 55 = 50 + 20 - 15 units. -/
theorem stock_conservation_witness :
    (scenarioD.product 1 1).map Product.Quantity = some 55 ∧
      scenarioD.stockSum 1 - scenarioA.stockSum 1 = 20 ∧
      scenarioD.saleSum 1 - scenarioA.saleSum 1 = 15 ∧
      ∃ product, scenarioD.product 1 1 = some product ∧
        product.Quantity = 50 + (scenarioD.stockSum 1 - scenarioA.stockSum 1)
          - (scenarioD.saleSum 1 - scenarioA.saleSum 1) :=
  ⟨by decide, by decide, by decide,
    stock_conservation acme 10 noFaults { categories := scenarioA.categories } scenarioA
      scenarioD 1 chips chipsRow ledgerSample (by decide) (by decide) (by decide) (by decide)
      (by decide) (by decide) (by decide)⟩

/-! ### Categories and the sales history -/

/-- C11, failing input: business 1 holds the category "Snacks". The name "snacks" is
refused with status 409, but the name " snacks" (a leading space) is accepted: the lookup
compares the untrimmed name, the row stores the trimmed one, and the business then holds
two live categories whose trimmed, lower-cased names are equal. -/
theorem createCategory_untrimmed_lookup :
    acme.business_id = some 1 ∧
      scenarioAcme.categories = [{ ID := 1, DeletedAt := none, BusinessID := 1, Name := "Snacks" }] ∧
      lower (trim " snacks") = lower (trim "Snacks") ∧
      (CreateCategory acme (some { Name := "snacks" }) noFaults scenarioAcme).1.status = 409 ∧
      (CreateCategory acme (some { Name := " snacks" }) noFaults scenarioAcme).1.status = 201 ∧
      (CreateCategory acme (some { Name := " snacks" }) noFaults scenarioAcme).2.categories
        = [{ ID := 1, DeletedAt := none, BusinessID := 1, Name := "Snacks" },
           { ID := 2, DeletedAt := none, BusinessID := 1, Name := "snacks" }] := by
  decide

theorem bindCategoryInput_valid (input : CategoryInput) (hmin : 2 ≤ input.Name.length)
    (hmax : input.Name.length ≤ 50) : bindCategoryInput (some input) = some input := by
  have hne : input.Name ≠ "" := by
    intro h
    rw [h] at hmin
    simp at hmin
  unfold bindCategoryInput
  simp only [beq_iff_eq, hne, if_false]
  rw [if_neg (by omega), if_neg (by omega)]

/-- C12: a request of business `businessID` with a valid name (2 to 50 characters) that no
live category of that business carries, up to case, succeeds when no statement fails and
adds one category row of that business, whatever categories the other businesses hold. -/
theorem createCategory_scoped_by_business {F : Type} (c : Context) (flt : Faults)
    (db : Store F) (businessID : Nat) (input : CategoryInput)
    (hc : c.business_id = some businessID)
    (hmin : 2 ≤ input.Name.length) (hmax : input.Name.length ≤ 50)
    (hfree : ∀ row ∈ db.categories, row.DeletedAt = none → row.BusinessID = businessID →
      lower row.Name ≠ lower input.Name)
    (hcheck : flt.check = false) (hwrite : flt.write1 = false) :
    ∃ category : Category,
      CreateCategory c (some input) flt db
        = ({ status := 201, body := Body.category category },
           { db with categories := db.categories ++ [category] }) ∧
      category.BusinessID = businessID ∧ category.Name = trim input.Name ∧
      category.DeletedAt = none ∧ ∀ row ∈ db.categories, row.ID ≠ category.ID := by
  have hbind := bindCategoryInput_valid input hmin hmax
  have hfind : List.find? (fun row : Category =>
      row.DeletedAt.isNone && (row.BusinessID == businessID &&
        lower row.Name == lower input.Name)) db.categories = none := by
    rw [List.find?_eq_none]
    intro row hrow hcond
    simp at hcond
    exact hfree row hrow hcond.1 hcond.2.1 hcond.2.2
  refine ⟨{ ID := nextID (db.categories.map Category.ID), DeletedAt := none,
            BusinessID := businessID, Name := trim input.Name }, ?_, rfl, rfl, rfl, ?_⟩
  · unfold CreateCategory
    simp only [hc, hbind, hcheck, hwrite, First, hfind, Bool.false_eq_true, if_false]
  · intro row hrow
    have := lt_nextID (db.categories.map Category.ID) row.ID
      (List.mem_map_of_mem Category.ID hrow)
    simp only
    omega

/-- C12, witness (P5): business 1 holds "Snacks"; business 2, which holds no category,
creates "Snacks" too, and likewise "CAFÉ" where business 1 holds "café". -/
theorem createCategory_scoped_by_business_witness :
    (∃ category : Category,
      CreateCategory rival (some { Name := "Snacks" }) noFaults scenarioAcme
        = ({ status := 201, body := Body.category category },
           { scenarioAcme with categories := scenarioAcme.categories ++ [category] }) ∧
      category.BusinessID = 2 ∧ category.Name = "Snacks") ∧
      (∃ category : Category,
        (CreateCategory rival (some { Name := "CAFÉ" }) noFaults
          ({ categories := [{ ID := 1, DeletedAt := none, BusinessID := 1, Name := "café" }] } :
            Store Int)).1
          = { status := 201, body := Body.category category } ∧
        category.BusinessID = 2 ∧ category.Name = "CAFÉ") := by
  obtain ⟨category, hrun, hb, hn, _, _⟩ :=
    createCategory_scoped_by_business rival noFaults scenarioAcme 2 { Name := "Snacks" }
      (by decide) (by decide) (by decide) (by decide) (by decide) (by decide)
  obtain ⟨other, hrun₂, hb₂, hn₂, _, _⟩ :=
    createCategory_scoped_by_business rival noFaults
      ({ categories := [{ ID := 1, DeletedAt := none, BusinessID := 1, Name := "café" }] } :
        Store Int)
      2 { Name := "CAFÉ" } (by decide) (by decide) (by decide) (by decide) (by decide)
      (by decide)
  exact ⟨⟨category, hrun, hb, by rw [hn]; decide⟩,
    ⟨other, by rw [hrun₂], hb₂, by rw [hn₂]; decide⟩⟩

theorem First_category_lookup {F : Type} (db : Store F) (businessID id : Nat) (fault : Bool) :
    First (fault || (some id).isNone) db.categories (fun row =>
        row.DeletedAt.isNone && (some row.ID == some id && row.BusinessID == businessID))
      = if fault then QueryResult.failed
        else match db.category businessID id with
          | some category => QueryResult.found category
          | none => QueryResult.recordNotFound := by
  have hpred : (fun row : Category =>
        row.DeletedAt.isNone && (some row.ID == some id && row.BusinessID == businessID))
      = (fun row : Category =>
        row.DeletedAt.isNone && (row.ID == id && row.BusinessID == businessID)) := by
    funext row
    simp
  rw [hpred]
  unfold Store.category First
  cases fault
  · simp only [Bool.false_or, Option.isNone_some, Bool.false_eq_true, if_false]
    cases List.find? (fun row : Category =>
      row.DeletedAt.isNone && (row.ID == id && row.BusinessID == businessID)) db.categories <;>
      rfl
  · rfl

/-- Whether a live product carries the category key `id`. -/
theorem productCount_pos {F : Type} (db : Store F) (id : Nat) :
    0 < (db.products.filter (fun row =>
        row.DeletedAt.isNone && some row.CategoryID == some id)).length ↔
      ∃ row ∈ db.products, row.DeletedAt = none ∧ row.CategoryID = id := by
  rw [List.length_pos_iff_exists_mem]
  constructor
  · rintro ⟨row, hrow⟩
    rw [List.mem_filter] at hrow
    obtain ⟨hmem, hcond⟩ := hrow
    simp at hcond
    exact ⟨row, hmem, hcond.1, hcond.2⟩
  · rintro ⟨row, hmem, hlive, hcat⟩
    refine ⟨row, ?_⟩
    rw [List.mem_filter]
    exact ⟨hmem, by simp [hlive, hcat]⟩

/-- The run of `DeleteCategory` for a request with a business. -/
theorem DeleteCategory_eq {F : Type} (c : Context) (id now : Nat) (flt : Faults)
    (db : Store F) (businessID : Nat) (hc : c.business_id = some businessID) :
    DeleteCategory c (some id) now flt db =
      if flt.load then ({ status := 404, body := Body.error "Category not found" }, db)
      else match db.category businessID id with
        | none => ({ status := 404, body := Body.error "Category not found" }, db)
        | some category =>
          if flt.check then
            ({ status := 500, body := Body.error "Failed to check associated products" }, db)
          else if 0 < (db.products.filter (fun row =>
              row.DeletedAt.isNone && some row.CategoryID == some id)).length then
            ({ status := 403,
               body := Body.error "Cannot delete category with associated products" }, db)
          else if flt.write1 then
            ({ status := 500, body := Body.error "Failed to delete category" }, db)
          else
            ({ status := 200, body := Body.message "Category deleted successfully" },
              { db with categories := deleteCategory now category db.categories }) := by
  unfold DeleteCategory
  simp only [hc, First_category_lookup]
  cases flt.load
  · simp only [Bool.false_eq_true, if_false]
    cases db.category businessID id <;> rfl
  · rfl

theorem Store.category_spec {F : Type} {db : Store F} {businessID id : Nat}
    {category : Category} (h : db.category businessID id = some category) :
    category ∈ db.categories ∧ category.DeletedAt = none ∧ category.ID = id ∧
      category.BusinessID = businessID := by
  unfold Store.category at h
  have hmem := List.mem_of_find?_eq_some h
  have hcond := List.find?_some h
  simp at hcond
  exact ⟨hmem, hcond.1, hcond.2.1, hcond.2.2⟩

theorem filter_map_of_fixed {α : Type} (keep : α → Bool) (f : α → α) (rows : List α)
    (hkeep : ∀ row, keep (f row) = keep row) (hfixed : ∀ row, keep row = true → f row = row) :
    (rows.map f).filter keep = rows.filter keep := by
  induction rows with
  | nil => rfl
  | cons row rest ih =>
    rw [List.map_cons, List.filter_cons, List.filter_cons, hkeep row, ih]
    by_cases hrow : keep row = true
    · rw [if_pos hrow, if_pos hrow, hfixed row hrow]
    · rw [if_neg hrow, if_neg hrow]

theorem deleteCategory_others (now : Nat) (category : Category) (rows : List Category) :
    (deleteCategory now category rows).filter (fun row => row.ID != category.ID)
      = rows.filter (fun row => row.ID != category.ID) := by
  unfold deleteCategory
  apply filter_map_of_fixed
  · intro row
    by_cases hrow : (row.DeletedAt.isNone && row.ID == category.ID) = true
    · rw [if_pos hrow]
    · rw [if_neg hrow]
  · intro row hkeep
    have hne : (row.ID == category.ID) = false := by
      simpa using hkeep
    simp [hne]

theorem deleteCategory_keys (now : Nat) (category : Category) (rows : List Category) :
    (deleteCategory now category rows).map Category.ID = rows.map Category.ID := by
  unfold deleteCategory
  rw [List.map_map]
  apply List.map_congr_left
  intro row _
  simp only [Function.comp]
  split_ifs <;> rfl

theorem deleteCategory_mem (now : Nat) (category : Category) (rows : List Category)
    (hmem : category ∈ rows) (hlive : category.DeletedAt = none) :
    { category with DeletedAt := some now } ∈ deleteCategory now category rows := by
  unfold deleteCategory
  rw [List.mem_map]
  exact ⟨category, hmem, by simp [hlive]⟩

theorem Store.category_deleteCategory {F : Type} (db : Store F) (businessID id now : Nat)
    (category : Category) (hid : category.ID = id) :
    Store.category { db with categories := deleteCategory now category db.categories }
      businessID id = none := by
  unfold Store.category deleteCategory
  rw [List.find?_eq_none]
  intro row hrow hcond
  simp only [List.mem_map] at hrow
  obtain ⟨old, _, hrow⟩ := hrow
  simp at hcond
  split_ifs at hrow with hsel
  · subst hrow
    simp at hcond
  · subst hrow
    apply hsel
    simp [hcond.1, hcond.2.1, hid]

/-- C13: `DeleteCategory` answers 404 when the business owns no live category with the key;
answers 403 and leaves the database as it was when a live product carries the key as its
category; when no product does and no statement fails it answers 200 and soft-deletes that
category and nothing else: the category is no longer found, its row is the row it was with
the deletion time set, the category rows with another key, the keys of the table and every
other table are as they were; and it changes the database only when no live product carries
the key. -/
theorem deleteCategory_guarded {F : Type} (c : Context) (id now : Nat) (flt : Faults)
    (db : Store F) (businessID : Nat) (hc : c.business_id = some businessID) :
    (db.category businessID id = none →
        DeleteCategory c (some id) now flt db
          = ({ status := 404, body := Body.error "Category not found" }, db)) ∧
      ((db.category businessID id).isSome → flt.load = false → flt.check = false →
        (∃ row ∈ db.products, row.DeletedAt = none ∧ row.CategoryID = id) →
        DeleteCategory c (some id) now flt db
          = ({ status := 403,
               body := Body.error "Cannot delete category with associated products" }, db)) ∧
      ((db.category businessID id).isSome → flt.load = false → flt.check = false →
        flt.write1 = false →
        (¬ ∃ row ∈ db.products, row.DeletedAt = none ∧ row.CategoryID = id) →
        (DeleteCategory c (some id) now flt db).1
            = { status := 200, body := Body.message "Category deleted successfully" } ∧
          (DeleteCategory c (some id) now flt db).2.category businessID id = none ∧
          (DeleteCategory c (some id) now flt db).2.products = db.products ∧
          (∀ category, db.category businessID id = some category →
            { category with DeletedAt := some now }
              ∈ (DeleteCategory c (some id) now flt db).2.categories) ∧
          (DeleteCategory c (some id) now flt db).2.categories.filter
              (fun row => row.ID != id)
            = db.categories.filter (fun row => row.ID != id) ∧
          (DeleteCategory c (some id) now flt db).2.categories.map Category.ID
            = db.categories.map Category.ID ∧
          (DeleteCategory c (some id) now flt db).2
            = { db with
                categories := (DeleteCategory c (some id) now flt db).2.categories }) ∧
      ((DeleteCategory c (some id) now flt db).2 ≠ db →
        ¬ ∃ row ∈ db.products, row.DeletedAt = none ∧ row.CategoryID = id) := by
  rw [DeleteCategory_eq c id now flt db businessID hc]
  have hcount := productCount_pos db id
  refine ⟨?_, ?_, ?_, ?_⟩
  · intro hnone
    cases flt.load <;> simp [hnone]
  · intro hsome hload hcheck hrefs
    obtain ⟨category, hcat⟩ := Option.isSome_iff_exists.mp hsome
    simp only [hcat, hload, hcheck, Bool.false_eq_true, if_false]
    rw [if_pos (hcount.mpr hrefs)]
  · intro hsome hload hcheck hwrite hrefs
    obtain ⟨category, hcat⟩ := Option.isSome_iff_exists.mp hsome
    have hzero : ¬ 0 < (db.products.filter (fun row =>
        row.DeletedAt.isNone && some row.CategoryID == some id)).length :=
      fun h => hrefs (hcount.mp h)
    simp only [hcat, hload, hcheck, hwrite, Bool.false_eq_true, if_false]
    rw [if_neg hzero]
    have hspec := Store.category_spec hcat
    refine ⟨rfl, Store.category_deleteCategory db businessID id now category hspec.2.2.1,
      rfl, ?_, ?_, deleteCategory_keys now category db.categories, rfl⟩
    · intro found hfound
      simp only [Option.some.injEq] at hfound
      subst hfound
      exact deleteCategory_mem now category db.categories hspec.1 hspec.2.1
    · rw [← hspec.2.2.1]
      exact deleteCategory_others now category db.categories
  · intro hchange hrefs
    apply hchange
    have hpos := hcount.mpr hrefs
    cases flt.load
    · cases db.category businessID id
      · rfl
      · cases flt.check
        · simp only [Bool.false_eq_true, if_false]
          rw [if_pos hpos]
        · rfl
    · rfl

/-- C13, witness: business 1 deletes its empty category "Snacks"; with "Chips" in it the
request is refused; the key 7 is not found. -/
theorem deleteCategory_guarded_witness :
    DeleteCategory acme (some 7) 50 noFaults scenarioAcme
        = ({ status := 404, body := Body.error "Category not found" }, scenarioAcme) ∧
      DeleteCategory acme (some 1) 50 noFaults scenarioA
        = ({ status := 403,
             body := Body.error "Cannot delete category with associated products" },
           scenarioA) ∧
      (DeleteCategory acme (some 1) 50 noFaults scenarioAcme).2.category 1 1 = none ∧
      ¬ (∃ row ∈ scenarioAcme.products, row.DeletedAt = none ∧ row.CategoryID = 1) ∧
      (DeleteCategory acme (some 1) 50 noFaults scenarioCategories).2.categories
        = [{ ID := 1, DeletedAt := some 50, BusinessID := 1, Name := "Snacks" },
           { ID := 2, DeletedAt := none, BusinessID := 2, Name := "Drinks" }] := by
  exact ⟨(deleteCategory_guarded acme 7 50 noFaults scenarioAcme 1 (by decide)).1 (by decide),
    (deleteCategory_guarded acme 1 50 noFaults scenarioA 1 (by decide)).2.1 (by decide)
      (by decide) (by decide) ⟨chipsRow, by decide⟩,
    ((deleteCategory_guarded acme 1 50 noFaults scenarioAcme 1 (by decide)).2.2.1 (by decide)
      (by decide) (by decide) (by decide) (by decide)).2.1,
    (deleteCategory_guarded acme 1 50 noFaults scenarioAcme 1 (by decide)).2.2.2 (by decide),
    by decide⟩

theorem deleteSales_removes {F : Type} (now businessID : Nat) (rows : List (Sale F)) :
    ∀ row ∈ deleteSales now businessID rows, row.BusinessID = businessID →
      row.DeletedAt ≠ none := by
  intro row hrow hb
  simp only [deleteSales, List.mem_map] at hrow
  obtain ⟨old, _, hrow⟩ := hrow
  split_ifs at hrow with hsel
  · subst hrow
    simp
  · subst hrow
    intro hlive
    apply hsel
    simp [hlive, hb]

theorem deleteSales_others {F : Type} (now businessID : Nat) (rows : List (Sale F)) :
    (deleteSales now businessID rows).filter (fun row => row.BusinessID != businessID)
      = rows.filter (fun row => row.BusinessID != businessID) := by
  unfold deleteSales
  apply filter_map_of_fixed
  · intro row
    split_ifs <;> rfl
  · intro row hrow
    have hb : row.BusinessID ≠ businessID := by simpa using hrow
    simp [hb]

/-- C14: `DeleteSaleRecords` succeeds exactly when its statement does not fail; after a
success every sale row of the business is deleted, the sale rows of the other businesses
are the ones before, in place, and the products, the stock entries and every other table
are unchanged. -/
theorem deleteSaleRecords_frame {F : Type} (c : Context) (now : Nat) (flt : Faults)
    (db : Store F) (businessID : Nat) (hc : c.business_id = some businessID) :
    ((DeleteSaleRecords c now flt db).1.status = 200 ↔ flt.write1 = false) ∧
      ((DeleteSaleRecords c now flt db).1.status = 200 →
        (∀ row ∈ (DeleteSaleRecords c now flt db).2.sales, row.BusinessID = businessID →
          row.DeletedAt ≠ none) ∧
        (DeleteSaleRecords c now flt db).2.sales.filter
            (fun row => row.BusinessID != businessID)
          = db.sales.filter (fun row => row.BusinessID != businessID) ∧
        (DeleteSaleRecords c now flt db).2.products = db.products ∧
        (DeleteSaleRecords c now flt db).2.stocks = db.stocks ∧
        (DeleteSaleRecords c now flt db).2.categories = db.categories ∧
        (DeleteSaleRecords c now flt db).2.users = db.users ∧
        (DeleteSaleRecords c now flt db).2.businesses = db.businesses) := by
  unfold DeleteSaleRecords
  simp only [hc]
  cases flt.write1
  · simp only [Bool.false_eq_true, if_false, true_iff, forall_const]
    exact ⟨trivial, deleteSales_removes now businessID db.sales,
      deleteSales_others now businessID db.sales, trivial, trivial, trivial, trivial, trivial⟩
  · simp

/-- C14, witness: in scenario B business 1 clears its sales history; "Chips" keeps its 40
units and the stock entry stays. -/
theorem deleteSaleRecords_frame_witness :
    (∀ row ∈ (DeleteSaleRecords acme 50 noFaults scenarioB).2.sales, row.BusinessID = 1 →
        row.DeletedAt ≠ none) ∧
      (DeleteSaleRecords acme 50 noFaults scenarioB).2.products = scenarioB.products ∧
      (DeleteSaleRecords acme 50 noFaults scenarioB).2.stocks = scenarioB.stocks ∧
      (DeleteSaleRecords rival 50 noFaults scenarioB).2.sales = scenarioB.sales := by
  have h := (deleteSaleRecords_frame acme 50 noFaults scenarioB 1 (by decide)).2 (by decide)
  exact ⟨h.1, h.2.2.1, h.2.2.2.1, by decide⟩

/-! ### The authentication gate and the tokens -/

/-- C15, failing input: the token `Login` issues to an admin without a business carries
`business_id` 0. The gate sets the key `business_id` to 0, and `CreateCategory` and
`CreateProduct` go on and write rows of business 0; only a token without the claim is
refused. -/
theorem business_zero_is_a_tenant :
    unassignedToken.claims.number "business_id" = some 0 ∧
      AuthMiddleware sampleEnv 1000 (Cookie.value unassignedToken)
        = GateResult.next unassignedContext ∧
      unassignedContext.business_id = some 0 ∧
      CreateCategory unassignedContext (some { Name := "Snacks" }) noFaults scenarioSignup
        = ({ status := 201,
             body := Body.category { ID := 1, DeletedAt := none, BusinessID := 0,
                                     Name := "Snacks" } },
           { scenarioSignup with
             categories := [{ ID := 1, DeletedAt := none, BusinessID := 0, Name := "Snacks" }] }) ∧
      (CreateProduct unassignedContext (some chips) 1000 noFaults scenarioSignup).1.status
        = 201 ∧
      ((CreateProduct unassignedContext (some chips) 1000 noFaults
          scenarioSignup).2.products.map Product.BusinessID) = [0] ∧
      AuthMiddleware sampleEnv 1000
          (Cookie.value (NewWithClaims [("user_id", JSONValue.number 1),
            ("exp", JSONValue.number 87400)]))
        = GateResult.next { user_id := some 1, exp := some 87400 } ∧
      (CreateCategory { user_id := some 1, exp := some 87400 } (some { Name := "Snacks" })
          noFaults scenarioSignup).1.status = 401 := by
  decide

/-- C16, failing input: a signup with role "employee" and `business_id` 0, and a signup
without a role and with `business_id` 0, are both answered with 201, and the users are
stored without a business, the second one with the role "user" of the column default; only
the role "user" sent as such is refused. -/
theorem createUser_without_business :
    (CreateUser sampleEnv
        (some { FirstName := "Eve", LastName := "Employee", Email := "eve@acme.test",
                Password := "pw", Role := "employee", BusinessID := 0 })
        1000 noFaults scenarioSignup).1.status = 201 ∧
      (CreateUser sampleEnv
        (some { FirstName := "Eve", LastName := "Employee", Email := "eve@acme.test",
                Password := "pw", Role := "employee", BusinessID := 0 })
        1000 noFaults scenarioSignup).2.users
        = [adminRow,
           { ID := 2, DeletedAt := none, FirstName := "Eve", LastName := "Employee",
             Email := "eve@acme.test", Password := "$2a$pw", Role := "employee",
             BusinessID := 0 }] ∧
      (CreateUser sampleEnv
        (some { FirstName := "Uma", LastName := "User", Email := "uma@acme.test",
                Password := "pw", Role := "", BusinessID := 0 })
        1000 noFaults scenarioSignup).1.status = 201 ∧
      (CreateUser sampleEnv
        (some { FirstName := "Uma", LastName := "User", Email := "uma@acme.test",
                Password := "pw", Role := "", BusinessID := 0 })
        1000 noFaults scenarioSignup).2.users
        = [adminRow,
           { ID := 2, DeletedAt := none, FirstName := "Uma", LastName := "User",
             Email := "uma@acme.test", Password := "$2a$pw", Role := "user",
             BusinessID := 0 }] ∧
      CreateUser sampleEnv
        (some { FirstName := "Uma", LastName := "User", Email := "uma@acme.test",
                Password := "pw", Role := "user", BusinessID := 0 })
        1000 noFaults scenarioSignup
        = ({ status := 400,
             body := Body.error "A user must be assigned to a business by an admin." },
           scenarioSignup) := by
  decide

/-- C17: the gate aborts with status 401 when the cookie is missing or empty, when the token
is malformed, when its method is not HMAC, when its expiry lies before the current time and
when it has no numeric `user_id`; and a token that `jwt.Parse` accepts, that has not expired
and that has a numeric `user_id` is passed on with the keys `user_id`, `business_id`,
`email`, `role` and `exp` equal to its claims. -/
theorem authMiddleware_gate (env : Env) (now : Nat) (tokenString : Token) :
    AuthMiddleware env now Cookie.missing
        = GateResult.abort 401 "Authentication token required" ∧
      AuthMiddleware env now Cookie.empty
        = GateResult.abort 401 "Authentication token required" ∧
      (tokenString.wellFormed = false →
        AuthMiddleware env now (Cookie.value tokenString)
          = GateResult.abort 401 "Invalid token") ∧
      (tokenString.hmac = false →
        AuthMiddleware env now (Cookie.value tokenString)
          = GateResult.abort 401 "Invalid token") ∧
      (∀ exp, tokenString.claims.number "exp" = some exp → exp < now →
        ∃ msg, AuthMiddleware env now (Cookie.value tokenString) = GateResult.abort 401 msg) ∧
      (tokenString.claims.number "user_id" = none →
        ∃ msg, AuthMiddleware env now (Cookie.value tokenString) = GateResult.abort 401 msg) ∧
      (tokenString.wellFormed = true → tokenString.hmac = true →
        tokenString.signatureValid = true → env.claimsValid tokenString.claims = true →
        (∀ exp, tokenString.claims.number "exp" = some exp → now ≤ exp) →
        ∀ userID, tokenString.claims.number "user_id" = some userID →
        AuthMiddleware env now (Cookie.value tokenString)
          = GateResult.next
              { user_id := some userID,
                business_id := tokenString.claims.number "business_id",
                email := tokenString.claims.string "email",
                role := tokenString.claims.string "role",
                exp := tokenString.claims.number "exp" }) := by
  refine ⟨rfl, rfl, ?_, ?_, ?_, ?_, ?_⟩
  · intro h
    simp [AuthMiddleware, jwtParse, h]
  · intro h
    cases hw : tokenString.wellFormed <;> simp [AuthMiddleware, jwtParse, keyFunc, h, hw]
  · intro exp hexp hlt
    cases hparse : jwtParse env tokenString with
    | error err => exact ⟨"Invalid token", by simp [AuthMiddleware, hparse]⟩
    | ok claims =>
      have hclaims : claims = tokenString.claims := by
        unfold jwtParse at hparse
        split_ifs at hparse
        simp only [Except.ok.injEq] at hparse
        exact hparse.symm
      subst hclaims
      exact ⟨"Token expired", by simp [AuthMiddleware, hparse, hexp, hlt]⟩
  · intro huser
    cases hparse : jwtParse env tokenString with
    | error err => exact ⟨"Invalid token", by simp [AuthMiddleware, hparse]⟩
    | ok claims =>
      have hclaims : claims = tokenString.claims := by
        unfold jwtParse at hparse
        split_ifs at hparse
        simp only [Except.ok.injEq] at hparse
        exact hparse.symm
      subst hclaims
      cases hexp : tokenString.claims.number "exp" with
      | none => exact ⟨"Invalid user context", by simp [AuthMiddleware, hparse, hexp, huser]⟩
      | some exp =>
        by_cases hlt : exp < now
        · exact ⟨"Token expired", by simp [AuthMiddleware, hparse, hexp, hlt]⟩
        · exact ⟨"Invalid user context", by simp [AuthMiddleware, hparse, hexp, hlt, huser]⟩
  · intro hw hh hs hv hexp userID huser
    have hparse : jwtParse env tokenString = Except.ok tokenString.claims := by
      simp [jwtParse, keyFunc, hw, hh, hs, hv]
    cases hnum : tokenString.claims.number "exp" with
    | none => simp [AuthMiddleware, hparse, hnum, huser]
    | some exp =>
      have hle := hexp exp hnum
      have hnot : ¬ exp < now := by omega
      simp [AuthMiddleware, hparse, hnum, hnot, huser]

/-- C17, witness: the forged-method token and the expired token of the admin are refused;
the token of the admin of "Acme" is passed on with its five claims. -/
theorem authMiddleware_gate_witness :
    AuthMiddleware sampleEnv 1000 (Cookie.value malformedToken)
        = GateResult.abort 401 "Invalid token" ∧
      AuthMiddleware sampleEnv 1000 (Cookie.value foreignMethodToken)
        = GateResult.abort 401 "Invalid token" ∧
      (∃ msg, AuthMiddleware sampleEnv 1000 (Cookie.value expiredToken)
        = GateResult.abort 401 msg) ∧
      (∃ msg, AuthMiddleware sampleEnv 1000
          (Cookie.value (NewWithClaims [("exp", JSONValue.number 87400)]))
        = GateResult.abort 401 msg) ∧
      AuthMiddleware sampleEnv 1000 (Cookie.value sessionToken)
        = GateResult.next
            { user_id := some 1, business_id := some 1, email := some "ada@acme.test",
              role := some "admin", exp := some 87400 } :=
  ⟨(authMiddleware_gate sampleEnv 1000 malformedToken).2.2.1 (by decide),
    (authMiddleware_gate sampleEnv 1000 foreignMethodToken).2.2.2.1 (by decide),
    (authMiddleware_gate sampleEnv 1000 expiredToken).2.2.2.2.1 500 (by decide) (by decide),
    (authMiddleware_gate sampleEnv 1000
      (NewWithClaims [("exp", JSONValue.number 87400)])).2.2.2.2.2.1 (by decide),
    (authMiddleware_gate sampleEnv 1000 sessionToken).2.2.2.2.2.2 (by decide) (by decide)
      (by decide) (by decide) (by decide) 1 (by decide)⟩

/-- C18 (amended): a token that is malformed, or names a method that is not HMAC, or has a
signature that does not verify, or whose registered claims the parser rejects, is answered
by the gate with one and the same outcome, 401 "Invalid token". -/
theorem rejected_tokens_share_outcome (env : Env) (now : Nat) (tokenString : Token)
    (hrejected : tokenString.wellFormed = false ∨ tokenString.hmac = false ∨
      tokenString.signatureValid = false ∨ env.claimsValid tokenString.claims = false) :
    AuthMiddleware env now (Cookie.value tokenString)
      = GateResult.abort 401 "Invalid token" := by
  have hparse : ∃ err, jwtParse env tokenString = Except.error err := by
    unfold jwtParse keyFunc
    cases hw : tokenString.wellFormed <;> cases hh : tokenString.hmac <;>
      cases hs : tokenString.signatureValid <;>
      cases hv : env.claimsValid tokenString.claims <;>
      simp [hw, hh, hs, hv] at hrejected ⊢
  obtain ⟨err, herr⟩ := hparse
  simp [AuthMiddleware, herr]

/-- C18, witness: the token signed with another secret. -/
theorem rejected_tokens_share_outcome_witness :
    AuthMiddleware sampleEnv 1000 (Cookie.value forgedToken)
      = GateResult.abort 401 "Invalid token" :=
  rejected_tokens_share_outcome sampleEnv 1000 forgedToken (by decide)

/-- C18, counterexample: at time 1000 the malformed token, the token of a foreign method,
the expired token and the forged token are four different rejection causes of the parser,
and the gate answers all four with the same outcome. -/
theorem rejection_causes_not_distinguished :
    jwtParse (expiryEnv 1000) malformedToken = Except.error ParseError.malformed ∧
      jwtParse (expiryEnv 1000) foreignMethodToken = Except.error ParseError.unverifiable ∧
      jwtParse (expiryEnv 1000) expiredToken = Except.error ParseError.invalidClaims ∧
      jwtParse (expiryEnv 1000) forgedToken = Except.error ParseError.signatureInvalid ∧
      AuthMiddleware (expiryEnv 1000) 1000 (Cookie.value malformedToken)
        = GateResult.abort 401 "Invalid token" ∧
      AuthMiddleware (expiryEnv 1000) 1000 (Cookie.value foreignMethodToken)
        = GateResult.abort 401 "Invalid token" ∧
      AuthMiddleware (expiryEnv 1000) 1000 (Cookie.value expiredToken)
        = GateResult.abort 401 "Invalid token" ∧
      AuthMiddleware (expiryEnv 1000) 1000 (Cookie.value forgedToken)
        = GateResult.abort 401 "Invalid token" :=
  ⟨rfl, rfl, rfl, rfl, by decide, by decide, by decide, by decide⟩

theorem createBusiness_some {fault : Bool} {rows : List Business} {business created : Business}
    {next : List Business} (h : createBusiness fault rows business = some (created, next)) :
    fault = false ∧ (∀ row ∈ rows, row.BusinessName ≠ business.BusinessName) ∧
      created = { business with ID := nextID (rows.map Business.ID) } ∧
      next = rows ++ [created] := by
  unfold createBusiness at h
  split_ifs at h with hfail
  simp only [Option.some.injEq, Prod.mk.injEq] at h
  obtain ⟨h1, h2⟩ := h
  subst h1
  subst h2
  simp only [Bool.or_eq_true, List.any_eq_true, beq_iff_eq, not_or, not_exists, not_and,
    Bool.not_eq_true] at hfail
  exact ⟨hfail.1, fun row hrow => hfail.2 row hrow, rfl, rfl⟩

/-- What a `CreateBusiness` that answers 201 has done. -/
theorem CreateBusiness_ok {F : Type} (env : Env) (c : Context) (body : Option BusinessInput)
    (now : Nat) (flt : Faults) (db : Store F)
    (hok : (CreateBusiness env c body now flt db).1.status = 201) :
    ∃ (userID : Nat) (input : BusinessInput) (hashed : String) (user : User),
      c.user_id = some userID ∧ bindBusinessInput body = some input ∧
      env.GenerateFromPassword input.Password = some hashed ∧
      (∀ row ∈ db.businesses, row.BusinessName ≠ input.BusinessName) ∧
      db.user userID = some user ∧
      CreateBusiness env c body now flt db =
        ({ status := 201,
           body := Body.businessCreated "Business created successfully"
             (nextID (db.businesses.map Business.ID)) input.BusinessName,
           cookie := some (NewWithClaims
             [("user_id", JSONValue.number user.ID),
              ("business_id", JSONValue.number (nextID (db.businesses.map Business.ID))),
              ("email", JSONValue.string user.Email), ("role", JSONValue.string user.Role),
              ("exp", JSONValue.number (expirationTime now))]) },
         { db with
           businesses := db.businesses ++
             [{ ID := nextID (db.businesses.map Business.ID), DeletedAt := none,
                BusinessName := input.BusinessName, Password := hashed }]
           users := saveUser { user with BusinessID := nextID (db.businesses.map Business.ID) }
             db.users }) := by
  generalize hr : CreateBusiness env c body now flt db = r at hok
  unfold CreateBusiness at hr
  split at hr
  · subst hr; simp at hok
  · rename_i userID huser
    split at hr
    · subst hr; simp at hok
    · rename_i input hbind
      split at hr
      · subst hr; simp at hok
      · split at hr
        · subst hr; simp at hok
        · rename_i hashed hhash
          split at hr
          · subst hr; simp at hok
          · rename_i business businesses hcreate
            obtain ⟨_, hfree, hbusiness, hnext⟩ := createBusiness_some hcreate
            simp only at hr
            split at hr
            · subst hr; simp at hok
            · subst hr; simp at hok
            · rename_i user hfirst
              split_ifs at hr with hw2
              · subst hr; simp at hok
              · split at hr
                · subst hr; simp at hok
                · rename_i tokenString hsign
                  have htoken : SignedString env (NewWithClaims
                      [("user_id", JSONValue.number user.ID),
                       ("business_id", JSONValue.number business.ID),
                       ("email", JSONValue.string user.Email),
                       ("role", JSONValue.string user.Role),
                       ("exp", JSONValue.number (expirationTime now))]) = some tokenString :=
                    hsign
                  unfold SignedString at htoken
                  split_ifs at htoken
                  simp only [Option.some.injEq] at htoken
                  subst htoken
                  subst hbusiness
                  subst hnext
                  refine ⟨userID, input, hashed, user, huser, hbind, hhash, hfree,
                    (First_found hfirst).2, hr.symm⟩

theorem createUser_some {fault : Bool} {rows : List User} {user created : User}
    {next : List User} (h : createUser fault rows user = some (created, next)) :
    fault = false ∧ (∀ row ∈ rows, row.Email ≠ user.Email) ∧
      created = { user with
        ID := if user.ID == 0 then nextID (rows.map User.ID) else user.ID
        Role := if user.Role == "" then "user" else user.Role } ∧
      next = rows ++ [created] ∧ (∀ row ∈ rows, row.ID ≠ created.ID) := by
  unfold createUser at h
  by_cases hfail : (fault || (rows.any (fun row => row.Email == user.Email) ||
      (user.ID != 0 && rows.any (fun row => row.ID == user.ID)))) = true
  · rw [if_pos hfail] at h
    cases h
  · rw [if_neg hfail] at h
    simp only [Option.some.injEq, Prod.mk.injEq] at h
    obtain ⟨h1, h2⟩ := h
    subst h1
    subst h2
    simp only [Bool.or_eq_true, Bool.and_eq_true, List.any_eq_true, beq_iff_eq, bne_iff_ne,
      not_or, not_and, not_exists, Bool.not_eq_true] at hfail
    refine ⟨hfail.1, fun row hrow => hfail.2.1 row hrow, rfl, rfl, ?_⟩
    intro row hrow
    by_cases hzero : user.ID = 0
    · have := lt_nextID (rows.map User.ID) row.ID (List.mem_map_of_mem User.ID hrow)
      simp only [hzero, beq_self_eq_true, if_true]
      omega
    · have hne := hfail.2.2 hzero row hrow
      simp only [beq_iff_eq, hzero, if_false]
      exact hne

theorem SignedString_some {env : Env} {token tokenString : Token}
    (h : SignedString env token = some tokenString) :
    env.signError = false ∧ tokenString = token := by
  unfold SignedString at h
  split_ifs at h with hsign
  simp only [Option.some.injEq] at h
  exact ⟨by simpa using hsign, h.symm⟩

/-- What a `CreateUser` that answers 201 has done. -/
theorem CreateUser_ok {F : Type} (env : Env) (body : Option UserInput) (now : Nat)
    (flt : Faults) (db : Store F)
    (hok : (CreateUser env body now flt db).1.status = 201) :
    ∃ (input : UserInput) (user : User),
      bindUserInput body = some input ∧ user.DeletedAt = input.DeletedAt ∧
      (∀ row ∈ db.users, row.ID ≠ user.ID) ∧
      CreateUser env body now flt db =
        ({ status := 201, body := Body.userCreated "User created successfully" user,
           cookie := some (NewWithClaims
             [("user_id", JSONValue.number user.ID), ("email", JSONValue.string user.Email),
              ("role", JSONValue.string user.Role),
              ("business_id", JSONValue.number user.BusinessID),
              ("exp", JSONValue.number (expirationTime now))]) },
         { db with users := db.users ++ [user] }) := by
  generalize hr : CreateUser env body now flt db = r at hok
  unfold CreateUser at hr
  split at hr
  · subst hr; simp at hok
  · rename_i input hbind
    split at hr
    · subst hr; simp at hok
    · split at hr
      · subst hr; simp at hok
      · rename_i hashed hhash
        simp only at hr
        split_ifs at hr with hrole
        · subst hr; simp at hok
        · split at hr
          · subst hr; simp at hok
          · rename_i user users hcreate
            obtain ⟨_, _, huser, hnext, hfresh⟩ := createUser_some hcreate
            split at hr
            · subst hr; simp at hok
            · rename_i tokenString hsign
              obtain ⟨_, htoken⟩ := SignedString_some hsign
              subst htoken
              subst hnext
              refine ⟨input, user, hbind, ?_, hfresh, hr.symm⟩
              rw [huser]
              simp only [UserInput.toUser, adminWithoutBusiness]
              split_ifs <;> rfl

/-- What a `Login` that answers 200 has done. -/
theorem Login_ok {F : Type} (env : Env) (body : Option Credentials) (now : Nat)
    (flt : Faults) (db : Store F)
    (hok : (Login env body now flt db).1.status = 200) :
    ∃ (creds : Credentials) (user : User),
      body = some creds ∧ user ∈ db.users ∧ user.DeletedAt = none ∧
      user.Email = creds.Email ∧
      env.CompareHashAndPassword user.Password creds.Password = true ∧
      Login env body now flt db =
        ({ status := 200, body := Body.loggedIn "Login successful" user.ID,
           cookie := some (NewWithClaims
             [("user_id", JSONValue.number user.ID), ("email", JSONValue.string user.Email),
              ("role", JSONValue.string user.Role),
              ("business_id", JSONValue.number user.BusinessID),
              ("exp", JSONValue.number (expirationTime now))]) }, db) := by
  generalize hr : Login env body now flt db = r at hok
  unfold Login at hr
  split at hr
  · subst hr; simp at hok
  · rename_i creds
    split at hr
    · subst hr; simp at hok
    · subst hr; simp at hok
    · rename_i user hfirst
      have hfind := (First_found hfirst).2
      have hcond := List.find?_some hfind
      simp only [Bool.and_eq_true, beq_iff_eq, Option.isNone_iff_eq_none] at hcond
      split_ifs at hr with hpw
      · subst hr; simp at hok
      · simp only at hr
        split at hr
        · subst hr; simp at hok
        · rename_i tokenString hsign
          obtain ⟨_, htoken⟩ := SignedString_some hsign
          subst htoken
          refine ⟨creds, user, rfl, List.mem_of_find?_eq_some hfind, hcond.1, hcond.2, ?_,
            hr.symm⟩
          simpa using hpw

theorem preloadBusiness_some {F : Type} {db : Store F} {user : User} {business : Business}
    (h : preloadBusiness db user = some business) :
    business ∈ db.businesses ∧ business.DeletedAt = none ∧ business.ID = user.BusinessID ∧
      user.BusinessID ≠ 0 := by
  unfold preloadBusiness at h
  split_ifs at h with hzero
  have hcond := List.find?_some h
  simp only [Bool.and_eq_true, beq_iff_eq, Option.isNone_iff_eq_none] at hcond
  exact ⟨List.mem_of_find?_eq_some h, hcond.1, hcond.2, by simpa using hzero⟩

/-- What a `LoginBusiness` that answers 200 has done. -/
theorem LoginBusiness_ok {F : Type} (env : Env) (c : Context) (body : Option BusinessInput)
    (now : Nat) (flt : Faults) (db : Store F)
    (hok : (LoginBusiness env c body now flt db).1.status = 200) :
    ∃ (userID : Nat) (input : BusinessInput) (user : User) (business : Business),
      c.user_id = some userID ∧ bindBusinessInput body = some input ∧
      db.user userID = some user ∧ preloadBusiness db user = some business ∧
      business.BusinessName = input.BusinessName ∧
      env.CompareHashAndPassword business.Password input.Password = true ∧
      LoginBusiness env c body now flt db =
        ({ status := 200,
           body := Body.businessLoggedIn business.ID business.BusinessName
             (expirationTime now),
           cookie := some (NewWithClaims
             [("user_id", JSONValue.number user.ID),
              ("business_id", JSONValue.number business.ID),
              ("business_name", JSONValue.string business.BusinessName),
              ("role", JSONValue.string user.Role),
              ("exp", JSONValue.number (expirationTime now))]) }, db) := by
  generalize hr : LoginBusiness env c body now flt db = r at hok
  unfold LoginBusiness at hr
  split at hr
  · subst hr; simp at hok
  · rename_i userID huser
    split at hr
    · subst hr; simp at hok
    · rename_i input hbind
      split at hr
      · subst hr; simp at hok
      · subst hr; simp at hok
      · rename_i user hfirst
        split_ifs at hr with hpre
        · subst hr; simp at hok
        · split at hr
          · subst hr; simp at hok
          · rename_i business hbusiness
            split_ifs at hr with hname hpw
            · subst hr; simp at hok
            · subst hr; simp at hok
            · simp only at hr
              split at hr
              · subst hr; simp at hok
              · rename_i tokenString hsign
                obtain ⟨_, htoken⟩ := SignedString_some hsign
                subst htoken
                refine ⟨userID, input, user, business, huser, hbind, (First_found hfirst).2,
                  hbusiness, by simpa using hname, by simpa using hpw, hr.symm⟩

theorem Store.user_spec {F : Type} {db : Store F} {id : Nat} {user : User}
    (h : db.user id = some user) :
    user ∈ db.users ∧ user.DeletedAt = none ∧ user.ID = id := by
  unfold Store.user at h
  have hcond := List.find?_some h
  simp only [Bool.and_eq_true, beq_iff_eq, Option.isNone_iff_eq_none] at hcond
  exact ⟨List.mem_of_find?_eq_some h, hcond.1, hcond.2⟩

theorem Store.user_saveUser {F : Type} (db next : Store F) (id : Nat) (user saved : User)
    (huser : db.user id = some user)
    (hsaved : saved.DeletedAt = none ∧ saved.ID = user.ID)
    (hnext : next.users = saveUser saved db.users) : next.user id = some saved := by
  have hspec := Store.user_spec huser
  unfold Store.user at huser ⊢
  rw [hnext]
  unfold saveUser
  apply find?_map_replace db.users _ (fun row => row.DeletedAt.isNone && row.ID == saved.ID)
    user saved huser
  · intro row hrow
    simp only [Bool.and_eq_true, beq_iff_eq, Option.isNone_iff_eq_none] at hrow
    simp [hrow.1, hrow.2, hsaved.2, hspec.2.2]
  · simp [hsaved.1, hsaved.2, hspec.2.2]

/-- C19 (amended): the token `CreateUser`, `Login` and `CreateBusiness` issue carries
`user_id`, `business_id`, `email`, `role` and `exp`, equal to the key, the business, the
email and the role of the user record it is issued for and to the time 24 hours after the
request; the token `LoginBusiness` issues carries `user_id`, `business_id`, `role`, `exp` and
`business_name`, and no `email`. -/
theorem issued_token_claims {F : Type} (env : Env) (c : Context) (now : Nat) (flt : Faults)
    (db : Store F) :
    (∀ body, (CreateUser env body now flt db).1.status = 201 →
        ∃ (user : User) (tokenString : Token),
          (CreateUser env body now flt db).2.users = db.users ++ [user] ∧
          (CreateUser env body now flt db).1.cookie = some tokenString ∧
          tokenString.claims.number "user_id" = some user.ID ∧
          tokenString.claims.number "business_id" = some user.BusinessID ∧
          tokenString.claims.string "email" = some user.Email ∧
          tokenString.claims.string "role" = some user.Role ∧
          tokenString.claims.number "exp" = some (now + 86400)) ∧
      (∀ body, (Login env body now flt db).1.status = 200 →
        ∃ (creds : Credentials) (user : User) (tokenString : Token),
          body = some creds ∧ user ∈ db.users ∧ user.DeletedAt = none ∧
          user.Email = creds.Email ∧
          (Login env body now flt db).1.cookie = some tokenString ∧
          tokenString.claims.number "user_id" = some user.ID ∧
          tokenString.claims.number "business_id" = some user.BusinessID ∧
          tokenString.claims.string "email" = some user.Email ∧
          tokenString.claims.string "role" = some user.Role ∧
          tokenString.claims.number "exp" = some (now + 86400)) ∧
      (∀ body, (CreateBusiness env c body now flt db).1.status = 201 →
        ∃ (user : User) (tokenString : Token),
          c.user_id = some user.ID ∧
          (CreateBusiness env c body now flt db).2.user user.ID = some user ∧
          (CreateBusiness env c body now flt db).1.cookie = some tokenString ∧
          tokenString.claims.number "user_id" = some user.ID ∧
          tokenString.claims.number "business_id" = some user.BusinessID ∧
          tokenString.claims.string "email" = some user.Email ∧
          tokenString.claims.string "role" = some user.Role ∧
          tokenString.claims.number "exp" = some (now + 86400)) ∧
      (∀ body, (LoginBusiness env c body now flt db).1.status = 200 →
        ∃ (user : User) (business : Business) (tokenString : Token),
          c.user_id = some user.ID ∧ db.user user.ID = some user ∧
          business ∈ db.businesses ∧ business.ID = user.BusinessID ∧
          (LoginBusiness env c body now flt db).1.cookie = some tokenString ∧
          tokenString.claims.number "user_id" = some user.ID ∧
          tokenString.claims.number "business_id" = some user.BusinessID ∧
          tokenString.claims.string "role" = some user.Role ∧
          tokenString.claims.number "exp" = some (now + 86400) ∧
          tokenString.claims.string "business_name" = some business.BusinessName ∧
          tokenString.claims.get "email" = none) := by
  refine ⟨?_, ?_, ?_, ?_⟩
  · intro body hok
    obtain ⟨input, user, _, _, _, hrun⟩ := CreateUser_ok env body now flt db hok
    rw [hrun]
    exact ⟨user, _, rfl, rfl, rfl, rfl, rfl, rfl, rfl⟩
  · intro body hok
    obtain ⟨creds, user, hbody, hmem, hlive, hemail, _, hrun⟩ := Login_ok env body now flt db hok
    rw [hrun]
    exact ⟨creds, user, _, hbody, hmem, hlive, hemail, rfl, rfl, rfl, rfl, rfl, rfl⟩
  · intro body hok
    obtain ⟨userID, input, hashed, user, hc, _, _, _, huser, hrun⟩ :=
      CreateBusiness_ok env c body now flt db hok
    have hspec := Store.user_spec huser
    have hid := hspec.2.2
    subst hid
    rw [hrun]
    exact ⟨{ user with BusinessID := nextID (db.businesses.map Business.ID) }, _, hc,
      Store.user_saveUser db _ user.ID user _ huser ⟨hspec.2.1, rfl⟩ rfl,
      rfl, rfl, rfl, rfl, rfl, rfl⟩
  · intro body hok
    obtain ⟨userID, input, user, business, hc, _, huser, hbusiness, _, _, hrun⟩ :=
      LoginBusiness_ok env c body now flt db hok
    have hid := (Store.user_spec huser).2.2
    subst hid
    have hpre := preloadBusiness_some hbusiness
    rw [hrun]
    refine ⟨user, business, _, hc, huser, hpre.1, hpre.2.2.1, rfl, rfl, ?_, rfl, rfl, rfl,
      rfl⟩
    rw [← hpre.2.2.1]
    rfl

/-- C19, witness: the tokens issued to the admin by `Login` and by `CreateBusiness`, to a
new user by `CreateUser`, and to the admin of "Acme" by `LoginBusiness`, at time 1000. -/
theorem issued_token_claims_witness :
    (∃ tokenString : Token,
        (CreateUser sampleEnv
          (some { FirstName := "Eve", LastName := "Employee", Email := "eve@acme.test",
                  Password := "pw", Role := "user", BusinessID := 1 })
          1000 noFaults scenarioAcme).1.cookie = some tokenString ∧
        tokenString.claims.number "exp" = some 87400) ∧
      (∃ tokenString : Token,
        (Login sampleEnv (some { Email := "ada@acme.test", Password := "secret" }) 1000
          noFaults scenarioSignup).1.cookie = some tokenString ∧
        tokenString.claims.number "exp" = some 87400) ∧
      (∃ tokenString : Token,
        (CreateBusiness sampleEnv acme (some { BusinessName := "Acme", Password := "p1" })
          1000 noFaults scenarioSignup).1.cookie = some tokenString ∧
        tokenString.claims.number "exp" = some 87400) ∧
      (∃ tokenString : Token,
        (LoginBusiness sampleEnv acme (some { BusinessName := "Acme", Password := "p1" })
          1000 noFaults scenarioAcme).1.cookie = some tokenString ∧
        tokenString.claims.get "email" = none) := by
  have h1 := (issued_token_claims sampleEnv acme 1000 noFaults scenarioAcme).1
    (some { FirstName := "Eve", LastName := "Employee", Email := "eve@acme.test",
            Password := "pw", Role := "user", BusinessID := 1 }) (by decide)
  have h2 := (issued_token_claims sampleEnv acme 1000 noFaults scenarioSignup).2.1
    (some { Email := "ada@acme.test", Password := "secret" }) (by decide)
  have h3 := (issued_token_claims sampleEnv acme 1000 noFaults scenarioSignup).2.2.1
    (some { BusinessName := "Acme", Password := "p1" }) (by decide)
  have h4 := (issued_token_claims sampleEnv acme 1000 noFaults scenarioAcme).2.2.2
    (some { BusinessName := "Acme", Password := "p1" }) (by decide)
  obtain ⟨_, t1, _, hc1, _, _, _, _, he1⟩ := h1
  obtain ⟨_, _, t2, _, _, _, _, hc2, _, _, _, _, he2⟩ := h2
  obtain ⟨_, t3, _, _, hc3, _, _, _, _, he3⟩ := h3
  obtain ⟨_, _, t4, _, _, _, _, hc4, _, _, _, _, _, he4⟩ := h4
  exact ⟨⟨t1, hc1, he1⟩, ⟨t2, hc2, he2⟩, ⟨t3, hc3, he3⟩, ⟨t4, hc4, he4⟩⟩

/-- C19, counterexample: the admin of "Acme" logs into the business. The request succeeds,
and the token it issues has no `email` claim, although the user record has an email. -/
theorem loginBusiness_token_without_email :
    scenarioAcme.user 1 = some { adminRow with BusinessID := 1 } ∧
      adminRow.Email = "ada@acme.test" ∧
      (LoginBusiness sampleEnv acme (some { BusinessName := "Acme", Password := "p1" }) 1000
        noFaults scenarioAcme).1.status = 200 ∧
      (LoginBusiness sampleEnv acme (some { BusinessName := "Acme", Password := "p1" }) 1000
        noFaults scenarioAcme).1.cookie.map (fun tokenString => tokenString.claims.get "email")
        = some none := by
  decide

theorem bindBusinessInput_valid (input : BusinessInput) (hname : input.BusinessName ≠ "")
    (hpw : input.Password ≠ "") : bindBusinessInput (some input) = some input := by
  simp [bindBusinessInput, hname, hpw]

/-- C20: `CreateBusiness` leaves the database as it was when a live business carries
exactly the requested name, and answers 409 (when the lookup does not fail); it answers 409
only then; a request answered with 201 has added one business row with that name, which no
row carried, has set the `BusinessID` of the user to its key, and has issued a token whose
`business_id` is that key; and the request is answered with 201 when no row carries the
name, the user exists and nothing fails. -/
theorem createBusiness_links_user {F : Type} (env : Env) (c : Context) (now : Nat)
    (flt : Faults) (db : Store F) (userID : Nat) (input : BusinessInput)
    (hc : c.user_id = some userID) (hname : input.BusinessName ≠ "")
    (hpw : input.Password ≠ "") :
    ((∃ row ∈ db.businesses, row.DeletedAt = none ∧ row.BusinessName = input.BusinessName) →
        (CreateBusiness env c (some input) now flt db).2 = db ∧
        (flt.check = false →
          (CreateBusiness env c (some input) now flt db).1
            = { status := 409, body := Body.error "Business name already exists" })) ∧
      ((CreateBusiness env c (some input) now flt db).1.status = 409 →
        ∃ row ∈ db.businesses, row.DeletedAt = none ∧
          row.BusinessName = input.BusinessName) ∧
      ((CreateBusiness env c (some input) now flt db).1.status = 201 →
        ∃ (business : Business) (user : User) (tokenString : Token),
          (CreateBusiness env c (some input) now flt db).2.businesses
            = db.businesses ++ [business] ∧
          business.BusinessName = input.BusinessName ∧ business.DeletedAt = none ∧
          (∀ row ∈ db.businesses,
            row.BusinessName ≠ input.BusinessName ∧ row.ID ≠ business.ID) ∧
          (CreateBusiness env c (some input) now flt db).2.user userID = some user ∧
          user.BusinessID = business.ID ∧
          (CreateBusiness env c (some input) now flt db).1.cookie = some tokenString ∧
          tokenString.claims.number "business_id" = some business.ID ∧
          (CreateBusiness env c (some input) now flt db).2.products = db.products ∧
          (CreateBusiness env c (some input) now flt db).2.stocks = db.stocks ∧
          (CreateBusiness env c (some input) now flt db).2.sales = db.sales ∧
          (CreateBusiness env c (some input) now flt db).2.categories = db.categories) ∧
      ((∀ row ∈ db.businesses, row.BusinessName ≠ input.BusinessName) →
        (db.user userID).isSome → (env.GenerateFromPassword input.Password).isSome →
        flt.write1 = false → flt.load = false → flt.write2 = false → env.signError = false →
        (CreateBusiness env c (some input) now flt db).1.status = 201) := by
  have hbind := bindBusinessInput_valid input hname hpw
  refine ⟨?_, ?_, ?_, ?_⟩
  · rintro ⟨row, hmem, hlive, hrow⟩
    have hany : db.businesses.any (fun r => r.BusinessName == input.BusinessName) = true := by
      rw [List.any_eq_true]
      exact ⟨row, hmem, by simp [hrow]⟩
    have hfind : ∃ found, List.find? (fun r : Business =>
        r.DeletedAt.isNone && r.BusinessName == input.BusinessName) db.businesses
          = some found := by
      cases hf : List.find? (fun r : Business =>
        r.DeletedAt.isNone && r.BusinessName == input.BusinessName) db.businesses with
      | some found => exact ⟨found, rfl⟩
      | none =>
        rw [List.find?_eq_none] at hf
        exact absurd (by simp [hlive, hrow]) (hf row hmem)
    obtain ⟨found, hfound⟩ := hfind
    constructor
    · unfold CreateBusiness
      simp only [hc, hbind]
      cases hcheck : flt.check
      · simp [First, hfound]
      · cases hhash : env.GenerateFromPassword input.Password with
        | none => simp [First, hhash]
        | some hashed => simp [First, hhash, createBusiness, hany]
    · intro hcheck
      unfold CreateBusiness
      simp [hc, hbind, First, hcheck, hfound]
  · intro hstatus
    generalize hr : CreateBusiness env c (some input) now flt db = r at hstatus
    unfold CreateBusiness at hr
    simp only [hc, hbind] at hr
    split at hr
    · rename_i found hfirst
      have hfind := (First_found hfirst).2
      have hcond := List.find?_some hfind
      simp only [Bool.and_eq_true, beq_iff_eq, Option.isNone_iff_eq_none] at hcond
      exact ⟨found, List.mem_of_find?_eq_some hfind, hcond.1, hcond.2⟩
    · split at hr
      · subst hr; simp at hstatus
      · split at hr
        · subst hr; simp at hstatus
        · split at hr
          · subst hr; simp at hstatus
          · subst hr; simp at hstatus
          · split_ifs at hr
            · subst hr; simp at hstatus
            · split at hr <;> (subst hr; simp at hstatus)
  · intro hok
    obtain ⟨uid, input', hashed, user, hc', hbind', _, hfree, huser, hrun⟩ :=
      CreateBusiness_ok env c (some input) now flt db hok
    rw [hc] at hc'
    simp only [Option.some.injEq] at hc'
    subst hc'
    rw [hbind] at hbind'
    simp only [Option.some.injEq] at hbind'
    subst hbind'
    have hspec := Store.user_spec huser
    rw [hrun]
    refine ⟨_, { user with BusinessID := nextID (db.businesses.map Business.ID) }, _, rfl,
      rfl, rfl, ?_, ?_, rfl, rfl, rfl, rfl, rfl, rfl, rfl⟩
    · intro row hrow
      refine ⟨hfree row hrow, ?_⟩
      have := lt_nextID (db.businesses.map Business.ID) row.ID
        (List.mem_map_of_mem Business.ID hrow)
      simp only
      omega
    · exact Store.user_saveUser db _ userID user _ huser ⟨hspec.2.1, rfl⟩ rfl
  · intro hfree huser hhash hw1 hload hw2 hsign
    obtain ⟨user, huser⟩ := Option.isSome_iff_exists.mp huser
    obtain ⟨hashed, hhash⟩ := Option.isSome_iff_exists.mp hhash
    have hany : db.businesses.any (fun r => r.BusinessName == input.BusinessName) = false := by
      rw [List.any_eq_false]
      intro row hrow
      simp [hfree row hrow]
    have hfind : List.find? (fun r : Business =>
        r.DeletedAt.isNone && r.BusinessName == input.BusinessName) db.businesses = none := by
      rw [List.find?_eq_none]
      intro row hrow
      simp [hfree row hrow]
    have hfindUser : List.find? (fun row : User => row.DeletedAt.isNone && row.ID == userID)
        db.users = some user := huser
    unfold CreateBusiness
    cases hcheck : flt.check <;>
      simp [hc, hbind, First, hcheck, hfind, hhash, createBusiness, hw1, hany, hload,
        hfindUser, hw2, SignedString, hsign]

/-- C20, witness: the admin creates "Acme" and is linked to it; a second "Acme" is refused
and changes nothing, while "acme" is not a conflict. -/
theorem createBusiness_links_user_witness :
    CreateBusiness sampleEnv acme (some { BusinessName := "Acme", Password := "p2" }) 1000
        noFaults scenarioAcme
        = ({ status := 409, body := Body.error "Business name already exists" },
           scenarioAcme) ∧
      (CreateBusiness sampleEnv acme (some { BusinessName := "acme", Password := "p2" }) 1000
        noFaults scenarioAcme).1.status = 201 ∧
      ∃ (business : Business) (user : User) (tokenString : Token),
        (CreateBusiness sampleEnv acme (some { BusinessName := "Acme", Password := "p1" }) 1000
          noFaults scenarioSignup).2.businesses = [business] ∧
        business.BusinessName = "Acme" ∧
        (CreateBusiness sampleEnv acme (some { BusinessName := "Acme", Password := "p1" }) 1000
          noFaults scenarioSignup).2.user 1 = some user ∧
        user.BusinessID = business.ID ∧
        (CreateBusiness sampleEnv acme (some { BusinessName := "Acme", Password := "p1" }) 1000
          noFaults scenarioSignup).1.cookie = some tokenString ∧
        tokenString.claims.number "business_id" = some business.ID := by
  have hconflict := (createBusiness_links_user sampleEnv acme 1000 noFaults scenarioAcme 1
    { BusinessName := "Acme", Password := "p2" } (by decide) (by decide) (by decide)).1
    ⟨acmeRow, by decide⟩
  have hother := (createBusiness_links_user sampleEnv acme 1000 noFaults scenarioAcme 1
    { BusinessName := "acme", Password := "p2" } (by decide) (by decide) (by decide)).2.2.2
    (by decide) (by decide) (by decide) (by decide) (by decide) (by decide) (by decide)
  have hnew := createBusiness_links_user sampleEnv acme 1000 noFaults scenarioSignup 1
    { BusinessName := "Acme", Password := "p1" } (by decide) (by decide) (by decide)
  obtain ⟨business, user, tokenString, hb, hn, _, _, hu, hl, hck, hclaim, _⟩ :=
    hnew.2.2.1 (hnew.2.2.2 (by decide) (by decide) (by decide) (by decide) (by decide)
      (by decide) (by decide))
  exact ⟨Prod.ext (hconflict.2 (by decide)) hconflict.1, hother,
    business, user, tokenString, hb, hn, hu, hl, hck, hclaim⟩

end StockBack

namespace StockBack

/-! ### Business login, assignment and passwords -/

/-- `LoginBusiness` for a body that binds and a caller whose row the select returns. -/
theorem LoginBusiness_eq {F : Type} (env : Env) (c : Context) (input : BusinessInput)
    (now : Nat) (flt : Faults) (db : Store F) (userID : Nat) (user : User)
    (hc : c.user_id = some userID) (hname : input.BusinessName ≠ "")
    (hpw : input.Password ≠ "") (huser : db.user userID = some user)
    (hload : flt.load = false) (hcheck : flt.check = false) :
    LoginBusiness env c (some input) now flt db =
      match preloadBusiness db user with
      | none =>
        ({ status := 403, body := Body.error "You are not authorized for this business" }, db)
      | some business =>
        if business.BusinessName != input.BusinessName then
          ({ status := 403, body := Body.error "You are not authorized for this business" }, db)
        else if !env.CompareHashAndPassword business.Password input.Password then
          ({ status := 401, body := Body.error "Invalid credentials" }, db)
        else
          match SignedString env (NewWithClaims
            [("user_id", JSONValue.number user.ID),
             ("business_id", JSONValue.number business.ID),
             ("business_name", JSONValue.string business.BusinessName),
             ("role", JSONValue.string user.Role),
             ("exp", JSONValue.number (expirationTime now))]) with
          | none => ({ status := 500, body := Body.error "Failed to generate token" }, db)
          | some tokenString =>
            ({ status := 200,
               body := Body.businessLoggedIn business.ID business.BusinessName
                 (expirationTime now),
               cookie := some tokenString }, db) := by
  have hfind : db.users.find? (fun row => row.DeletedAt.isNone && row.ID == userID)
      = some user := huser
  unfold LoginBusiness
  simp only [hc, bindBusinessInput_valid input hname hpw, hload, hcheck, First, hfind,
    Bool.false_eq_true, if_false, Bool.false_and]

/-- The business `Preload("Business")` links to a user is the live business whose key is the
`BusinessID` of the user, and none for the key 0. -/
theorem preloadBusiness_eq {F : Type} (db : Store F) (user : User) :
    preloadBusiness db user
      = if user.BusinessID = 0 then none else db.business user.BusinessID := by
  unfold preloadBusiness Store.business
  by_cases hzero : user.BusinessID = 0
  · simp [hzero]
  · simp [hzero]

/-- C21: for a caller whose user row exists and a body with a name and a password,
`LoginBusiness` answers 403 when the user has no linked business, that is when its
`BusinessID` is 0 or no live business has that key, and when the name of the business with
that key is not exactly the given name, whatever the password is; it answers 401 "Invalid
credentials" when the name matches and the password does not verify against the stored
hash; a request it answers with 200 had a business with the key `BusinessID` of the user,
with the given name and a hash that verified the password, and the token it sets carries
that key as `business_id`; and it answers 200 when both hold and the token can be signed. -/
theorem loginBusiness_decisions {F : Type} (env : Env) (c : Context) (input : BusinessInput)
    (now : Nat) (flt : Faults) (db : Store F) (userID : Nat) (user : User)
    (hc : c.user_id = some userID) (hname : input.BusinessName ≠ "")
    (hpw : input.Password ≠ "") (huser : db.user userID = some user)
    (hload : flt.load = false) (hcheck : flt.check = false) :
    ((user.BusinessID = 0 ∨
          ∀ row ∈ db.businesses, row.DeletedAt = none → row.ID ≠ user.BusinessID) →
        LoginBusiness env c (some input) now flt db =
          ({ status := 403, body := Body.error "You are not authorized for this business" },
            db)) ∧
      (∀ business, user.BusinessID ≠ 0 → db.business user.BusinessID = some business →
        business.BusinessName ≠ input.BusinessName →
        LoginBusiness env c (some input) now flt db =
          ({ status := 403, body := Body.error "You are not authorized for this business" },
            db)) ∧
      (∀ business, user.BusinessID ≠ 0 → db.business user.BusinessID = some business →
        business.BusinessName = input.BusinessName →
        env.CompareHashAndPassword business.Password input.Password = false →
        LoginBusiness env c (some input) now flt db =
          ({ status := 401, body := Body.error "Invalid credentials" }, db)) ∧
      ((LoginBusiness env c (some input) now flt db).1.status = 200 →
        ∃ (business : Business) (tokenString : Token),
          user.BusinessID ≠ 0 ∧ db.business user.BusinessID = some business ∧
          business ∈ db.businesses ∧ business.DeletedAt = none ∧
          business.ID = user.BusinessID ∧
          business.BusinessName = input.BusinessName ∧
          env.CompareHashAndPassword business.Password input.Password = true ∧
          (LoginBusiness env c (some input) now flt db).1.cookie = some tokenString ∧
          tokenString.claims.number "business_id" = some user.BusinessID ∧
          (LoginBusiness env c (some input) now flt db).2 = db) ∧
      (∀ business, user.BusinessID ≠ 0 → db.business user.BusinessID = some business →
        business.BusinessName = input.BusinessName →
        env.CompareHashAndPassword business.Password input.Password = true →
        env.signError = false →
        (LoginBusiness env c (some input) now flt db).1.status = 200) := by
  have hrun := LoginBusiness_eq env c input now flt db userID user hc hname hpw huser hload
    hcheck
  have hpreload := preloadBusiness_eq db user
  rw [hrun]
  refine ⟨?_, ?_, ?_, ?_, ?_⟩
  · intro hnone
    have hpre : preloadBusiness db user = none := by
      rw [hpreload]
      rcases hnone with hzero | hrows
      · rw [if_pos hzero]
      · by_cases hzero : user.BusinessID = 0
        · rw [if_pos hzero]
        · rw [if_neg hzero]
          unfold Store.business
          rw [List.find?_eq_none]
          intro row hrow
          by_cases hlive : row.DeletedAt = none
          · simp [hlive, hrows row hrow hlive]
          · simp [hlive]
    rw [hpre]
  · intro business hlinked hsome hne
    rw [hpreload, if_neg hlinked, hsome]
    simp [hne]
  · intro business hlinked hsome heq hfalse
    rw [hpreload, if_neg hlinked, hsome]
    simp [heq, hfalse]
  · intro hok
    cases hpre : preloadBusiness db user with
    | none => rw [hpre] at hok; simp at hok
    | some business =>
      rw [hpre] at hok
      have hspec := preloadBusiness_some hpre
      have hlookup : db.business user.BusinessID = some business := by
        rw [hpreload, if_neg hspec.2.2.2] at hpre
        exact hpre
      by_cases hne : business.BusinessName = input.BusinessName
      · cases hcmp : env.CompareHashAndPassword business.Password input.Password with
        | false => simp [hne, hcmp] at hok
        | true =>
          cases hsig : env.signError with
          | true => simp [hne, hcmp, SignedString, hsig] at hok
          | false =>
            refine ⟨business, NewWithClaims
              [("user_id", JSONValue.number user.ID),
               ("business_id", JSONValue.number business.ID),
               ("business_name", JSONValue.string business.BusinessName),
               ("role", JSONValue.string user.Role),
               ("exp", JSONValue.number (expirationTime now))], hspec.2.2.2, hlookup,
              hspec.1, hspec.2.1, hspec.2.2.1, hne, hcmp, ?_, ?_, ?_⟩
            · simp [hne, hcmp, SignedString, hsig]
            · rw [← hspec.2.2.1]
              rfl
            · simp [hne, hcmp, SignedString, hsig]
      · simp [hne] at hok
  · intro business hlinked hsome heq htrue hsig
    rw [hpreload, if_neg hlinked, hsome]
    simp [heq, htrue, SignedString, hsig]

/-- C21, witness: the admin of "Acme" logs into "Acme" with the password "p1" and gets a
token with `business_id` 1; the name "acme" and the password "p2" are refused; and the admin
without a business is refused although a business "Acme" with that password exists. -/
theorem loginBusiness_decisions_witness :
    (∃ tokenString : Token,
      (LoginBusiness sampleEnv acme (some { BusinessName := "Acme", Password := "p1" }) 1000
        noFaults scenarioAcme).1.cookie = some tokenString ∧
      tokenString.claims.number "business_id" = some 1) ∧
      LoginBusiness sampleEnv acme (some { BusinessName := "acme", Password := "p1" }) 1000
        noFaults scenarioAcme =
          ({ status := 403, body := Body.error "You are not authorized for this business" },
            scenarioAcme) ∧
      LoginBusiness sampleEnv acme (some { BusinessName := "Acme", Password := "p2" }) 1000
        noFaults scenarioAcme =
          ({ status := 401, body := Body.error "Invalid credentials" }, scenarioAcme) ∧
      LoginBusiness sampleEnv acme (some { BusinessName := "Acme", Password := "p1" }) 1000
        noFaults { scenarioAcme with users := [adminRow] } =
          ({ status := 403, body := Body.error "You are not authorized for this business" },
            { scenarioAcme with users := [adminRow] }) := by
  have h1 := loginBusiness_decisions sampleEnv acme { BusinessName := "Acme", Password := "p1" }
    1000 noFaults scenarioAcme 1 { adminRow with BusinessID := 1 } rfl (by decide) (by decide)
    (by decide) rfl rfl
  have h2 := loginBusiness_decisions sampleEnv acme { BusinessName := "acme", Password := "p1" }
    1000 noFaults scenarioAcme 1 { adminRow with BusinessID := 1 } rfl (by decide) (by decide)
    (by decide) rfl rfl
  have h3 := loginBusiness_decisions sampleEnv acme { BusinessName := "Acme", Password := "p2" }
    1000 noFaults scenarioAcme 1 { adminRow with BusinessID := 1 } rfl (by decide) (by decide)
    (by decide) rfl rfl
  have h4 := loginBusiness_decisions sampleEnv acme { BusinessName := "Acme", Password := "p1" }
    1000 noFaults { scenarioAcme with users := [adminRow] } 1 adminRow rfl (by decide)
    (by decide) (by decide) rfl rfl
  obtain ⟨business, tokenString, _, _, _, _, _, _, _, hcookie, hclaim, _⟩ :=
    h1.2.2.2.1 (by decide)
  exact ⟨⟨tokenString, hcookie, hclaim⟩,
    h2.2.1 acmeRow (by decide) (by decide) (by decide),
    h3.2.2.1 acmeRow (by decide) (by decide) (by decide) (by decide),
    h4.1 (Or.inl rfl)⟩

end StockBack

namespace StockBack

theorem saveUser_others (saved : User) (rows : List User) :
    (saveUser saved rows).filter (fun row => row.ID != saved.ID)
      = rows.filter (fun row => row.ID != saved.ID) := by
  unfold saveUser
  apply filter_map_of_fixed
  · intro row
    by_cases hrow : (row.DeletedAt.isNone && row.ID == saved.ID) = true
    · rw [if_pos hrow]
      simp only [Bool.and_eq_true, beq_iff_eq] at hrow
      rw [hrow.2]
    · rw [if_neg hrow]
  · intro row hkeep
    have hne : (row.ID == saved.ID) = false := by
      simpa using hkeep
    simp [hne]

/-- What an `AssignUserToBusiness` that answers 200 has done. -/
theorem AssignUserToBusiness_ok {F : Type} (c : Context) (body : Option AssignInput)
    (flt : Faults) (db : Store F)
    (hok : (AssignUserToBusiness c body flt db).1.status = 200) :
    ∃ (adminID : Nat) (admin : User) (input : AssignInput) (user : User),
      c.user_id = some adminID ∧ db.user adminID = some admin ∧ admin.BusinessID ≠ 0 ∧
      bindAssignInput body = some input ∧ db.user input.UserID = some user ∧
      AssignUserToBusiness c body flt db =
        ({ status := 200, body := Body.message "User assigned to business successfully" },
          { db with users := saveUser { user with BusinessID := admin.BusinessID } db.users }) := by
  generalize hr : AssignUserToBusiness c body flt db = r at hok
  unfold AssignUserToBusiness at hr
  split at hr
  · subst hr; simp at hok
  · rename_i adminID hc
    split at hr
    · subst hr; simp at hok
    · subst hr; simp at hok
    · rename_i admin hadmin
      split at hr
      · subst hr; simp at hok
      · rename_i hbusiness
        split at hr
        · subst hr; simp at hok
        · rename_i input hbind
          split at hr
          · subst hr; simp at hok
          · subst hr; simp at hok
          · rename_i user huser
            split at hr
            · subst hr; simp at hok
            · exact ⟨adminID, admin, input, user, hc, (First_found hadmin).2,
                by simpa using hbusiness, hbind, (First_found huser).2, hr.symm⟩

/-- C22: the route of `AssignUserToBusiness` answers 200 only for a caller whose role is
"admin" and whose user row has a non-zero `BusinessID`; after such an answer the row of the
target user is the row it was with its `BusinessID` set to that of the caller, and the rows
of users with another key are as they were; for a caller whose row has `BusinessID` 0 the
answer is 403 and the database, the target user included, is unchanged; and an admin with a
business who names an existing user is answered with 200 when no statement fails. -/
theorem assignUserToBusiness_contract {F : Type} (c : Context) (body : Option AssignInput)
    (flt : Faults) (db : Store F) :
    ((SetupRoutes.businessesAssign c body flt db).1.status = 200 →
        ∃ (adminID : Nat) (admin : User) (input : AssignInput) (user : User),
          c.role = some "admin" ∧ c.user_id = some adminID ∧ db.user adminID = some admin ∧
          admin.BusinessID ≠ 0 ∧ bindAssignInput body = some input ∧
          db.user input.UserID = some user ∧
          (SetupRoutes.businessesAssign c body flt db).2.user input.UserID
            = some { user with BusinessID := admin.BusinessID } ∧
          (SetupRoutes.businessesAssign c body flt db).2.users.filter
              (fun row => row.ID != input.UserID)
            = db.users.filter (fun row => row.ID != input.UserID) ∧
          (SetupRoutes.businessesAssign c body flt db).2.users.length = db.users.length ∧
          (SetupRoutes.businessesAssign c body flt db).2.businesses = db.businesses) ∧
      (∀ (adminID : Nat) (admin : User), c.user_id = some adminID →
        db.user adminID = some admin → admin.BusinessID = 0 → flt.load = false →
        (SetupRoutes.businessesAssign c body flt db).1.status = 403 ∧
          (SetupRoutes.businessesAssign c body flt db).2 = db) ∧
      (∀ (adminID : Nat) (admin : User) (input : AssignInput) (user : User),
        c.role = some "admin" → c.user_id = some adminID → db.user adminID = some admin →
        admin.BusinessID ≠ 0 → bindAssignInput body = some input →
        db.user input.UserID = some user →
        flt.load = false → flt.check = false → flt.write1 = false →
        (SetupRoutes.businessesAssign c body flt db).1.status = 200) := by
  refine ⟨?_, ?_, ?_⟩
  · intro hok
    by_cases hrole : c.role = some "admin"
    · have hroute : SetupRoutes.businessesAssign c body flt db
          = AssignUserToBusiness c body flt db := by
        simp [SetupRoutes.businessesAssign, RoleMiddleware, hrole]
      rw [hroute] at hok ⊢
      obtain ⟨adminID, admin, input, user, hc, hadmin, hbusiness, hbind, huser, hrun⟩ :=
        AssignUserToBusiness_ok c body flt db hok
      have hspec := Store.user_spec huser
      rw [hrun]
      refine ⟨adminID, admin, input, user, hrole, hc, hadmin, hbusiness, hbind, huser, ?_, ?_,
        ?_, rfl⟩
      · exact Store.user_saveUser db _ input.UserID user _ huser ⟨hspec.2.1, rfl⟩ rfl
      · rw [← hspec.2.2]
        exact saveUser_others { user with BusinessID := admin.BusinessID } db.users
      · simp [saveUser]
    · have hroute : SetupRoutes.businessesAssign c body flt db
          = ({ status := 403, body := Body.error "Forbidden" }, db) := by
        simp [SetupRoutes.businessesAssign, RoleMiddleware, hrole]
      rw [hroute] at hok
      simp at hok
  · intro adminID admin hc hadmin hzero hload
    have hfind : db.users.find? (fun row => row.DeletedAt.isNone && row.ID == adminID)
        = some admin := hadmin
    by_cases hrole : c.role = some "admin"
    · simp [SetupRoutes.businessesAssign, RoleMiddleware, hrole, AssignUserToBusiness, hc,
        hload, First, hfind, hzero]
    · simp [SetupRoutes.businessesAssign, RoleMiddleware, hrole]
  · intro adminID admin input user hrole hc hadmin hbusiness hbind huser hload hcheck hwrite
    have hfind : db.users.find? (fun row => row.DeletedAt.isNone && row.ID == adminID)
        = some admin := hadmin
    have hfind2 : db.users.find? (fun row => row.DeletedAt.isNone && row.ID == input.UserID)
        = some user := huser
    simp [SetupRoutes.businessesAssign, RoleMiddleware, hrole, AssignUserToBusiness, hc,
      hload, hcheck, hwrite, First, hfind, hfind2, hbusiness, hbind]

/-- C22, witness: the admin of "Acme" assigns the newcomer, who then belongs to business 1;
the employee of "Acme", who is no admin, is refused. -/
theorem assignUserToBusiness_contract_witness :
    (∃ user : User,
      scenarioStaff.user 3 = some user ∧
      (SetupRoutes.businessesAssign adminContext (some { UserID := 3 }) noFaults
        scenarioStaff).2.user 3 = some { user with BusinessID := 1 }) ∧
      (SetupRoutes.businessesAssign unassignedContext (some { UserID := 1 }) noFaults
        scenarioSignup).1.status = 403 := by
  have h := assignUserToBusiness_contract adminContext (some { UserID := 3 }) noFaults
    scenarioStaff
  have h2 := assignUserToBusiness_contract unassignedContext (some { UserID := 1 }) noFaults
    scenarioSignup
  obtain ⟨adminID, admin, input, user, _, hc, hadmin, _, hbind, huser, hsaved, _⟩ :=
    h.1 (by decide)
  have hinput : input = { UserID := 3 } := by
    have hb : bindAssignInput (some { UserID := 3 }) = some { UserID := 3 } := by decide
    rw [hb] at hbind
    exact (Option.some.inj hbind).symm
  subst hinput
  have hcid : adminID = 1 := by
    have : adminContext.user_id = some 1 := rfl
    rw [this] at hc
    exact (Option.some.inj hc).symm
  subst hcid
  have hadm : admin = { adminRow with BusinessID := 1 } := by
    have : scenarioStaff.user 1 = some { adminRow with BusinessID := 1 } := by decide
    rw [this] at hadmin
    exact (Option.some.inj hadmin).symm
  subst hadm
  exact ⟨⟨user, huser, hsaved⟩, (h2.2.1 1 adminRow rfl (by decide) rfl rfl).1⟩

end StockBack

namespace StockBack

theorem Store.business_spec {F : Type} {db : Store F} {id : Nat} {business : Business}
    (h : db.business id = some business) :
    business ∈ db.businesses ∧ business.DeletedAt = none ∧ business.ID = id := by
  unfold Store.business at h
  have hcond := List.find?_some h
  simp only [Bool.and_eq_true, beq_iff_eq, Option.isNone_iff_eq_none] at hcond
  exact ⟨List.mem_of_find?_eq_some h, hcond.1, hcond.2⟩

theorem Store.business_saveBusiness {F : Type} (db next : Store F) (id : Nat)
    (business saved : Business) (hbusiness : db.business id = some business)
    (hsaved : saved.DeletedAt = none ∧ saved.ID = business.ID)
    (hnext : next.businesses = saveBusiness saved db.businesses) :
    next.business id = some saved := by
  have hspec := Store.business_spec hbusiness
  unfold Store.business at hbusiness ⊢
  rw [hnext]
  unfold saveBusiness
  apply find?_map_replace db.businesses _
    (fun row => row.DeletedAt.isNone && row.ID == saved.ID) business saved hbusiness
  · intro row hrow
    simp only [Bool.and_eq_true, beq_iff_eq, Option.isNone_iff_eq_none] at hrow
    simp [hrow.1, hrow.2, hsaved.2, hspec.2.2]
  · simp [hsaved.1, hsaved.2, hspec.2.2]

theorem saveBusiness_others (saved : Business) (rows : List Business) :
    (saveBusiness saved rows).filter (fun row => row.ID != saved.ID)
      = rows.filter (fun row => row.ID != saved.ID) := by
  unfold saveBusiness
  apply filter_map_of_fixed
  · intro row
    by_cases hrow : (row.DeletedAt.isNone && row.ID == saved.ID) = true
    · rw [if_pos hrow]
      simp only [Bool.and_eq_true, beq_iff_eq] at hrow
      rw [hrow.2]
    · rw [if_neg hrow]
  · intro row hkeep
    have hne : (row.ID == saved.ID) = false := by
      simpa using hkeep
    simp [hne]

/-- `ChangeBusinessPassword` for a body that binds and a business the select returns. -/
theorem ChangeBusinessPassword_eq {F : Type} (env : Env) (c : Context)
    (input : BusinessPasswordInput) (flt : Faults) (db : Store F) (businessID : Nat)
    (business : Business) (hc : c.business_id = some businessID)
    (hold : input.OldBusinessPassword ≠ "") (hnew : input.NewBusinessPassword ≠ "")
    (hbusiness : db.business businessID = some business) (hload : flt.load = false) :
    ChangeBusinessPassword env c (some input) flt db =
      if !env.CompareHashAndPassword business.Password input.OldBusinessPassword then
        ({ status := 401, body := Body.error "Old business password is incorrect" }, db)
      else
        match env.GenerateFromPassword input.NewBusinessPassword with
        | none => ({ status := 500, body := Body.error "Failed to hash new password" }, db)
        | some hashedPassword =>
          if flt.write1 then
            ({ status := 500, body := Body.error "Failed to update business password" }, db)
          else
            ({ status := 200, body := Body.message "Business password updated successfully" },
              { db with
                businesses :=
                  saveBusiness { business with Password := hashedPassword } db.businesses }) := by
  have hfind : db.businesses.find? (fun row => row.DeletedAt.isNone && row.ID == businessID)
      = some business := hbusiness
  have hbind : bindBusinessPasswordInput (some input) = some input := by
    simp [bindBusinessPasswordInput, hold, hnew]
  unfold ChangeBusinessPassword
  simp only [hc, hbind, hload, First, hfind, Bool.false_eq_true, if_false]

/-- C23: for a request with a business context whose business row exists and a body with
both passwords, `ChangeBusinessPassword` answers 401 and leaves the database as it was when
the old password does not verify against the stored hash; a request it answers with 200 had
an old password that verified, and afterwards the row of the business is the row it was
with a hash that, for a bcrypt whose hashes verify the passwords they were made from,
verifies the new password; it answers 200 when the old password verifies, the new one can
be hashed and the write does not fail; and in every case the rows of the businesses with
another key are as they were. -/
theorem changeBusinessPassword_contract {F : Type} (env : Env) (c : Context)
    (input : BusinessPasswordInput) (flt : Faults) (db : Store F) (businessID : Nat)
    (business : Business) (hc : c.business_id = some businessID)
    (hold : input.OldBusinessPassword ≠ "") (hnew : input.NewBusinessPassword ≠ "")
    (hbusiness : db.business businessID = some business) (hload : flt.load = false) :
    (env.CompareHashAndPassword business.Password input.OldBusinessPassword = false →
        ChangeBusinessPassword env c (some input) flt db =
          ({ status := 401, body := Body.error "Old business password is incorrect" }, db)) ∧
      ((∀ password hash, env.GenerateFromPassword password = some hash →
          env.CompareHashAndPassword hash password = true) →
        (ChangeBusinessPassword env c (some input) flt db).1.status = 200 →
        env.CompareHashAndPassword business.Password input.OldBusinessPassword = true ∧
        ∃ stored : Business,
          (ChangeBusinessPassword env c (some input) flt db).2.business businessID
            = some stored ∧
          stored = { business with Password := stored.Password } ∧
          env.CompareHashAndPassword stored.Password input.NewBusinessPassword = true) ∧
      (env.CompareHashAndPassword business.Password input.OldBusinessPassword = true →
        env.GenerateFromPassword input.NewBusinessPassword ≠ none → flt.write1 = false →
        (ChangeBusinessPassword env c (some input) flt db).1.status = 200) ∧
      (ChangeBusinessPassword env c (some input) flt db).2.businesses.filter
          (fun row => row.ID != businessID)
        = db.businesses.filter (fun row => row.ID != businessID) := by
  have hrun := ChangeBusinessPassword_eq env c input flt db businessID business hc hold hnew
    hbusiness hload
  have hspec := Store.business_spec hbusiness
  rw [hrun]
  refine ⟨?_, ?_, ?_, ?_⟩
  · intro hfalse
    simp [hfalse]
  · intro hbcrypt hok
    cases hcmp : env.CompareHashAndPassword business.Password input.OldBusinessPassword with
    | false => rw [hcmp] at hok; simp at hok
    | true =>
      rw [hcmp] at hok
      cases hgen : env.GenerateFromPassword input.NewBusinessPassword with
      | none => rw [hgen] at hok; simp at hok
      | some hashedPassword =>
        rw [hgen] at hok
        cases hw : flt.write1 with
        | true => rw [hw] at hok; simp at hok
        | false =>
          refine ⟨rfl, { business with Password := hashedPassword }, ?_, rfl,
            hbcrypt _ _ hgen⟩
          simp only [Bool.not_true, Bool.false_eq_true, if_false]
          exact Store.business_saveBusiness db _ businessID business _ hbusiness
            ⟨hspec.2.1, rfl⟩ rfl
  · intro htrue hgen hw
    cases hg : env.GenerateFromPassword input.NewBusinessPassword with
    | none => exact absurd hg hgen
    | some hashedPassword => simp [htrue, hw]
  · cases hcmp : env.CompareHashAndPassword business.Password input.OldBusinessPassword with
    | false => simp
    | true =>
      cases hgen : env.GenerateFromPassword input.NewBusinessPassword with
      | none => simp
      | some hashedPassword =>
        cases hw : flt.write1 with
        | true => simp
        | false =>
          simp only [Bool.not_true, Bool.false_eq_true, if_false]
          rw [← hspec.2.2]
          exact saveBusiness_others { business with Password := hashedPassword } db.businesses

/-- C23, witness: the admin of "Acme" changes the business password from "p1" to "p9"; a
request with the wrong old password "p0" is refused. -/
theorem changeBusinessPassword_contract_witness :
    (∃ stored : Business,
      (ChangeBusinessPassword sampleEnv adminContext
        (some { OldBusinessPassword := "p1", NewBusinessPassword := "p9" }) noFaults
        scenarioStaff).2.business 1 = some stored ∧
      sampleEnv.CompareHashAndPassword stored.Password "p9" = true) ∧
      ChangeBusinessPassword sampleEnv adminContext
        (some { OldBusinessPassword := "p0", NewBusinessPassword := "p9" }) noFaults
        scenarioStaff =
          ({ status := 401, body := Body.error "Old business password is incorrect" },
            scenarioStaff) := by
  have h := changeBusinessPassword_contract sampleEnv adminContext
    { OldBusinessPassword := "p1", NewBusinessPassword := "p9" } noFaults scenarioStaff 1
    acmeRow rfl (by decide) (by decide) (by decide) rfl
  have h0 := changeBusinessPassword_contract sampleEnv adminContext
    { OldBusinessPassword := "p0", NewBusinessPassword := "p9" } noFaults scenarioStaff 1
    acmeRow rfl (by decide) (by decide) (by decide) rfl
  have hbcrypt : ∀ password hash, sampleEnv.GenerateFromPassword password = some hash →
      sampleEnv.CompareHashAndPassword hash password = true := by
    intro password hash hgen
    simp only [sampleEnv, Option.some.injEq] at hgen
    simp [sampleEnv, hgen]
  obtain ⟨_, stored, hstored, _, hverify⟩ := h.2.1 hbcrypt (by decide)
  exact ⟨⟨stored, hstored, hverify⟩, h0.1 (by decide)⟩

end StockBack

namespace StockBack

/-! ### Commits, concurrent sales and foreign products -/

/-- C24: a `tx.Commit()` that fails is not reported. With "Chips" at 50 units in scenario A
and a commit that returns an error, `CreateSale` answers 201, `CreateProduct` answers 201
and `UpdateProduct` answers 200, and after each of the three requests the database is as it
was before it: the success response is sent although nothing was committed. -/
theorem commit_failure_answers_success :
    (CreateSale acme (some { ProductID := 1, Quantity := 30 }) 11 { commit := true }
        scenarioA).1.status = 201 ∧
      (CreateSale acme (some { ProductID := 1, Quantity := 30 }) 11 { commit := true }
        scenarioA).2 = scenarioA ∧
      (CreateProduct acme (some { chips with Name := "Nuts" }) 11 { commit := true }
        scenarioA).1.status = 201 ∧
      (CreateProduct acme (some { chips with Name := "Nuts" }) 11 { commit := true }
        scenarioA).2 = scenarioA ∧
      (UpdateProduct acme (some 1) (some { chips with Quantity := 60 }) 11 { commit := true }
        scenarioA).1.status = 200 ∧
      (UpdateProduct acme (some 1) (some { chips with Quantity := 60 }) 11 { commit := true }
        scenarioA).2 = scenarioA := by
  decide

theorem First_update_none {F : Type} (db : Store F) (businessID id : Nat)
    (hproduct : db.product businessID id = none) (fault : Bool) :
    First (fault || (some id).isNone) db.products (fun row =>
        row.DeletedAt.isNone && (row.BusinessID == businessID && some row.ID == some id))
      = if fault then QueryResult.failed else QueryResult.recordNotFound := by
  have hpred : (fun row : Product F =>
        row.DeletedAt.isNone && (row.BusinessID == businessID && some row.ID == some id))
      = (fun row : Product F =>
        row.DeletedAt.isNone && (row.ID == id && row.BusinessID == businessID)) := by
    funext row
    rw [Bool.and_comm (row.ID == id)]
    simp
  rw [hpred]
  unfold Store.product at hproduct
  cases fault <;> simp [First, hproduct]

/-- A key that only products of other businesses carry is not found in the business. -/
theorem Store.product_foreign {F : Type} (db : Store F) (businessID id : Nat)
    (h : ∀ product ∈ db.products, product.ID = id → product.BusinessID ≠ businessID) :
    db.product businessID id = none := by
  unfold Store.product
  rw [List.find?_eq_none]
  intro row hmem
  by_cases hid : row.ID = id
  · simp [hid, h row hmem hid]
  · simp [hid]

/-- `GetProduct` for a key that is not found in the business. -/
theorem GetProduct_none {F : Type} (c : Context) (id businessID : Nat) (flt : Faults)
    (db : Store F) (hc : c.business_id = some businessID)
    (hproduct : db.product businessID id = none) :
    GetProduct c (some id) flt db =
      (if flt.load then { status := 500, body := Body.dbError }
        else { status := 404, body := Body.error "Product not found" }, db) := by
  unfold GetProduct
  simp only [hc, First_update_none db businessID id hproduct]
  cases flt.load <;> rfl

/-- `UpdateProduct` for a key that is not found in the business. -/
theorem UpdateProduct_none {F : Type} [Float64Ops F] (c : Context) (id businessID : Nat)
    (body : Option (ProductInput F)) (now : Nat) (flt : Faults) (db : Store F)
    (hc : c.business_id = some businessID) (hproduct : db.product businessID id = none) :
    UpdateProduct c (some id) body now flt db =
      (if flt.load then { status := 500, body := Body.dbError }
        else { status := 404, body := Body.error "Product not found" }, db) := by
  unfold UpdateProduct
  simp only [hc, First_update_none db businessID id hproduct]
  cases flt.load <;> rfl

/-- `DeleteProduct` for a key that is not found in the business of the caller. -/
theorem DeleteProduct_none {F : Type} (c : Context) (id userID : Nat) (user : User)
    (now : Nat) (flt : Faults) (db : Store F) (hc : c.user_id = some userID)
    (huser : db.user userID = some user)
    (hproduct : db.product user.BusinessID id = none) :
    DeleteProduct c (some id) now flt db =
      (if flt.check then { status := 404, body := Body.error "User not found" }
        else if flt.load then { status := 500, body := Body.dbError }
        else { status := 404, body := Body.error "Product not found" }, db) := by
  have hfind : db.users.find? (fun row => row.DeletedAt.isNone && row.ID == userID)
      = some user := huser
  unfold DeleteProduct
  simp only [hc, First, hfind]
  cases flt.check
  · simp only [Bool.false_eq_true, if_false]
    have hnone := First_update_none db user.BusinessID id hproduct flt.load
    unfold First at hnone
    rw [hnone]
    cases flt.load <;> rfl
  · rfl

/-- `CreateSale` for a key that is not found in the business. -/
theorem CreateSale_none {F : Type} [Float64Ops F] (c : Context) (id businessID : Nat)
    (n : Int) (now : Nat) (flt : Faults) (db : Store F)
    (hc : c.business_id = some businessID) (hproduct : db.product businessID id = none) :
    CreateSale c (some { ProductID := id, Quantity := n }) now flt db =
      (if bindSaleInput (some { ProductID := id, Quantity := n }) = none then
          { status := 400, body := Body.bindError }
        else { status := 404, body := Body.error "Product not found in your business" },
        db) := by
  have hfind : db.products.find? (fun row =>
      row.DeletedAt.isNone && (row.ID == id && row.BusinessID == businessID)) = none :=
    hproduct
  cases hbind : bindSaleInput (some { ProductID := id, Quantity := n }) with
  | none => simp [CreateSale, hc, hbind]
  | some saleInput =>
    have hbody := (bindSaleInput_some hbind).1
    simp only [Option.some.injEq] at hbody
    subst hbody
    unfold CreateSale
    simp only [hc, hbind, First, hfind]
    cases flt.load <;> simp

end StockBack

namespace StockBack

/-- Foreign and absent products for a caller whose user row agrees with its token: let a
product key belong, in one database, only to products of other businesses, and let no
product carry it in another database; the caller has the business context of business
`businessID`, and its user row, which `DeleteProduct` reads, names that business in both.
Then `GetProduct`, `UpdateProduct`, `DeleteProduct` and `CreateSale` send the same response
in both databases and leave both as they were; with no storage fault (and, for `CreateSale`,
a body that binds) that response is the 404 of the handler. -/
theorem foreign_product_like_absent {F : Type} [Float64Ops F] (c : Context)
    (businessID userID id : Nat) (now : Nat) (flt : Faults) (foreign absent : Store F)
    (user₁ user₂ : User) (hc : c.business_id = some businessID)
    (hu : c.user_id = some userID)
    (huser₁ : foreign.user userID = some user₁) (hb₁ : user₁.BusinessID = businessID)
    (huser₂ : absent.user userID = some user₂) (hb₂ : user₂.BusinessID = businessID)
    (hforeign : ∀ product ∈ foreign.products,
      product.ID = id → product.BusinessID ≠ businessID)
    (habsent : ∀ product ∈ absent.products, product.ID ≠ id) :
    ((GetProduct c (some id) flt foreign).1 = (GetProduct c (some id) flt absent).1 ∧
        (GetProduct c (some id) flt foreign).2 = foreign ∧
        (GetProduct c (some id) flt absent).2 = absent ∧
        (flt.load = false → (GetProduct c (some id) flt foreign).1 =
          { status := 404, body := Body.error "Product not found" })) ∧
      (∀ body : Option (ProductInput F),
        (UpdateProduct c (some id) body now flt foreign).1
          = (UpdateProduct c (some id) body now flt absent).1 ∧
        (UpdateProduct c (some id) body now flt foreign).2 = foreign ∧
        (UpdateProduct c (some id) body now flt absent).2 = absent ∧
        (flt.load = false → (UpdateProduct c (some id) body now flt foreign).1 =
          { status := 404, body := Body.error "Product not found" })) ∧
      ((DeleteProduct c (some id) now flt foreign).1
          = (DeleteProduct c (some id) now flt absent).1 ∧
        (DeleteProduct c (some id) now flt foreign).2 = foreign ∧
        (DeleteProduct c (some id) now flt absent).2 = absent ∧
        (flt.check = false → flt.load = false → (DeleteProduct c (some id) now flt foreign).1 =
          { status := 404, body := Body.error "Product not found" })) ∧
      (∀ n : Int,
        (CreateSale c (some { ProductID := id, Quantity := n }) now flt foreign).1
          = (CreateSale c (some { ProductID := id, Quantity := n }) now flt absent).1 ∧
        (CreateSale c (some { ProductID := id, Quantity := n }) now flt foreign).2 = foreign ∧
        (CreateSale c (some { ProductID := id, Quantity := n }) now flt absent).2 = absent ∧
        (id ≠ 0 → 0 < n →
          (CreateSale c (some { ProductID := id, Quantity := n }) now flt foreign).1 =
            { status := 404, body := Body.error "Product not found in your business" })) := by
  have h₁ : foreign.product businessID id = none :=
    Store.product_foreign foreign businessID id hforeign
  have h₂ : absent.product businessID id = none :=
    Store.product_foreign absent businessID id
      (fun product hmem hid => absurd hid (habsent product hmem))
  have hd₁ : foreign.product user₁.BusinessID id = none := by rw [hb₁]; exact h₁
  have hd₂ : absent.product user₂.BusinessID id = none := by rw [hb₂]; exact h₂
  refine ⟨?_, ?_, ?_, ?_⟩
  · rw [GetProduct_none c id businessID flt foreign hc h₁,
      GetProduct_none c id businessID flt absent hc h₂]
    refine ⟨rfl, rfl, rfl, ?_⟩
    intro hload
    simp [hload]
  · intro body
    rw [UpdateProduct_none c id businessID body now flt foreign hc h₁,
      UpdateProduct_none c id businessID body now flt absent hc h₂]
    refine ⟨rfl, rfl, rfl, ?_⟩
    intro hload
    simp [hload]
  · rw [DeleteProduct_none c id userID user₁ now flt foreign hu huser₁ hd₁,
      DeleteProduct_none c id userID user₂ now flt absent hu huser₂ hd₂]
    refine ⟨rfl, rfl, rfl, ?_⟩
    intro hcheck hload
    simp [hcheck, hload]
  · intro n
    rw [CreateSale_none c id businessID n now flt foreign hc h₁,
      CreateSale_none c id businessID n now flt absent hc h₂]
    refine ⟨rfl, rfl, rfl, ?_⟩
    intro hid hn
    have hbind := bindSaleInput_valid id n hid hn
    simp [hbind]

/-- Product 1 belongs to business 1. The principal of business 2, whose user row names
business 2, asks for it in scenario A and in a database without products: the responses are
the same. -/
theorem foreign_product_like_absent_witness :
    (GetProduct rival (some 1) noFaults scenarioShared).1
        = (GetProduct rival (some 1) noFaults { scenarioShared with products := [] }).1 ∧
      (DeleteProduct rival (some 1) 20 noFaults scenarioShared).1
        = (DeleteProduct rival (some 1) 20 noFaults
            { scenarioShared with products := [] }).1 ∧
      (DeleteProduct rival (some 1) 20 noFaults scenarioShared).2 = scenarioShared ∧
      (CreateSale rival (some { ProductID := 1, Quantity := 5 }) 20 noFaults scenarioShared).1
        = { status := 404, body := Body.error "Product not found in your business" } := by
  have h := foreign_product_like_absent rival 2 2 1 20 noFaults scenarioShared
    { scenarioShared with products := [] }
    { employeeRow with BusinessID := 2, Role := "admin" }
    { employeeRow with BusinessID := 2, Role := "admin" } rfl rfl (by decide) rfl (by decide)
    rfl (by decide) (by decide)
  exact ⟨h.1.1, h.2.2.1.1, h.2.2.1.2.1, (h.2.2.2 5).2.2.2 (by decide) (by decide)⟩

/-- C26: `DeleteProduct` tells a product of another business from an absent one. The
employee of "Acme" holds a token with `business_id` 1 and is then assigned to "Rival", so
that the user row names business 2. "Cola", product 1, belongs to business 2. With that
token `GetProduct` answers 404 for product 1, as it does for a key no product has, but
`DeleteProduct`, which takes the business from the user row and not from the token, answers
200 and deletes "Cola"; when no product has the key it answers 404. -/
theorem deleteProduct_scoped_by_user_row :
    (SetupRoutes.businessesAssign ritaContext (some { UserID := 2 }) noFaults
        scenarioTwoTenants).1.status = 200 ∧
      scenarioReassigned.user 2 = some { employeeRow with BusinessID := 2 } ∧
      employeeContext.user_id = some 2 ∧ employeeContext.business_id = some 1 ∧
      scenarioReassigned.products = [colaRow] ∧ colaRow.BusinessID = 2 ∧
      (GetProduct employeeContext (some 1) noFaults scenarioReassigned).1
        = { status := 404, body := Body.error "Product not found" } ∧
      (GetProduct employeeContext (some 1) noFaults
          { scenarioReassigned with products := [] }).1
        = { status := 404, body := Body.error "Product not found" } ∧
      (DeleteProduct employeeContext (some 1) 20 noFaults scenarioReassigned).1
        = { status := 200, body := Body.message "Product deleted successfully" } ∧
      (DeleteProduct employeeContext (some 1) 20 noFaults scenarioReassigned).2.products
        = [{ colaRow with DeletedAt := some 20 }] ∧
      (DeleteProduct employeeContext (some 1) 20 noFaults
          { scenarioReassigned with products := [] }).1
        = { status := 404, body := Body.error "Product not found" } := by
  decide

end StockBack

namespace StockBack

/-- The handler `CreateSale` is its check followed by the rest. -/
theorem CreateSale_phases {F : Type} [Float64Ops F] (c : Context) (body : Option SaleInput)
    (now : Nat) (flt : Faults) (db : Store F) :
    CreateSale c body now flt db
      = CreateSale.finish (CreateSale.check c body flt db) now flt db := by
  unfold CreateSale CreateSale.check
  cases c.business_id with
  | none => rfl
  | some businessID =>
    simp only
    cases bindSaleInput body with
    | none => rfl
    | some saleInput =>
      simp only
      cases First flt.load db.products (fun row =>
          row.DeletedAt.isNone &&
            (row.ID == saleInput.ProductID && row.BusinessID == businessID)) with
      | recordNotFound => rfl
      | failed => rfl
      | found product =>
        simp only
        by_cases hlt : product.Quantity < saleInput.Quantity
        · rw [if_pos hlt, if_pos hlt]
          rfl
        · rw [if_neg hlt, if_neg hlt]
          rfl

/-- The check of `CreateSale` passes for a quantity that the product read covers. -/
theorem CreateSale_check_proceed {F : Type} (c : Context) (flt : Faults) (db : Store F)
    (businessID id : Nat) (product : Product F) (n : Int)
    (hc : c.business_id = some businessID)
    (hproduct : db.product businessID id = some product)
    (hid : id ≠ 0) (hpos : 0 < n) (hle : n ≤ product.Quantity) (hload : flt.load = false) :
    CreateSale.check c (some { ProductID := id, Quantity := n }) flt db
      = SaleCheck.proceed businessID { ProductID := id, Quantity := n } product := by
  have hfind : db.products.find? (fun row =>
      row.DeletedAt.isNone && (row.ID == id && row.BusinessID == businessID))
        = some product := hproduct
  unfold CreateSale.check
  simp only [hc, bindSaleInput_valid id n hid hpos, hload, First, hfind, Bool.false_eq_true,
    if_false]
  rw [if_neg (by omega)]

/-- The transaction of `CreateSale` for a product value that was read before: with no
failing statement the answer is 201, a sale row is added, and the row of the product becomes
the value that was read with its quantity lowered, whatever the row held in between. -/
theorem CreateSale_record_ok {F : Type} [Float64Ops F] (businessID id : Nat)
    (saleInput : SaleInput) (product current : Product F) (now : Nat) (flt : Faults)
    (db : Store F) (hcurrent : db.product businessID id = some current)
    (hproduct : product.DeletedAt = none ∧ product.ID = id ∧ product.BusinessID = businessID)
    (hw1 : flt.write1 = false) (hw2 : flt.write2 = false) (hcommit : flt.commit = false) :
    (CreateSale.record businessID saleInput product now flt db).1.status = 201 ∧
      (CreateSale.record businessID saleInput product now flt db).2.product businessID id
        = some { product with
            Quantity := wrapInt64 (product.Quantity - saleInput.Quantity) } ∧
      ∃ sale : Sale F,
        (CreateSale.record businessID saleInput product now flt db).2.sales
          = db.sales ++ [sale] ∧
        sale.DeletedAt = none ∧ sale.ProductID = id ∧ sale.Quantity = saleInput.Quantity := by
  unfold CreateSale.record
  simp only [hw1, hw2, hcommit, Commit, Begin, Tx.createSale, Bool.false_eq_true, if_false]
  refine ⟨trivial, ?_, ?_⟩
  · exact Store.product_saveProduct db businessID id current
      { product with Quantity := wrapInt64 (product.Quantity - saleInput.Quantity) } hcurrent
      ⟨hproduct.1, hproduct.2.1, hproduct.2.2⟩ _ rfl
  · exact ⟨_, rfl, rfl, hproduct.2.1, rfl⟩

/-- A sale of more than the product holds is not answered with 201 and writes nothing. -/
theorem CreateSale_short {F : Type} [Float64Ops F] (c : Context) (now : Nat) (flt : Faults)
    (db : Store F) (businessID id : Nat) (product : Product F) (n : Int)
    (hc : c.business_id = some businessID)
    (hproduct : db.product businessID id = some product) (hlt : product.Quantity < n) :
    (CreateSale c (some { ProductID := id, Quantity := n }) now flt db).1.status ≠ 201 ∧
      (CreateSale c (some { ProductID := id, Quantity := n }) now flt db).2 = db ∧
      (id ≠ 0 → 0 < n → flt.load = false →
        (CreateSale c (some { ProductID := id, Quantity := n }) now flt db).1
          = { status := 400, body := Body.error "Insufficient stock" }) := by
  have hfind : db.products.find? (fun row =>
      row.DeletedAt.isNone && (row.ID == id && row.BusinessID == businessID))
        = some product := hproduct
  cases hbind : bindSaleInput (some { ProductID := id, Quantity := n }) with
  | none =>
    refine ⟨by simp [CreateSale, hc, hbind], by simp [CreateSale, hc, hbind], ?_⟩
    intro hid hpos _
    rw [bindSaleInput_valid id n hid hpos] at hbind
    cases hbind
  | some saleInput =>
    have hbody := (bindSaleInput_some hbind).1
    simp only [Option.some.injEq] at hbody
    subst hbody
    unfold CreateSale
    simp only [hc, hbind, First, hfind]
    cases flt.load <;> simp [hlt]

/-- C25 (amended): on a product with quantity `q`, take two `CreateSale` requests of the
business with quantities `n₁ ≤ q` and `n₂ ≤ q` where `n₁ + n₂ > q`. Handled one after the
other, when the first is answered with 201 and its commit takes effect, the second is not
answered with 201: without a fault of its select it fails the sufficiency check with 400.
Handled so that both have read the product before either writes, with no failing
statement, both are answered with 201, two sale rows are added, and the product is left
with `q - n₂`, the value the second request computed from the quantity it had read. -/
theorem sales_exclude_only_in_sequence {F : Type} [Float64Ops F] (c₁ c₂ : Context)
    (now₁ now₂ : Nat) (flt₁ flt₂ : Faults) (db : Store F) (businessID id : Nat)
    (product : Product F) (n₁ n₂ : Int)
    (hc₁ : c₁.business_id = some businessID) (hc₂ : c₂.business_id = some businessID)
    (hproduct : db.product businessID id = some product) (hid : id ≠ 0)
    (hq : isInt64 product.Quantity)
    (hn₁ : n₁ ≤ product.Quantity) (hn₂ : n₂ ≤ product.Quantity)
    (hsum : product.Quantity < n₁ + n₂)
    (hcommit₁ : flt₁.commit = false) (hcommit₂ : flt₂.commit = false) :
    ((CreateSale.sequential c₁ (some { ProductID := id, Quantity := n₁ }) now₁ flt₁
          c₂ (some { ProductID := id, Quantity := n₂ }) now₂ flt₂ db).1.status = 201 →
        (CreateSale.sequential c₁ (some { ProductID := id, Quantity := n₁ }) now₁ flt₁
          c₂ (some { ProductID := id, Quantity := n₂ }) now₂ flt₂ db).2.1.status ≠ 201 ∧
        (flt₂.load = false →
          (CreateSale.sequential c₁ (some { ProductID := id, Quantity := n₁ }) now₁ flt₁
            c₂ (some { ProductID := id, Quantity := n₂ }) now₂ flt₂ db).2.1
              = { status := 400, body := Body.error "Insufficient stock" })) ∧
      (flt₁.load = false → flt₁.write1 = false → flt₁.write2 = false →
        flt₂.load = false → flt₂.write1 = false → flt₂.write2 = false →
        (CreateSale.interleaved c₁ (some { ProductID := id, Quantity := n₁ }) now₁ flt₁
          c₂ (some { ProductID := id, Quantity := n₂ }) now₂ flt₂ db).1.status = 201 ∧
        (CreateSale.interleaved c₁ (some { ProductID := id, Quantity := n₁ }) now₁ flt₁
          c₂ (some { ProductID := id, Quantity := n₂ }) now₂ flt₂ db).2.1.status = 201 ∧
        (CreateSale.interleaved c₁ (some { ProductID := id, Quantity := n₁ }) now₁ flt₁
          c₂ (some { ProductID := id, Quantity := n₂ }) now₂ flt₂ db).2.2.product businessID id
            = some { product with Quantity := product.Quantity - n₂ } ∧
        ∃ sale₁ sale₂ : Sale F,
          (CreateSale.interleaved c₁ (some { ProductID := id, Quantity := n₁ }) now₁ flt₁
            c₂ (some { ProductID := id, Quantity := n₂ }) now₂ flt₂ db).2.2.sales
              = db.sales ++ [sale₁, sale₂] ∧
          sale₁.ProductID = id ∧ sale₁.Quantity = n₁ ∧
          sale₂.ProductID = id ∧ sale₂.Quantity = n₂) := by
  have hpos₁ : 0 < n₁ := by omega
  have hpos₂ : 0 < n₂ := by omega
  have hspec := Store.product_spec hproduct
  refine ⟨?_, ?_⟩
  · intro hok
    unfold CreateSale.sequential at hok ⊢
    simp only at hok ⊢
    obtain ⟨_, _, _, _, hafter⟩ :=
      CreateSale_ok c₁ now₁ flt₁ db businessID id product n₁ hc₁ hproduct hq hcommit₁ hok
    have hshort := CreateSale_short c₂ now₂ flt₂ _ businessID id
      { product with Quantity := product.Quantity - n₁ } n₂ hc₂ hafter
      (by show product.Quantity - n₁ < n₂; omega)
    exact ⟨hshort.1, fun hload => hshort.2.2 hid hpos₂ hload⟩
  · intro hl₁ hw₁ hv₁ hl₂ hw₂ hv₂
    unfold CreateSale.interleaved
    simp only [CreateSale_check_proceed c₁ flt₁ db businessID id product n₁ hc₁ hproduct hid
        hpos₁ hn₁ hl₁,
      CreateSale_check_proceed c₂ flt₂ db businessID id product n₂ hc₂ hproduct hid
        hpos₂ hn₂ hl₂, CreateSale.finish]
    obtain ⟨hs₁, hp₁, sale₁, hsales₁, _, hsp₁, hsq₁⟩ :=
      CreateSale_record_ok businessID id { ProductID := id, Quantity := n₁ } product product
        now₁ flt₁ db hproduct ⟨hspec.2.1, hspec.2.2.1, hspec.2.2.2⟩ hw₁ hv₁ hcommit₁
    obtain ⟨hs₂, hp₂, sale₂, hsales₂, _, hsp₂, hsq₂⟩ :=
      CreateSale_record_ok businessID id { ProductID := id, Quantity := n₂ } product _
        now₂ flt₂ _ hp₁ ⟨hspec.2.1, hspec.2.2.1, hspec.2.2.2⟩ hw₂ hv₂ hcommit₂
    refine ⟨hs₁, hs₂, ?_, sale₁, sale₂, ?_, hsp₁, hsq₁, hsp₂, hsq₂⟩
    · rw [hp₂]
      have hwrap : wrapInt64 (product.Quantity - n₂) = product.Quantity - n₂ := by
        apply wrapInt64_of_isInt64
        unfold isInt64 at hq ⊢
        omega
      simp only [hwrap]
    · rw [hsales₂, hsales₁]
      simp

/-- C25 (amended), witness: two sales of 30 of the 50 units of "Chips", one after the other
and at once. -/
theorem sales_exclude_only_in_sequence_witness :
    (CreateSale.sequential acme (some { ProductID := 1, Quantity := 30 }) 11 noFaults
        acme (some { ProductID := 1, Quantity := 30 }) 12 noFaults scenarioA).2.1
      = { status := 400, body := Body.error "Insufficient stock" } ∧
      (CreateSale.interleaved acme (some { ProductID := 1, Quantity := 30 }) 11 noFaults
        acme (some { ProductID := 1, Quantity := 30 }) 12 noFaults scenarioA).2.1.status
          = 201 := by
  have h := sales_exclude_only_in_sequence acme acme 11 12 noFaults noFaults scenarioA 1 1
    chipsRow 30 30 rfl rfl (by decide) (by decide) (by decide) (by decide) (by decide)
    (by decide) rfl rfl
  exact ⟨(h.1 (by decide)).2 rfl, (h.2 rfl rfl rfl rfl rfl rfl).2.1⟩

/-- C25, counterexample: "Chips" holds 50 units and two sales of 30 arrive at once. Both
read the quantity 50 before either writes, both pass the check and both are answered with
201: 60 units are sold of 50, and the product is left with 20. -/
theorem concurrent_sales_overdraw :
    scenarioA.product 1 1 = some chipsRow ∧ chipsRow.Quantity = 50 ∧
      (CreateSale.interleaved acme (some { ProductID := 1, Quantity := 30 }) 11 noFaults
        acme (some { ProductID := 1, Quantity := 30 }) 12 noFaults scenarioA).1.status = 201 ∧
      (CreateSale.interleaved acme (some { ProductID := 1, Quantity := 30 }) 11 noFaults
        acme (some { ProductID := 1, Quantity := 30 }) 12 noFaults scenarioA).2.1.status
          = 201 ∧
      (CreateSale.interleaved acme (some { ProductID := 1, Quantity := 30 }) 11 noFaults
        acme (some { ProductID := 1, Quantity := 30 }) 12 noFaults scenarioA).2.2.saleSum 1
          = 60 ∧
      (CreateSale.interleaved acme (some { ProductID := 1, Quantity := 30 }) 11 noFaults
        acme (some { ProductID := 1, Quantity := 30 }) 12 noFaults scenarioA).2.2.product 1 1
          = some { chipsRow with Quantity := 20 } := by
  decide

end StockBack

namespace StockBack

/-! ### Employees, reports and the deletion of all products -/

/-- C27: a caller who is not an admin creates an employee user. The employee of "Acme",
whose token and whose user row carry the role "employee", posts a new user to the route of
`CreateEmployeeUser`: the answer is 201 and a user row is added. (The row has the role
"employee" and the business of the caller, not the role "admin" and the business 2 of the
body.) -/
theorem employee_creates_employee :
    employeeContext.role = some "employee" ∧
      scenarioStaff.user 2 = some employeeRow ∧ employeeRow.Role = "employee" ∧
      (SetupRoutes.usersCreateEmployee sampleEnv employeeContext (some joe) noFaults
        scenarioStaff).1
        = { status := 201,
            body := Body.employeeCreated "Employee user created successfully" 4 "Joe" "Hire"
              "joe@mail.test" "employee" 1 } ∧
      (SetupRoutes.usersCreateEmployee sampleEnv employeeContext (some joe) noFaults
        scenarioStaff).2.users
        = scenarioStaff.users ++
            [{ ID := 4, DeletedAt := none, FirstName := "Joe", LastName := "Hire",
               Email := "joe@mail.test", Password := "$2a$pw", Role := "employee",
               BusinessID := 1 }] := by
  decide

/-- C28 (amended): every row of the reports "current-stock", "added-stock" and "low-stock"
has the total `float64(Quantity) * Price`; every row of the report "sales" carries the
quantity and the stored total of a live sale of the business, next to the price the product
of that sale has when the report is made; and for every other report type the function
returns the error "invalid report type" and no rows. -/
theorem report_row_totals {F : Type} [Float64Ops F] (businessID : Nat) (reportType : String)
    (startDate endDate : Nat) (flt : Faults) (db : Store F) :
    (reportType = "current-stock" ∨ reportType = "added-stock" ∨ reportType = "low-stock" →
        ∀ row ∈ (fetchReportData businessID reportType startDate endDate flt db).1,
          row.TotalValue = Float64Ops.mul (Float64Ops.ofInt row.Quantity) row.Price) ∧
      (reportType = "sales" →
        ∀ row ∈ (fetchReportData businessID reportType startDate endDate flt db).1,
          ∃ sale ∈ db.sales, sale.DeletedAt = none ∧ sale.BusinessID = businessID ∧
            row.Quantity = sale.Quantity ∧ row.TotalValue = sale.Total ∧
            row.Price = (preloadProduct db sale.ProductID).Price) ∧
      (reportType ≠ "sales" → reportType ≠ "current-stock" → reportType ≠ "added-stock" →
        reportType ≠ "low-stock" →
        fetchReportData businessID reportType startDate endDate flt db
          = ([], "", some ReportError.invalidReportType)) := by
  refine ⟨?_, ?_, ?_⟩
  · intro hkind row hrow
    rcases hkind with hkind | hkind | hkind
    · subst hkind
      unfold fetchReportData at hrow
      rw [if_neg (by decide), if_pos (by decide)] at hrow
      cases hload : flt.load with
      | true => simp [hload] at hrow
      | false =>
        simp only [hload, Bool.false_eq_true, if_false, List.mem_map] at hrow
        obtain ⟨product, _, hrow⟩ := hrow
        subst hrow
        rfl
    · subst hkind
      unfold fetchReportData at hrow
      rw [if_neg (by decide), if_neg (by decide), if_pos (by decide)] at hrow
      dsimp only at hrow
      split_ifs at hrow with hfault
      · simp at hrow
      · simp only [List.mem_map] at hrow
        obtain ⟨addition, _, hrow⟩ := hrow
        subst hrow
        rfl
    · subst hkind
      unfold fetchReportData at hrow
      rw [if_neg (by decide), if_neg (by decide), if_neg (by decide), if_pos (by decide)]
        at hrow
      cases hload : flt.load with
      | true => simp [hload] at hrow
      | false =>
        simp only [hload, Bool.false_eq_true, if_false, List.mem_map] at hrow
        obtain ⟨product, _, hrow⟩ := hrow
        subst hrow
        rfl
  · intro hkind row hrow
    subst hkind
    unfold fetchReportData at hrow
    rw [if_pos (by decide)] at hrow
    dsimp only at hrow
    split_ifs at hrow with hfault
    · simp at hrow
    · simp only [List.mem_map] at hrow
      obtain ⟨sale, hsale, hrow⟩ := hrow
      subst hrow
      have hmem := List.mem_filter.mp hsale
      have hcond := hmem.2
      simp only [Bool.and_eq_true, beq_iff_eq, Option.isNone_iff_eq_none] at hcond
      exact ⟨sale, hmem.1, hcond.1, hcond.2.1, rfl, rfl, rfl⟩
  · intro h1 h2 h3 h4
    unfold fetchReportData
    simp [h1, h2, h3, h4]

/-- C28 (amended), witness: the reports of business 1 in scenario B, where 10 units of
"Chips" were sold at 2.00. -/
theorem report_row_totals_witness :
    (∀ row ∈ (fetchReportData 1 "current-stock" 0 100 noFaults scenarioB).1,
        row.TotalValue = Float64Ops.mul (Float64Ops.ofInt row.Quantity) row.Price) ∧
      (fetchReportData 1 "current-stock" 0 100 noFaults scenarioB).1
        = [{ Date := none, Product := "Chips", Quantity := 40, Price := 2,
             TotalValue := 80 }] ∧
      (∀ row ∈ (fetchReportData 1 "sales" 0 100 noFaults scenarioB).1,
        ∃ sale ∈ scenarioB.sales, sale.DeletedAt = none ∧ sale.BusinessID = 1 ∧
          row.Quantity = sale.Quantity ∧ row.TotalValue = sale.Total ∧
          row.Price = (preloadProduct scenarioB sale.ProductID).Price) ∧
      fetchReportData 1 "profit" 0 100 noFaults scenarioB
        = ([], "", some ReportError.invalidReportType) := by
  have h := report_row_totals 1 "current-stock" 0 100 noFaults scenarioB
  have h2 := report_row_totals 1 "sales" 0 100 noFaults scenarioB
  have h3 := report_row_totals 1 "profit" 0 100 noFaults scenarioB
  exact ⟨h.1 (Or.inl rfl), by decide, h2.2.1 rfl,
    h3.2.2 (by decide) (by decide) (by decide) (by decide)⟩

/-- C28, counterexample: 10 units of "Chips" were sold at 2.00, for a total of 20, and the
price was then changed to 3.00. The row of the sale in the sales report has the quantity
10, the price 3 and the total 20, which is not 10 × 3. -/
theorem sales_row_total_after_price_change :
    scenarioB.sales.map (fun sale => (sale.Quantity, sale.Total)) = [(10, 20)] ∧
      scenarioRepriced.product 1 1 = some { chipsRow with Quantity := 40, Price := 3 } ∧
      (fetchReportData 1 "sales" 0 100 noFaults scenarioRepriced).1
        = [{ Date := some 11, Product := "Chips", Quantity := 10, Price := 3,
             TotalValue := 20 }] ∧
      (∃ row ∈ (fetchReportData 1 "sales" 0 100 noFaults scenarioRepriced).1,
        row.TotalValue ≠ Float64Ops.mul (Float64Ops.ofInt row.Quantity) row.Price) := by
  refine ⟨by decide, by decide, by decide, ?_⟩
  exact ⟨{ Date := some 11, Product := "Chips", Quantity := 10, Price := 3, TotalValue := 20 },
    by decide, by decide⟩

/-- C29: the low-stock report and `LowStockItems` disagree on a product with exactly 10
units. Business 1 holds "Chips" at 10 units: `LowStockItems` lists it and `LowStock` counts
1, while the report of type "low-stock" has no row. -/
theorem low_stock_report_misses_ten :
    scenarioTen.products = [{ chipsRow with Quantity := 10 }] ∧
      (LowStockItems acme noFaults scenarioTen).1
        = { status := 200, body := Body.products [{ chipsRow with Quantity := 10 }] } ∧
      (LowStock acme noFaults scenarioTen).1
        = { status := 200, body := Body.count "lowstock" 1 } ∧
      fetchReportData 1 "low-stock" 0 100 noFaults scenarioTen
        = ([], "Low Stock Report", none) := by
  decide

/-- C30: `DeleteAll` answers every request with 500 "could not delete products" and never
with 200, whether its delete statement fails or not; when the statement does not fail,
every product row of every business is deleted afterwards, whatever the context of the
caller is, and when it fails the database is as it was. -/
theorem deleteAll_always_fails {F : Type} (c : Context) (now : Nat) (flt : Faults)
    (db : Store F) :
    (DeleteAll c now flt db).1
        = { status := 500, body := Body.error "could not delete products" } ∧
      (DeleteAll c now flt db).1.status ≠ 200 ∧
      (flt.write1 = false →
        (DeleteAll c now flt db).2.products = deleteProducts now db.products ∧
        (DeleteAll c now flt db).2.products.length = db.products.length ∧
        ∀ row ∈ (DeleteAll c now flt db).2.products, row.DeletedAt ≠ none) ∧
      (flt.write1 = true → (DeleteAll c now flt db).2 = db) := by
  refine ⟨rfl, by simp [DeleteAll], ?_, ?_⟩
  · intro hw
    simp only [DeleteAll, hw, Bool.false_eq_true, if_false]
    refine ⟨trivial, by simp [deleteProducts], ?_⟩
    intro row hrow
    unfold deleteProducts at hrow
    rw [List.mem_map] at hrow
    obtain ⟨old, _, hrow⟩ := hrow
    subst hrow
    cases hdel : old.DeletedAt with
    | none => simp [hdel]
    | some t => simp [hdel]
  · intro hw
    simp [DeleteAll, hw]

/-- C30, witness: the principal of business 2 calls `DeleteAll` on scenario A; the answer is
500 and "Chips", a product of business 1, is deleted. -/
theorem deleteAll_always_fails_witness :
    (DeleteAll rival 20 noFaults scenarioA).1.status = 500 ∧
      (DeleteAll rival 20 noFaults scenarioA).2.products
        = [{ chipsRow with DeletedAt := some 20 }] := by
  have h := deleteAll_always_fails rival 20 noFaults scenarioA
  have hdel := (h.2.2.1 rfl).1
  exact ⟨by rw [h.1], by rw [hdel]; decide⟩

end StockBack
